import Mathlib

/-!
# terraform-provider-pinecone: resource lifecycle

A shallow embedding of the index and collection resources
(`pinecone/provider/index_resource.go`, `pinecone/provider/collection_resource.go`)
and of the placement models (`pinecone/models/indexes.go`).

A handler mutates a response (diagnostics and state) and talks to the remote
control plane. Here a handler is a function from the answers of the control
plane (`Env`) and the decoded request to an `Outcome`: the final response, the
chronological trace of remote calls and state writes, and whether the Go code
hit a nil-pointer dereference.
-/

namespace Pinecone

/-! ## Plugin-framework values -/

/-- A framework attribute value (`types.String`, `types.Int64`, ...): null, unknown or known. -/
inductive TfValue (α : Type) where
  | null
  | unknown
  | known (v : α)
  deriving DecidableEq, Repr

/-- `IsNull()` of a framework value. -/
def TfValue.IsNull {α : Type} : TfValue α → Bool
  | .null => true
  | _ => false

/-- `IsUnknown()` of a framework value. -/
def TfValue.IsUnknown {α : Type} : TfValue α → Bool
  | .unknown => true
  | _ => false

/-- `ValueString()`: the known string, `""` for null and unknown. -/
def TfValue.ValueString : TfValue String → String
  | .known v => v
  | _ => ""

/-- `ValueInt64()`: the known integer, `0` for null and unknown. -/
def TfValue.ValueInt64 : TfValue Int → Int
  | .known v => v
  | _ => 0

/-- `ValueStringPointer()`: nil for null, otherwise a pointer to the held string. -/
def TfValue.ValueStringPointer : TfValue String → Option String
  | .null => none
  | .unknown => some ""
  | .known v => some v

/-- Severity of a diagnostic. -/
inductive Severity where
  | error
  | warning
  deriving DecidableEq, Repr

/-- One entry of `diag.Diagnostics`. -/
structure Diagnostic where
  severity : Severity
  summary : String
  detail : String
  deriving DecidableEq, Repr

/-- `Diagnostics.HasError()`. -/
def HasError (ds : List Diagnostic) : Bool :=
  ds.any (fun d => d.severity == Severity.error)

/-- `Diagnostics.Append(in...)`: each diagnostic that is not yet in the
collection is added at its end, in order. -/
def Diagnostics.Append (ds incoming : List Diagnostic) : List Diagnostic :=
  incoming.foldl (fun acc d => if acc.contains d then acc else acc ++ [d]) ds

/-- `Diagnostics.AddError(summary, detail)`: appends a new error diagnostic. -/
def AddError (ds : List Diagnostic) (summary detail : String) : List Diagnostic :=
  Diagnostics.Append ds [⟨Severity.error, summary, detail⟩]

/-! ## Durations and the timeouts block -/

/-- `time.Duration`, in nanoseconds. -/
abbrev Duration := Int

/-- `time.Second`. -/
def Second : Duration := 1000000000

/-- `time.Minute`. -/
def Minute : Duration := 60 * Second

/-- `time.Hour`. -/
def Hour : Duration := 60 * Minute

/-- One attribute of the `timeouts` block: not configured, a string that
`time.ParseDuration` accepts (held parsed), or a string it rejects. -/
inductive TimeoutAttr where
  | unset
  | parsed (d : Duration)
  | malformed (s : String)
  deriving DecidableEq, Repr

/-- The `timeouts.Value` of the index resource; the schema enables `create` and `delete`. -/
structure TimeoutsValue where
  create : TimeoutAttr
  delete : TimeoutAttr
  deriving DecidableEq, Repr

/-- The lookup shared by `timeouts.Value.Create` and `timeouts.Value.Delete`:
the default when the attribute is not configured, the parsed duration when it is,
and the default with an error diagnostic when the string does not parse. -/
def TimeoutAttr.getTimeout (a : TimeoutAttr) (defaultTimeout : Duration) :
    Duration × List Diagnostic :=
  match a with
  | .unset => (defaultTimeout, [])
  | .parsed d => (d, [])
  | .malformed s => (defaultTimeout, [⟨Severity.error, "Timeout Cannot Be Parsed", s⟩])

/-- `timeouts.Value.Create(ctx, default)`. -/
def TimeoutsValue.Create (t : TimeoutsValue) (defaultTimeout : Duration) :
    Duration × List Diagnostic :=
  t.create.getTimeout defaultTimeout

/-- `timeouts.Value.Delete(ctx, default)`. -/
def TimeoutsValue.Delete (t : TimeoutsValue) (defaultTimeout : Duration) :
    Duration × List Diagnostic :=
  t.delete.getTimeout defaultTimeout

/-! ## SDK types -/

/-- A Go `error` as the handlers see it: a `*pinecone.HTTPError` with its status
code, any other error, or the retry helper's own timeout error. -/
inductive GoError where
  | HTTPError (StatusCode : Int) (msg : String)
  | errorString (msg : String)
  | TimeoutError
  deriving DecidableEq, Repr

/-- `err.Error()`. -/
def GoError.Error : GoError → String
  | .HTTPError _ msg => msg
  | .errorString msg => msg
  | .TimeoutError => "timeout while waiting for state to become success"

/-- `pinecone.Index.Database`. The metadata configuration is the list of
indexed fields, nil when the index has none. -/
structure IndexDatabase where
  Name : String
  Dimension : Int
  Metric : String
  Pods : Int
  Replicas : Int
  PodType : String
  MetadataConfig : Option (List String)
  deriving DecidableEq, Repr

/-- `pinecone.Index.Status`. -/
structure IndexStatus where
  Ready : Bool
  State : String
  deriving DecidableEq, Repr

/-- `pinecone.Index` of the SDK the provider package uses. -/
structure Index where
  Database : IndexDatabase
  Status : IndexStatus
  deriving DecidableEq, Repr

/-- `pinecone.Collection`. -/
structure Collection where
  Name : String
  Size : Int
  Status : String
  deriving DecidableEq, Repr

/-- `pinecone.CreateIndexParams`. -/
structure CreateIndexParams where
  Name : String
  Dimension : Int
  Metric : String
  Pods : Int
  Replicas : Int
  PodType : String
  MetadataConfig : Option (List String)
  SourceCollection : Option String
  deriving DecidableEq, Repr

/-- `pinecone.ConfigureIndexParams`. -/
structure ConfigureIndexParams where
  Name : String
  Replicas : Int
  PodType : String
  deriving DecidableEq, Repr

/-- `pinecone.CreateCollectionParams`. -/
structure CreateCollectionParams where
  Name : String
  Source : String
  deriving DecidableEq, Repr

/-- The pair `(*pinecone.Index, error)` returned by `DescribeIndex`; the pointer may be nil. -/
structure DescribeIndexResult where
  index : Option Index
  err : Option GoError
  deriving DecidableEq, Repr

/-- The pair `(*pinecone.Collection, error)` returned by `DescribeCollection`. -/
structure DescribeCollectionResult where
  collection : Option Collection
  err : Option GoError
  deriving DecidableEq, Repr

/-! ## Resource models -/

/-- `IndexResourceModel` of `provider/index_resource.go`. The `metadata_config`
object is held as its single attribute, the list of indexed fields. -/
structure IndexResourceModel where
  Id : TfValue String
  Name : TfValue String
  Dimension : TfValue Int
  Metric : TfValue String
  Pods : TfValue Int
  Replicas : TfValue Int
  PodType : TfValue String
  MetadataConfig : TfValue (List String)
  SourceCollection : TfValue String
  Timeouts : TimeoutsValue
  deriving DecidableEq, Repr

/-- `CollectionResourceModel` of `provider/collection_resource.go`. -/
structure CollectionResourceModel where
  Id : TfValue String
  Name : TfValue String
  Source : TfValue String
  Size : TfValue Int
  Status : TfValue String
  deriving DecidableEq, Repr

/-- `readIndexData(ctx, index, model)` for a non-nil `index`: every field but
`SourceCollection` and `Timeouts` is overwritten from the observed index. -/
def readIndexData (index : Index) (model : IndexResourceModel) : IndexResourceModel :=
  { model with
    Id := .known index.Database.Name
    Name := .known index.Database.Name
    Dimension := .known index.Database.Dimension
    Metric := .known index.Database.Metric
    Pods := .known index.Database.Pods
    Replicas := .known index.Database.Replicas
    PodType := .known index.Database.PodType
    MetadataConfig :=
      match index.Database.MetadataConfig with
      | none => .null
      | some fields => .known fields }

/-- `readCollectionData(collection, model)` for a non-nil `collection`. -/
def readCollectionData (collection : Collection) (model : CollectionResourceModel) :
    CollectionResourceModel :=
  { model with
    Id := .known collection.Name
    Name := .known collection.Name
    Source := .known model.Source.ValueString
    Size := .known collection.Size
    Status := .known collection.Status }

/-! ## The remote control plane, the trace and the response -/

/-- One observable step of a handler: a remote call with its argument, or a
`resp.State.Set` with the model written. -/
inductive Event where
  | CreateIndex (payload : CreateIndexParams)
  | DescribeIndex (name : String)
  | ConfigureIndex (payload : ConfigureIndexParams)
  | DeleteIndex (name : String)
  | CreateCollection (payload : CreateCollectionParams)
  | DescribeCollection (name : String)
  | DeleteCollection (name : String)
  | StateSetIndex (model : IndexResourceModel)
  | StateSetCollection (model : CollectionResourceModel)
  deriving DecidableEq, Repr

/-- Whether the event is a `DescribeIndex` or `DescribeCollection` probe. -/
def Event.isProbe : Event → Bool
  | .DescribeIndex _ => true
  | .DescribeCollection _ => true
  | _ => false

/-- Whether the event is a state write. -/
def Event.isStateSet : Event → Bool
  | .StateSetIndex _ => true
  | .StateSetCollection _ => true
  | _ => false

/-- Whether the event is a remote call of any kind. -/
def Event.isRemoteCall : Event → Bool
  | .StateSetIndex _ => false
  | .StateSetCollection _ => false
  | _ => true

/-- The answers of the remote control plane during one handler call, and how
many attempts the retry helper fits into a timeout. A create, configure or
delete call is made at most once per handler call; the `i`-th describe call
(from 0) gets answer `i`. -/
structure Env where
  CreateIndex : Option GoError
  ConfigureIndex : Option GoError
  DeleteIndex : Option GoError
  DescribeIndex : Nat → DescribeIndexResult
  CreateCollection : Option GoError
  DeleteCollection : Option GoError
  DescribeCollection : Nat → DescribeCollectionResult
  attempts : Duration → Nat

/-- The result of `req.Plan.Get(ctx, &data)` or `req.State.Get(ctx, &data)`:
the decoded model and the diagnostics of the decoding. -/
structure Request (M : Type) where
  data : M
  diags : List Diagnostic
  deriving DecidableEq, Repr

/-- The response a handler fills in: its diagnostics and its state (`none`
while no state is held). -/
structure Response (M : Type) where
  Diagnostics : List Diagnostic
  State : Option M
  deriving DecidableEq, Repr

/-- `resp.State.Set(ctx, &data)` with its diagnostics appended to the response.
The model is the struct the schema was written for, so the write itself
succeeds and raises no diagnostic. -/
def Response.StateSet {M : Type} (resp : Response M) (data : M) : Response M :=
  { Diagnostics := Diagnostics.Append resp.Diagnostics [], State := some data }

/-- What one handler call did: the response at the end, the remote calls and
state writes in program order, and whether it stopped in a nil-pointer panic. -/
structure Outcome (M : Type) where
  resp : Response M
  trace : List Event
  panicked : Bool
  deriving DecidableEq, Repr

/-- A handler call that returned with response `resp` and no error diagnostic in it. -/
def Outcome.succeeded {M : Type} (o : Outcome M) : Bool :=
  !o.panicked && !HasError o.resp.Diagnostics

/-- The variables a retry closure captures and mutates: the model, the
response, the trace so far and the number of describe calls made so far. -/
structure Loop (M : Type) where
  data : M
  resp : Response M
  trace : List Event
  probes : Nat
  deriving DecidableEq, Repr

/-! ## The retry helper -/

/-- `*retry.RetryError` as built by `retry.RetryableError` and `retry.NonRetryableError`. -/
inductive RetryError where
  | Retryable (err : GoError)
  | NonRetryable (err : GoError)
  deriving DecidableEq, Repr

/-- One call of a retry closure: it returned a `*RetryError` (nil for success), or panicked. -/
inductive Attempt where
  | returned (r : Option RetryError)
  | panicked
  deriving DecidableEq, Repr

/-- What `retry.RetryContext` hands back: an error (nil for success), unless the closure panicked. -/
inductive WaitResult where
  | returned (err : Option GoError)
  | panicked
  deriving DecidableEq, Repr

/-- Modelled from the spec: `retry.RetryContext` of the external
terraform-plugin-sdk, the poll primitive of section 4.3. The closure `f` is
invoked until it returns nil (success, nil is returned), or a non-retryable
error (returned at once, no further attempt), or the timeout elapses. Time is
abstracted to the number of attempts that fit into the timeout; when they are
used up the helper returns the last retryable error, or its own timeout error
when the closure never ran. `last` is the error of the latest attempt. -/
def RetryContext {σ : Type} (f : σ → Attempt × σ) : Nat → Option GoError → σ → WaitResult × σ
  | 0, last, s => (.returned (some (last.getD GoError.TimeoutError)), s)
  | n + 1, _, s =>
    match f s with
    | (.panicked, s1) => (.panicked, s1)
    | (.returned none, s1) => (.returned none, s1)
    | (.returned (some (.NonRetryable err)), s1) => (.returned (some err), s1)
    | (.returned (some (.Retryable err)), s1) => RetryContext f n (some err) s1

/-! ## The index resource (`provider/index_resource.go`) -/

/-- `defaultIndexCreateTimeout`. -/
def defaultIndexCreateTimeout : Duration := 5 * Minute

/-- `defaultIndexDeleteTimeout`. -/
def defaultIndexDeleteTimeout : Duration := 5 * Minute

namespace IndexResource

/-- The payload `Create` builds from the plan. `MetadataConfig.As` is given the
payload's nil field by value and its diagnostics are dropped, so the field stays nil. -/
def createPayload (data : IndexResourceModel) : CreateIndexParams :=
  { Name := data.Name.ValueString
    Dimension := data.Dimension.ValueInt64
    Metric := data.Metric.ValueString
    Pods := data.Pods.ValueInt64
    Replicas := data.Replicas.ValueInt64
    PodType := data.PodType.ValueString
    MetadataConfig := none
    SourceCollection :=
      if !data.SourceCollection.IsNull then data.SourceCollection.ValueStringPointer else none }

/-- The closure `Create` passes to the retry helper (lines 207-221): probe,
refresh the model, write it to the state, then decide. A nil index makes
`readIndexData` panic. -/
def createProbe (env : Env) (s : Loop IndexResourceModel) : Attempt × Loop IndexResourceModel :=
  let r := env.DescribeIndex s.probes
  let s1 : Loop IndexResourceModel :=
    { s with probes := s.probes + 1, trace := s.trace ++ [Event.DescribeIndex s.data.Name.ValueString] }
  match r.index with
  | none => (.panicked, s1)
  | some index =>
    let data := readIndexData index s1.data
    let s2 : Loop IndexResourceModel :=
      { s1 with
        data := data
        resp := s1.resp.StateSet data
        trace := s1.trace ++ [Event.StateSetIndex data] }
    match r.err with
    | some err => (.returned (some (.NonRetryable err)), s2)
    | none =>
      if !index.Status.Ready then
        (.returned (some (.Retryable
          (.errorString ("index not ready. State: " ++ index.Status.State)))), s2)
      else
        (.returned none, s2)

/-- The wait of `Create` (lines 201-221) once `CreateIndex` was accepted: the
retry helper run on `createProbe` with the configured create timeout. -/
def createWait (env : Env) (createTimeout : Duration) (s : Loop IndexResourceModel) :
    WaitResult × Loop IndexResourceModel :=
  RetryContext (createProbe env) (env.attempts createTimeout) none s

/-- `IndexResource.Create`. -/
def Create (env : Env) (req : Request IndexResourceModel) (resp : Response IndexResourceModel) :
    Outcome IndexResourceModel :=
  let data := req.data
  let resp1 : Response IndexResourceModel :=
    { resp with Diagnostics := Diagnostics.Append resp.Diagnostics req.diags }
  if HasError resp1.Diagnostics then
    { resp := resp1, trace := [], panicked := false }
  else
    let payload := createPayload data
    match env.CreateIndex with
    | some err =>
      { resp := { resp1 with
                  Diagnostics := AddError resp1.Diagnostics "Failed to create index" err.Error }
        trace := [Event.CreateIndex payload]
        panicked := false }
    | none =>
      let t := data.Timeouts.Create defaultIndexCreateTimeout
      let resp2 : Response IndexResourceModel :=
        { resp1 with Diagnostics := Diagnostics.Append resp1.Diagnostics t.2 }
      if HasError resp2.Diagnostics then
        { resp := resp2, trace := [Event.CreateIndex payload], panicked := false }
      else
        match createWait env t.1
            { data := data, resp := resp2, trace := [Event.CreateIndex payload], probes := 0 } with
        | (.panicked, s) => { resp := s.resp, trace := s.trace, panicked := true }
        | (.returned (some err), s) =>
          { resp := { s.resp with
                      Diagnostics := AddError s.resp.Diagnostics
                        "Failed to wait for index to become ready." err.Error }
            trace := s.trace
            panicked := false }
        | (.returned none, s) =>
          { resp := s.resp.StateSet s.data
            trace := s.trace ++ [Event.StateSetIndex s.data]
            panicked := false }

/-- `IndexResource.Read`. -/
def Read (env : Env) (req : Request IndexResourceModel) (resp : Response IndexResourceModel) :
    Outcome IndexResourceModel :=
  let data := req.data
  let resp1 : Response IndexResourceModel :=
    { resp with Diagnostics := Diagnostics.Append resp.Diagnostics req.diags }
  if HasError resp1.Diagnostics then
    { resp := resp1, trace := [], panicked := false }
  else
    let r := env.DescribeIndex 0
    let trace := [Event.DescribeIndex data.Id.ValueString]
    match r.err with
    | some err =>
      { resp := { resp1 with
                  Diagnostics := AddError resp1.Diagnostics "Failed to describe index" err.Error }
        trace := trace
        panicked := false }
    | none =>
      match r.index with
      | none => { resp := resp1, trace := trace, panicked := true }
      | some index =>
        let data1 := readIndexData index data
        { resp := resp1.StateSet data1
          trace := trace ++ [Event.StateSetIndex data1]
          panicked := false }

/-- The payload `Update` builds from the plan. -/
def configurePayload (data : IndexResourceModel) : ConfigureIndexParams :=
  { Name := data.Name.ValueString
    Replicas := data.Replicas.ValueInt64
    PodType := data.PodType.ValueString }

/-- `IndexResource.Update`. -/
def Update (env : Env) (req : Request IndexResourceModel) (resp : Response IndexResourceModel) :
    Outcome IndexResourceModel :=
  let data := req.data
  let resp1 : Response IndexResourceModel :=
    { resp with Diagnostics := Diagnostics.Append resp.Diagnostics req.diags }
  if HasError resp1.Diagnostics then
    { resp := resp1, trace := [], panicked := false }
  else
    let payload := configurePayload data
    match env.ConfigureIndex with
    | some err =>
      { resp := { resp1 with
                  Diagnostics := AddError resp1.Diagnostics "Failed to update index" err.Error }
        trace := [Event.ConfigureIndex payload]
        panicked := false }
    | none =>
      let r := env.DescribeIndex 0
      let trace := [Event.ConfigureIndex payload, Event.DescribeIndex data.Id.ValueString]
      match r.err with
      | some err =>
        { resp := { resp1 with
                    Diagnostics := AddError resp1.Diagnostics "Failed to describe index" err.Error }
          trace := trace
          panicked := false }
      | none =>
        match r.index with
        | none => { resp := resp1, trace := trace, panicked := true }
        | some index =>
          let data1 := readIndexData index data
          { resp := resp1.StateSet data1
            trace := trace ++ [Event.StateSetIndex data1]
            panicked := false }

/-- The closure `Delete` passes to the retry helper (lines 313-322). The index
is only dereferenced when the probe returned no error. -/
def deleteProbe (env : Env) (s : Loop IndexResourceModel) : Attempt × Loop IndexResourceModel :=
  let r := env.DescribeIndex s.probes
  let s1 : Loop IndexResourceModel :=
    { s with probes := s.probes + 1, trace := s.trace ++ [Event.DescribeIndex s.data.Id.ValueString] }
  match r.err with
  | some err =>
    match err with
    | .HTTPError code _ =>
      if code = 404 then (.returned none, s1) else (.returned (some (.NonRetryable err)), s1)
    | _ => (.returned (some (.NonRetryable err)), s1)
  | none =>
    match r.index with
    | none => (.panicked, s1)
    | some index =>
      (.returned (some (.Retryable
        (.errorString ("index not deleted. State: " ++ index.Status.State)))), s1)

/-- The timeout `Delete` computes for its wait (line 307), with the diagnostics of the lookup. -/
def deleteTimeout (data : IndexResourceModel) : Duration × List Diagnostic :=
  data.Timeouts.Create defaultIndexDeleteTimeout

/-- The wait of `Delete` (lines 313-322) once `DeleteIndex` was accepted. -/
def deleteWait (env : Env) (timeout : Duration) (s : Loop IndexResourceModel) :
    WaitResult × Loop IndexResourceModel :=
  RetryContext (deleteProbe env) (env.attempts timeout) none s

/-- `IndexResource.Delete`. -/
def Delete (env : Env) (req : Request IndexResourceModel) (resp : Response IndexResourceModel) :
    Outcome IndexResourceModel :=
  let data := req.data
  let resp1 : Response IndexResourceModel :=
    { resp with Diagnostics := Diagnostics.Append resp.Diagnostics req.diags }
  if HasError resp1.Diagnostics then
    { resp := resp1, trace := [], panicked := false }
  else
    let trace := [Event.DeleteIndex data.Name.ValueString]
    match env.DeleteIndex with
    | some err =>
      { resp := { resp1 with
                  Diagnostics := AddError resp1.Diagnostics "Failed to delete index" err.Error }
        trace := trace
        panicked := false }
    | none =>
      let t := deleteTimeout data
      let resp2 : Response IndexResourceModel :=
        { resp1 with Diagnostics := Diagnostics.Append resp1.Diagnostics t.2 }
      if HasError resp2.Diagnostics then
        { resp := resp2, trace := trace, panicked := false }
      else
        match deleteWait env t.1 { data := data, resp := resp2, trace := trace, probes := 0 } with
        | (.panicked, s) => { resp := s.resp, trace := s.trace, panicked := true }
        | (.returned (some err), s) =>
          { resp := { s.resp with
                      Diagnostics := AddError s.resp.Diagnostics
                        "Failed to wait for index to be deleted." err.Error }
            trace := s.trace
            panicked := false }
        | (.returned none, s) => { resp := s.resp, trace := s.trace, panicked := false }

end IndexResource

/-! ## The collection resource (`provider/collection_resource.go`) -/

namespace CollectionResource

/-- The payload `Create` builds from the plan. -/
def createPayload (data : CollectionResourceModel) : CreateCollectionParams :=
  { Name := data.Name.ValueString
    Source := data.Source.ValueString }

/-- The closure `Create` passes to the retry helper (lines 111-125). A nil
collection makes `readCollectionData` panic. -/
def createProbe (env : Env) (s : Loop CollectionResourceModel) :
    Attempt × Loop CollectionResourceModel :=
  let r := env.DescribeCollection s.probes
  let s1 : Loop CollectionResourceModel :=
    { s with
      probes := s.probes + 1
      trace := s.trace ++ [Event.DescribeCollection s.data.Name.ValueString] }
  match r.collection with
  | none => (.panicked, s1)
  | some collection =>
    let data := readCollectionData collection s1.data
    let s2 : Loop CollectionResourceModel :=
      { s1 with
        data := data
        resp := s1.resp.StateSet data
        trace := s1.trace ++ [Event.StateSetCollection data] }
    match r.err with
    | some err => (.returned (some (.NonRetryable err)), s2)
    | none =>
      if collection.Status ≠ "Ready" then
        (.returned (some (.Retryable
          (.errorString ("collection not ready. State: " ++ collection.Status)))), s2)
      else
        (.returned none, s2)

/-- The wait of `Create` (lines 110-125); the timeout is the constant one hour. -/
def createWait (env : Env) (s : Loop CollectionResourceModel) :
    WaitResult × Loop CollectionResourceModel :=
  RetryContext (createProbe env) (env.attempts (1 * Hour)) none s

/-- `CollectionResource.Create`. -/
def Create (env : Env) (req : Request CollectionResourceModel)
    (resp : Response CollectionResourceModel) : Outcome CollectionResourceModel :=
  let data := req.data
  let resp1 : Response CollectionResourceModel :=
    { resp with Diagnostics := Diagnostics.Append resp.Diagnostics req.diags }
  if HasError resp1.Diagnostics then
    { resp := resp1, trace := [], panicked := false }
  else
    let payload := createPayload data
    match env.CreateCollection with
    | some err =>
      { resp := { resp1 with
                  Diagnostics := AddError resp1.Diagnostics "Failed to create collection" err.Error }
        trace := [Event.CreateCollection payload]
        panicked := false }
    | none =>
      match createWait env
          { data := data, resp := resp1, trace := [Event.CreateCollection payload], probes := 0 } with
      | (.panicked, s) => { resp := s.resp, trace := s.trace, panicked := true }
      | (.returned (some err), s) =>
        { resp := { s.resp with
                    Diagnostics := AddError s.resp.Diagnostics
                      "Failed to wait for collection to become ready." err.Error }
          trace := s.trace
          panicked := false }
      | (.returned none, s) =>
        { resp := s.resp.StateSet s.data
          trace := s.trace ++ [Event.StateSetCollection s.data]
          panicked := false }

/-- `CollectionResource.Read`. -/
def Read (env : Env) (req : Request CollectionResourceModel)
    (resp : Response CollectionResourceModel) : Outcome CollectionResourceModel :=
  let data := req.data
  let resp1 : Response CollectionResourceModel :=
    { resp with Diagnostics := Diagnostics.Append resp.Diagnostics req.diags }
  if HasError resp1.Diagnostics then
    { resp := resp1, trace := [], panicked := false }
  else
    let r := env.DescribeCollection 0
    let trace := [Event.DescribeCollection data.Id.ValueString]
    match r.err with
    | some err =>
      { resp := { resp1 with
                  Diagnostics := AddError resp1.Diagnostics "Failed to describe collection" err.Error }
        trace := trace
        panicked := false }
    | none =>
      match r.collection with
      | none => { resp := resp1, trace := trace, panicked := true }
      | some collection =>
        let data1 := readCollectionData collection data
        { resp := resp1.StateSet data1
          trace := trace ++ [Event.StateSetCollection data1]
          panicked := false }

/-- `CollectionResource.Update`: the body is empty, the request, the client
and the response are not touched. -/
def Update (_env : Env) (_req : Request CollectionResourceModel)
    (resp : Response CollectionResourceModel) : Outcome CollectionResourceModel :=
  { resp := resp, trace := [], panicked := false }

/-- The closure `Delete` passes to the retry helper (lines 171-182). The log
line reads `collection.Status` before the error is looked at, so a nil
collection panics whatever the error. -/
def deleteProbe (env : Env) (s : Loop CollectionResourceModel) :
    Attempt × Loop CollectionResourceModel :=
  let r := env.DescribeCollection s.probes
  let s1 : Loop CollectionResourceModel :=
    { s with
      probes := s.probes + 1
      trace := s.trace ++ [Event.DescribeCollection s.data.Id.ValueString] }
  match r.collection with
  | none => (.panicked, s1)
  | some collection =>
    match r.err with
    | some err =>
      match err with
      | .HTTPError code _ =>
        if code = 404 then (.returned none, s1) else (.returned (some (.NonRetryable err)), s1)
      | _ => (.returned (some (.NonRetryable err)), s1)
    | none =>
      (.returned (some (.Retryable
        (.errorString ("collection not deleted. State: " ++ collection.Status)))), s1)

/-- The wait of `Delete` (lines 170-182); the timeout is the constant one hour. -/
def deleteWait (env : Env) (s : Loop CollectionResourceModel) :
    WaitResult × Loop CollectionResourceModel :=
  RetryContext (deleteProbe env) (env.attempts (1 * Hour)) none s

/-- `CollectionResource.Delete`. -/
def Delete (env : Env) (req : Request CollectionResourceModel)
    (resp : Response CollectionResourceModel) : Outcome CollectionResourceModel :=
  let data := req.data
  let resp1 : Response CollectionResourceModel :=
    { resp with Diagnostics := Diagnostics.Append resp.Diagnostics req.diags }
  if HasError resp1.Diagnostics then
    { resp := resp1, trace := [], panicked := false }
  else
    let trace := [Event.DeleteCollection data.Name.ValueString]
    match env.DeleteCollection with
    | some err =>
      { resp := { resp1 with
                  Diagnostics := AddError resp1.Diagnostics "Failed to delete collection" err.Error }
        trace := trace
        panicked := false }
    | none =>
      match deleteWait env { data := data, resp := resp1, trace := trace, probes := 0 } with
      | (.panicked, s) => { resp := s.resp, trace := s.trace, panicked := true }
      | (.returned (some err), s) =>
        { resp := { s.resp with
                    Diagnostics := AddError s.resp.Diagnostics
                      "Failed to wait for collection to be deleted." err.Error }
          trace := s.trace
          panicked := false }
      | (.returned none, s) => { resp := s.resp, trace := s.trace, panicked := false }

end CollectionResource

/-! ## Placement models (`models/indexes.go`) -/

/-- `IndexPodSpecModel`. -/
structure IndexPodSpecModel where
  Environment : TfValue String
  Replicas : TfValue Int
  ShardCount : TfValue Int
  PodType : TfValue String
  PodCount : TfValue Int
  MetadataConfig : TfValue (TfValue (List String))
  SourceCollection : TfValue String
  deriving DecidableEq, Repr

/-- `IndexServerlessSpecModel`. -/
structure IndexServerlessSpecModel where
  Cloud : TfValue String
  Region : TfValue String
  deriving DecidableEq, Repr

/-- `IndexSpecModel`: two independently nullable pointers. -/
structure IndexSpecModel where
  Pod : Option IndexPodSpecModel
  Serverless : Option IndexServerlessSpecModel
  deriving DecidableEq, Repr

end Pinecone

namespace Pinecone

/-! ## Probe classification -/

/-- The probe answered with a `*pinecone.HTTPError` whose status code is 404. -/
def isNotFound : Option GoError → Bool
  | some (.HTTPError code _) => decide (code = 404)
  | _ => false

/-- The index probe returned an index and no error: the index is still there. -/
def DescribeIndexResult.present (r : DescribeIndexResult) : Bool :=
  r.index.isSome && r.err.isNone

/-- The collection probe returned a collection and no error. -/
def DescribeCollectionResult.present (r : DescribeCollectionResult) : Bool :=
  r.collection.isSome && r.err.isNone

namespace IndexResource

/-- The decision of `createProbe` as a function of the probe's answer. -/
def createDecision (r : DescribeIndexResult) : Attempt :=
  match r.index with
  | none => .panicked
  | some index =>
    match r.err with
    | some err => .returned (some (.NonRetryable err))
    | none =>
      if !index.Status.Ready then
        .returned (some (.Retryable
          (.errorString ("index not ready. State: " ++ index.Status.State))))
      else
        .returned none

/-- The decision of `deleteProbe` as a function of the probe's answer. -/
def deleteDecision (r : DescribeIndexResult) : Attempt :=
  match r.err with
  | some err =>
    match err with
    | .HTTPError code _ =>
      if code = 404 then .returned none else .returned (some (.NonRetryable err))
    | _ => .returned (some (.NonRetryable err))
  | none =>
    match r.index with
    | none => .panicked
    | some index =>
      .returned (some (.Retryable
        (.errorString ("index not deleted. State: " ++ index.Status.State))))

end IndexResource

namespace CollectionResource

/-- The decision of `createProbe` as a function of the probe's answer. -/
def createDecision (r : DescribeCollectionResult) : Attempt :=
  match r.collection with
  | none => .panicked
  | some collection =>
    match r.err with
    | some err => .returned (some (.NonRetryable err))
    | none =>
      if collection.Status ≠ "Ready" then
        .returned (some (.Retryable
          (.errorString ("collection not ready. State: " ++ collection.Status))))
      else
        .returned none

/-- The decision of `deleteProbe` as a function of the probe's answer. -/
def deleteDecision (r : DescribeCollectionResult) : Attempt :=
  match r.collection with
  | none => .panicked
  | some collection =>
    match r.err with
    | some err =>
      match err with
      | .HTTPError code _ =>
        if code = 404 then .returned none else .returned (some (.NonRetryable err))
      | _ => .returned (some (.NonRetryable err))
    | none =>
      .returned (some (.Retryable
        (.errorString ("collection not deleted. State: " ++ collection.Status))))

end CollectionResource

/-! ## Concrete inputs -/

/-- The plan of the scenario: index `widget`, dimension 512, cosine, one `s1.x1` pod. -/
def widgetPlan : IndexResourceModel :=
  { Id := .unknown
    Name := .known "widget"
    Dimension := .known 512
    Metric := .known "cosine"
    Pods := .known 1
    Replicas := .known 1
    PodType := .known "s1.x1"
    MetadataConfig := .null
    SourceCollection := .null
    Timeouts := { create := .unset, delete := .unset } }

/-- The index `widget` as the control plane reports it, with the given readiness and state label. -/
def widgetIndex (ready : Bool) (state : String) : Index :=
  { Database :=
      { Name := "widget", Dimension := 512, Metric := "cosine", Pods := 1, Replicas := 1,
        PodType := "s1.x1", MetadataConfig := none }
    Status := { Ready := ready, State := state } }

/-- The state of the index `widget` once created. -/
def widgetState : IndexResourceModel :=
  readIndexData (widgetIndex true "Ready") widgetPlan

/-- The zero value of `pinecone.Index`. -/
def zeroIndex : Index :=
  { Database :=
      { Name := "", Dimension := 0, Metric := "", Pods := 0, Replicas := 0, PodType := "",
        MetadataConfig := none }
    Status := { Ready := false, State := "" } }

/-- The zero value of `pinecone.Collection`. -/
def zeroCollection : Collection :=
  { Name := "", Size := 0, Status := "" }

/-- A control plane that accepts every call, answers every probe with a 404
error next to a zero-valued result, and lets the retry helper make ten attempts
whatever the timeout. -/
def emptyEnv : Env :=
  { CreateIndex := none
    ConfigureIndex := none
    DeleteIndex := none
    DescribeIndex := fun _ => ⟨some zeroIndex, some (.HTTPError 404 "not found")⟩
    CreateCollection := none
    DeleteCollection := none
    DescribeCollection := fun _ => ⟨some zeroCollection, some (.HTTPError 404 "not found")⟩
    attempts := fun _ => 10 }

/-- The scenario of the spec: the index is reported `Initializing` twice, then `Ready`. -/
def scenarioEnv : Env :=
  { emptyEnv with
    DescribeIndex := fun i =>
      if i < 2 then ⟨some (widgetIndex false "Initializing"), none⟩
      else ⟨some (widgetIndex true "Ready"), none⟩ }

/-- A response with no diagnostics and no state. -/
def emptyResponse (M : Type) : Response M :=
  { Diagnostics := [], State := none }

end Pinecone

namespace Pinecone

/-- A plan for a collection `snap` of the index `widget`. -/
def snapPlan : CollectionResourceModel :=
  { Id := .unknown
    Name := .known "snap"
    Source := .known "widget"
    Size := .unknown
    Status := .unknown }

/-- A control plane that rejects both create calls. -/
def rejectingEnv : Env :=
  { emptyEnv with
    CreateIndex := some (.HTTPError 400 "bad request")
    CreateCollection := some (.HTTPError 404 "source index not found") }

end Pinecone

namespace Pinecone

/-- The state of the collection `snap` once created. -/
def snapState : CollectionResourceModel :=
  { Id := .known "snap"
    Name := .known "snap"
    Source := .known "widget"
    Size := .known 1024
    Status := .known "Ready" }

/-- A control plane on which a deletion takes effect after a while: the index
is still reported twice, the collection once, then both are gone. -/
def deletingEnv : Env :=
  { emptyEnv with
    DescribeIndex := fun i =>
      if i < 2 then ⟨some (widgetIndex false "Terminating"), none⟩
      else ⟨some zeroIndex, some (.HTTPError 404 "not found")⟩
    DescribeCollection := fun i =>
      if i < 1 then ⟨some ⟨"snap", 1024, "Terminating"⟩, none⟩
      else ⟨some zeroCollection, some (.HTTPError 404 "not found")⟩ }

end Pinecone

namespace Pinecone

/-- A control plane on which the index is already absent: the delete call and
every probe answer not-found. -/
def absentEnv : Env :=
  { emptyEnv with DeleteIndex := some (.HTTPError 404 "not found") }

end Pinecone

namespace Pinecone

/-- A plan for `widget` in which no placement attribute is set. -/
def barePlan : IndexResourceModel :=
  { widgetPlan with Pods := .null, Replicas := .null, PodType := .null }

/-- A pod placement. -/
def examplePodSpec : IndexPodSpecModel :=
  { Environment := .known "us-west4-gcp"
    Replicas := .known 1
    ShardCount := .known 1
    PodType := .known "s1.x1"
    PodCount := .known 1
    MetadataConfig := .null
    SourceCollection := .null }

/-- A serverless placement. -/
def exampleServerlessSpec : IndexServerlessSpecModel :=
  { Cloud := .known "aws", Region := .known "us-west-2" }

end Pinecone

namespace Pinecone

/-- The state of `widget` with a create timeout of one second and a delete
timeout of ten minutes configured. -/
def timedState : IndexResourceModel :=
  { widgetState with
    Timeouts := { create := .parsed (1 * Second), delete := .parsed (10 * Minute) } }

/-- A control plane on which the index is gone at the third probe, and on which
the retry helper fits one attempt into less than ten minutes and five attempts
into ten minutes or more. -/
def slowEnv : Env :=
  { deletingEnv with attempts := fun t => if t < 10 * Minute then 1 else 5 }

end Pinecone

namespace Pinecone

/-- A control plane that reports the collection `snap` with status `ready`,
then `READY`, then `Ready`. -/
def casingEnv : Env :=
  { emptyEnv with
    DescribeCollection := fun i =>
      if i < 1 then ⟨some ⟨"snap", 0, "ready"⟩, none⟩
      else if i < 2 then ⟨some ⟨"snap", 0, "READY"⟩, none⟩
      else ⟨some ⟨"snap", 1024, "Ready"⟩, none⟩ }

/-- A control plane that reports the collection `snap` with status `ready` for ever. -/
def lowercaseEnv : Env :=
  { emptyEnv with DescribeCollection := fun _ => ⟨some ⟨"snap", 1024, "ready"⟩, none⟩ }

end Pinecone

namespace Pinecone

/-! ## The schema of the index resource -/

/-- `int64validator.AtLeast(min)` of the framework validators, as the verdict on
one attribute value: a known value passes exactly when it is at least `min`;
null and unknown values are not validated. -/
def int64validator.AtLeast (min : Int) : TfValue Int → Bool
  | .known v => decide (min ≤ v)
  | _ => true

namespace IndexResource

/-- The `Validators` of the `dimension` attribute (schema, lines 91-97). -/
def dimensionValidators : List (TfValue Int → Bool) :=
  [int64validator.AtLeast 512]

/-- Whether the schema accepts a value for `dimension`: every validator passes. -/
def dimensionAccepted (v : TfValue Int) : Bool :=
  dimensionValidators.all (fun validate => validate v)

end IndexResource

/-! ## Placement conversions (`models/indexes.go`) -/

/-- One character as `strconv.Quote` writes it: the double quote, the backslash
and the newline, carriage return and tab get their two-character escape, any
other character is kept. The longer escapes of further non-printable characters
are not modelled. -/
def quoteChar (c : Char) : List Char :=
  if c = Char.ofNat 34 then [Char.ofNat 92, Char.ofNat 34]
  else if c = Char.ofNat 92 then [Char.ofNat 92, Char.ofNat 92]
  else if c = Char.ofNat 10 then [Char.ofNat 92, 'n']
  else if c = Char.ofNat 13 then [Char.ofNat 92, 'r']
  else if c = Char.ofNat 9 then [Char.ofNat 92, 't']
  else [c]

/-- The characters of a string, each as `strconv.Quote` writes it. -/
def quoteChars : List Char → List Char
  | [] => []
  | c :: cs => quoteChar c ++ quoteChars cs

/-- `strconv.Quote(s)`, what `fmt.Sprintf` yields for the verb `%q`: the string
between double quotes, with its characters escaped. -/
def strconvQuote (s : String) : String :=
  String.mk ([Char.ofNat 34] ++ quoteChars s.data ++ [Char.ofNat 34])

/-- `String()` of `basetypes.StringValue`, the human-readable form: the quoted
value when known, a marker for null and unknown. -/
def TfValue.StringRepr : TfValue String → String
  | .unknown => "<unknown>"
  | .null => "<null>"
  | .known v => strconvQuote v

/-- `pinecone.ServerlessSpec`; `Cloud` is a string type. -/
structure ServerlessSpec where
  Cloud : String
  Region : String
  deriving DecidableEq, Repr

/-- `NewIndexServerlessSpec`. -/
def NewIndexServerlessSpec : Option IndexServerlessSpecModel → Option ServerlessSpec
  | some spec => some { Cloud := spec.Cloud.StringRepr, Region := spec.Region.ValueString }
  | none => none

/-- `NewIndexServerlessSpecModel`. -/
def NewIndexServerlessSpecModel : Option ServerlessSpec → Option IndexServerlessSpecModel
  | some spec => some { Cloud := .known spec.Cloud, Region := .known spec.Region }
  | none => none

/-- `pinecone.PodSpecMetadataConfig`. -/
structure PodSpecMetadataConfig where
  Indexed : Option (List String)
  deriving DecidableEq, Repr

/-- `pinecone.PodSpec`; the three counts are `int32`. -/
structure PodSpec where
  Environment : String
  PodType : String
  PodCount : Int
  Replicas : Int
  ShardCount : Int
  SourceCollection : Option String
  MetadataConfig : Option PodSpecMetadataConfig
  deriving DecidableEq, Repr

/-- The Go conversion `int32(x)` of an `int64`: the value modulo `2^32`, in the signed range. -/
def int32 (x : Int) : Int :=
  (x + 2147483648) % 4294967296 - 2147483648

/-- `NewIndexPodSpec`. `As` stands for the framework's `MetadataConfig.As`,
which fills the target struct and returns diagnostics; it is run unless the
object is unknown. The source collection of the model is not carried over. -/
def NewIndexPodSpec
    (As : TfValue (TfValue (List String)) → PodSpecMetadataConfig × List Diagnostic) :
    Option IndexPodSpecModel → Option PodSpec × List Diagnostic
  | some spec =>
    let newSpec : PodSpec :=
      { Environment := spec.Environment.ValueString
        PodCount := int32 spec.PodCount.ValueInt64
        PodType := spec.PodType.ValueString
        Replicas := int32 spec.Replicas.ValueInt64
        ShardCount := int32 spec.ShardCount.ValueInt64
        SourceCollection := none
        MetadataConfig := none }
    let zeroConfig : PodSpecMetadataConfig := { Indexed := none }
    if !spec.MetadataConfig.IsUnknown then
      let r := As spec.MetadataConfig
      if HasError r.2 then (none, r.2)
      else (some { newSpec with MetadataConfig := some r.1 }, [])
    else
      (some { newSpec with MetadataConfig := some zeroConfig }, [])
  | none => (none, [])

/-- `NewIndexPodSpecModel`. `ListValueFrom` of a string slice and
`ObjectValueFrom` of the one-attribute object raise no diagnostics: a nil
`Indexed` gives a null list, a nil `MetadataConfig` too, and the object is known. -/
def NewIndexPodSpecModel : Option PodSpec → Option IndexPodSpecModel × List Diagnostic
  | some spec =>
    let indexed : TfValue (List String) :=
      match spec.MetadataConfig with
      | some config =>
        match config.Indexed with
        | some fields => .known fields
        | none => .null
      | none => .null
    (some
      { Environment := .known spec.Environment
        PodCount := .known spec.PodCount
        PodType := .known spec.PodType
        Replicas := .known spec.Replicas
        ShardCount := .known spec.ShardCount
        SourceCollection :=
          match spec.SourceCollection with
          | some name => .known name
          | none => .null
        MetadataConfig := .known indexed }, [])
  | none => (none, [])

end Pinecone

namespace Pinecone

/-- A control plane whose lookups fail with a server error, handing back a
zero-valued result next to the error. -/
def serverErrorEnv : Env :=
  { emptyEnv with
    DescribeIndex := fun _ => ⟨some zeroIndex, some (.HTTPError 500 "internal error")⟩
    DescribeCollection := fun _ =>
      ⟨some zeroCollection, some (.HTTPError 500 "internal error")⟩ }

/-- A control plane whose lookups fail with a server error and hand back a nil pointer. -/
def nilErrorEnv : Env :=
  { emptyEnv with
    DescribeIndex := fun _ => ⟨none, some (.HTTPError 500 "internal error")⟩
    DescribeCollection := fun _ => ⟨none, some (.HTTPError 500 "internal error")⟩ }

end Pinecone

namespace Pinecone

/-- A serverless placement as the SDK holds it. -/
def awsServerless : ServerlessSpec :=
  { Cloud := "aws", Region := "us-west-2" }

/-- The string `aws` between double quotes, five characters long. -/
def quotedAws : String :=
  String.mk [Char.ofNat 34, 'a', 'w', 's', Char.ofNat 34]

end Pinecone

namespace Pinecone

/-- A decoder in the place of `MetadataConfig.As` that accepts every object and
copies the indexed fields when they are known. -/
def lenientAs : TfValue (TfValue (List String)) → PodSpecMetadataConfig × List Diagnostic
  | .known (.known fields) => ({ Indexed := some fields }, [])
  | _ => ({ Indexed := none }, [])

/-- A pod placement created from the collection `snap`, as the SDK holds it. -/
def snapshotPod : PodSpec :=
  { Environment := "us-west4-gcp"
    PodType := "s1.x1"
    PodCount := 1
    Replicas := 1
    ShardCount := 1
    SourceCollection := some "snap"
    MetadataConfig := none }

end Pinecone

namespace Pinecone

/-- The state of the collection `snap` right after an import by id: only the id is set. -/
def importedState : CollectionResourceModel :=
  { Id := .known "snap", Name := .null, Source := .null, Size := .null, Status := .null }

/-- The collection `snap` as the control plane reports it. -/
def snapCollection : Collection :=
  { Name := "snap", Size := 1024, Status := "Ready" }

end Pinecone

namespace Pinecone

/-- A plan that scales the index `widget` of the state to two `p1.x2` replicas. -/
def scaledPlan : IndexResourceModel :=
  { widgetState with Replicas := .known 2, PodType := .known "p1.x2" }

end Pinecone

namespace Pinecone

/-- A control plane on which the resource is gone: every lookup fails with
not-found (HTTP 404) and hands back a nil pointer. -/
def goneEnv : Env :=
  { emptyEnv with
    DescribeIndex := fun _ => ⟨none, some (.HTTPError 404 "not found")⟩
    DescribeCollection := fun _ => ⟨none, some (.HTTPError 404 "not found")⟩ }

end Pinecone

namespace Pinecone

/-- The model of the index `widget` with every attribute as the control plane
reports it, and the source collection and timeouts of `widgetPlan`. -/
def widgetRecord : IndexResourceModel :=
  { Id := .known "widget"
    Name := .known "widget"
    Dimension := .known 512
    Metric := .known "cosine"
    Pods := .known 1
    Replicas := .known 1
    PodType := .known "s1.x1"
    MetadataConfig := .null
    SourceCollection := .null
    Timeouts := { create := .unset, delete := .unset } }

end Pinecone

namespace Pinecone

/-! ## Diagnostics and state writes -/

@[simp]
theorem Diagnostics.Append_nil (ds : List Diagnostic) : Diagnostics.Append ds [] = ds := rfl

@[simp]
theorem Response.StateSet_Diagnostics {M : Type} (resp : Response M) (data : M) :
    (resp.StateSet data).Diagnostics = resp.Diagnostics := rfl

@[simp]
theorem Response.StateSet_State {M : Type} (resp : Response M) (data : M) :
    (resp.StateSet data).State = some data := rfl

/-! ## The retry helper: general facts -/

section Retry

variable {σ : Type} (f : σ → Attempt × σ)

theorem RetryContext_zero (last : Option GoError) (s : σ) :
    RetryContext f 0 last s = (.returned (some (last.getD GoError.TimeoutError)), s) := rfl

theorem RetryContext_succ_done {s s1 : σ} (n : Nat) (last : Option GoError)
    (h : f s = (.returned none, s1)) :
    RetryContext f (n + 1) last s = (.returned none, s1) := by
  simp [RetryContext, h]

theorem RetryContext_succ_retry {s s1 : σ} {e : GoError} (n : Nat) (last : Option GoError)
    (h : f s = (.returned (some (.Retryable e)), s1)) :
    RetryContext f (n + 1) last s = RetryContext f n (some e) s1 := by
  simp [RetryContext, h]

theorem RetryContext_succ_fail {s s1 : σ} {e : GoError} (n : Nat) (last : Option GoError)
    (h : f s = (.returned (some (.NonRetryable e)), s1)) :
    RetryContext f (n + 1) last s = (.returned (some e), s1) := by
  simp [RetryContext, h]

theorem RetryContext_succ_panic {s s1 : σ} (n : Nat) (last : Option GoError)
    (h : f s = (.panicked, s1)) :
    RetryContext f (n + 1) last s = (.panicked, s1) := by
  simp [RetryContext, h]

/-- A property of the captured variables that every attempt preserves holds when the helper returns. -/
theorem RetryContext_invariant (I : σ → Prop) (hI : ∀ s, I s → I (f s).2) :
    ∀ (n : Nat) (last : Option GoError) (s : σ), I s → I (RetryContext f n last s).2 := by
  intro n
  induction n with
  | zero => intro last s hs; simpa [RetryContext] using hs
  | succ n ih =>
    intro last s hs
    have h1 := hI s hs
    rcases hfs : f s with ⟨a, s1⟩
    rw [hfs] at h1
    cases a with
    | panicked => rw [RetryContext_succ_panic f n last hfs]; exact h1
    | returned r =>
      cases r with
      | none => rw [RetryContext_succ_done f n last hfs]; exact h1
      | some re =>
        cases re with
        | Retryable e => rw [RetryContext_succ_retry f n last hfs]; exact ih _ _ h1
        | NonRetryable e => rw [RetryContext_succ_fail f n last hfs]; exact h1

/-- A property that every attempt that does not panic preserves holds when the
helper returns without a panic. -/
theorem RetryContext_invariant_of_no_panic (I : σ → Prop)
    (hI : ∀ s, (f s).1 ≠ Attempt.panicked → I s → I (f s).2) :
    ∀ (n : Nat) (last : Option GoError) (s : σ), I s →
      (RetryContext f n last s).1 ≠ WaitResult.panicked → I (RetryContext f n last s).2 := by
  intro n
  induction n with
  | zero => intro last s hs _; simpa [RetryContext] using hs
  | succ n ih =>
    intro last s hs
    have h1 := hI s
    rcases hfs : f s with ⟨a, s1⟩
    rw [hfs] at h1
    cases a with
    | panicked => rw [RetryContext_succ_panic f n last hfs]; intro h; exact absurd rfl h
    | returned r =>
      have h2 := h1 (by simp) hs
      cases r with
      | none => rw [RetryContext_succ_done f n last hfs]; intro _; exact h2
      | some re =>
        cases re with
        | Retryable e => rw [RetryContext_succ_retry f n last hfs]; exact ih _ _ h2
        | NonRetryable e => rw [RetryContext_succ_fail f n last hfs]; intro _; exact h2

variable (pc : σ → Nat) (d : Nat → Attempt)

/-- When attempt number `i` decides `d i`: the helper returns nil only if some
attempt within the budget decided nil and all attempts before it asked for a
retry; that attempt is the last one made. -/
theorem RetryContext_success (hd : ∀ s, (f s).1 = d (pc s)) (hpc : ∀ s, pc (f s).2 = pc s + 1) :
    ∀ (n : Nat) (last : Option GoError) (s : σ),
      (RetryContext f n last s).1 = WaitResult.returned none →
      ∃ i, i < n ∧ d (pc s + i) = Attempt.returned none ∧
        (∀ j, j < i → ∃ e, d (pc s + j) = Attempt.returned (some (RetryError.Retryable e))) ∧
        pc (RetryContext f n last s).2 = pc s + i + 1 := by
  intro n
  induction n with
  | zero => intro last s h; simp [RetryContext] at h
  | succ n ih =>
    intro last s
    have h1 := hd s
    have h2 := hpc s
    rcases hfs : f s with ⟨a, s1⟩
    rw [hfs] at h1 h2
    simp only at h1 h2
    cases a with
    | panicked => rw [RetryContext_succ_panic f n last hfs]; intro h; simp at h
    | returned r =>
      cases r with
      | none =>
        rw [RetryContext_succ_done f n last hfs]
        intro _
        exact ⟨0, Nat.succ_pos n, by simpa using h1.symm, by intro j hj; omega, by simpa using h2⟩
      | some re =>
        cases re with
        | NonRetryable e => rw [RetryContext_succ_fail f n last hfs]; intro h; simp at h
        | Retryable e =>
          rw [RetryContext_succ_retry f n last hfs]
          intro h
          obtain ⟨i, hi, hdone, hbefore, hfin⟩ := ih (some e) s1 h
          refine ⟨i + 1, by omega, ?_, ?_, ?_⟩
          · rw [h2] at hdone
            rw [← hdone]; congr 1; omega
          · intro j hj
            cases j with
            | zero => exact ⟨e, by simpa using h1.symm⟩
            | succ j =>
              obtain ⟨e1, he1⟩ := hbefore j (by omega)
              refine ⟨e1, ?_⟩
              rw [h2] at he1
              rw [← he1]; congr 1; omega
          · rw [hfin, h2]; omega

/-- The run of the helper up to the first attempt that does not ask for a
retry: after `i` retried attempts the helper is at attempt `i` with `n - i`
attempts left. -/
theorem RetryContext_skip_retries (hd : ∀ s, (f s).1 = d (pc s)) (hpc : ∀ s, pc (f s).2 = pc s + 1) :
    ∀ (i n : Nat) (last : Option GoError) (s : σ), 0 < i →
      (∀ j, j < i → ∃ e, d (pc s + j) = Attempt.returned (some (RetryError.Retryable e))) →
      ∃ e s1, d (pc s + (i - 1)) = Attempt.returned (some (RetryError.Retryable e)) ∧
        pc s1 = pc s + i ∧
        RetryContext f (n + i) last s = RetryContext f n (some e) s1 := by
  intro i
  induction i with
  | zero => intro n last s h; omega
  | succ i ih =>
    intro n last s _ hret
    have h1 := hd s
    have h2 := hpc s
    rcases hfs : f s with ⟨a, s1⟩
    rw [hfs] at h1 h2
    simp only at h1 h2
    obtain ⟨e0, he0⟩ := hret 0 (by omega)
    rw [Nat.add_zero, ← h1] at he0
    subst he0
    have hstep : RetryContext f (n + (i + 1)) last s = RetryContext f (n + i) (some e0) s1 := by
      rw [show n + (i + 1) = (n + i) + 1 by omega]
      exact RetryContext_succ_retry f (n + i) last hfs
    rcases Nat.eq_zero_or_pos i with hi | hi
    · subst hi
      refine ⟨e0, s1, ?_, ?_, ?_⟩
      · simpa using h1.symm
      · simpa using h2
      · simpa using hstep
    · have hret1 : ∀ j, j < i →
          ∃ e, d (pc s1 + j) = Attempt.returned (some (RetryError.Retryable e)) := by
        intro j hj
        obtain ⟨e, he⟩ := hret (j + 1) (by omega)
        refine ⟨e, ?_⟩
        rw [← he, h2]; congr 1; omega
      obtain ⟨e, s2, he, hp, hrun⟩ := ih n (some e0) s1 hi hret1
      refine ⟨e, s2, ?_, ?_, ?_⟩
      · rw [← he, h2]; congr 1; omega
      · rw [hp, h2]; omega
      · rw [hstep, hrun]

/-- After `i` retried attempts the helper is at attempt `i` with the rest of its budget. -/
theorem RetryContext_after_retries (hd : ∀ s, (f s).1 = d (pc s))
    (hpc : ∀ s, pc (f s).2 = pc s + 1) (i n : Nat) (last : Option GoError) (s : σ)
    (hret : ∀ j, j < i → ∃ e, d (pc s + j) = Attempt.returned (some (RetryError.Retryable e))) :
    ∃ last1 s1, pc s1 = pc s + i ∧
      RetryContext f (n + i) last s = RetryContext f n last1 s1 := by
  rcases Nat.eq_zero_or_pos i with hi | hi
  · subst hi
    exact ⟨last, s, rfl, rfl⟩
  · obtain ⟨e, s1, _, hp, hrun⟩ := RetryContext_skip_retries f pc d hd hpc i n last s hi hret
    exact ⟨some e, s1, hp, hrun⟩

/-- An attempt within the budget that decides nil after retried attempts only
ends the wait with success, and is the last attempt made. -/
theorem RetryContext_done_at (hd : ∀ s, (f s).1 = d (pc s))
    (hpc : ∀ s, pc (f s).2 = pc s + 1) (i n : Nat) (last : Option GoError) (s : σ)
    (hi : i < n)
    (hret : ∀ j, j < i → ∃ e, d (pc s + j) = Attempt.returned (some (RetryError.Retryable e)))
    (hdone : d (pc s + i) = Attempt.returned none) :
    (RetryContext f n last s).1 = WaitResult.returned none ∧
      pc (RetryContext f n last s).2 = pc s + i + 1 := by
  obtain ⟨last1, s1, hp, hrun⟩ :=
    RetryContext_after_retries f pc d hd hpc i (n - i) last s hret
  rw [show n - i + i = n by omega] at hrun
  obtain ⟨m, hm⟩ : ∃ m, n - i = m + 1 := ⟨n - i - 1, by omega⟩
  rw [hrun, hm]
  have h1 := hd s1
  have h2 := hpc s1
  rcases hfs : f s1 with ⟨a, s2⟩
  rw [hfs] at h1 h2
  simp only at h1 h2
  rw [hp, hdone] at h1
  subst h1
  rw [RetryContext_succ_done f m last1 hfs]
  exact ⟨rfl, by simp only; omega⟩

/-- An attempt within the budget that decides a non-retryable error after
retried attempts only ends the wait with that error, and is the last attempt made. -/
theorem RetryContext_fail_at (hd : ∀ s, (f s).1 = d (pc s))
    (hpc : ∀ s, pc (f s).2 = pc s + 1) (i n : Nat) (last : Option GoError) (s : σ)
    (hi : i < n) (err : GoError)
    (hret : ∀ j, j < i → ∃ e, d (pc s + j) = Attempt.returned (some (RetryError.Retryable e)))
    (hfail : d (pc s + i) = Attempt.returned (some (RetryError.NonRetryable err))) :
    (RetryContext f n last s).1 = WaitResult.returned (some err) ∧
      pc (RetryContext f n last s).2 = pc s + i + 1 := by
  obtain ⟨last1, s1, hp, hrun⟩ :=
    RetryContext_after_retries f pc d hd hpc i (n - i) last s hret
  rw [show n - i + i = n by omega] at hrun
  obtain ⟨m, hm⟩ : ∃ m, n - i = m + 1 := ⟨n - i - 1, by omega⟩
  rw [hrun, hm]
  have h1 := hd s1
  have h2 := hpc s1
  rcases hfs : f s1 with ⟨a, s2⟩
  rw [hfs] at h1 h2
  simp only at h1 h2
  rw [hp, hfail] at h1
  subst h1
  rw [RetryContext_succ_fail f m last1 hfs]
  exact ⟨rfl, by simp only; omega⟩

/-- When every attempt of the budget asks for a retry the helper returns an
error after exactly that many attempts. -/
theorem RetryContext_exhausted (hd : ∀ s, (f s).1 = d (pc s))
    (hpc : ∀ s, pc (f s).2 = pc s + 1) (n : Nat) (last : Option GoError) (s : σ)
    (hret : ∀ j, j < n → ∃ e, d (pc s + j) = Attempt.returned (some (RetryError.Retryable e))) :
    (∃ e, (RetryContext f n last s).1 = WaitResult.returned (some e)) ∧
      pc (RetryContext f n last s).2 = pc s + n := by
  obtain ⟨last1, s1, hp, hrun⟩ :=
    RetryContext_after_retries f pc d hd hpc n 0 last s hret
  rw [Nat.zero_add] at hrun
  rw [hrun, RetryContext_zero]
  exact ⟨⟨_, rfl⟩, hp⟩

/-- The helper returns nil exactly when some attempt within the budget decides
nil and every attempt before it asked for a retry. -/
theorem RetryContext_success_iff (hd : ∀ s, (f s).1 = d (pc s))
    (hpc : ∀ s, pc (f s).2 = pc s + 1) (n : Nat) (last : Option GoError) (s : σ) :
    (RetryContext f n last s).1 = WaitResult.returned none ↔
      ∃ i, i < n ∧ d (pc s + i) = Attempt.returned none ∧
        ∀ j, j < i → ∃ e, d (pc s + j) = Attempt.returned (some (RetryError.Retryable e)) := by
  constructor
  · intro h
    obtain ⟨i, hi, hdone, hret, _⟩ := RetryContext_success f pc d hd hpc n last s h
    exact ⟨i, hi, hdone, hret⟩
  · rintro ⟨i, hi, hdone, hret⟩
    exact (RetryContext_done_at f pc d hd hpc i n last s hi hret hdone).1

end Retry

end Pinecone

namespace Pinecone

/-! ## Index creation -/

theorem HasError_AddError (ds : List Diagnostic) (summary detail : String) :
    HasError (AddError ds summary detail) = true := by
  unfold AddError Diagnostics.Append
  simp only [List.foldl_cons, List.foldl_nil]
  split
  · rename_i h
    simp only [HasError, List.any_eq_true]
    exact ⟨_, List.elem_iff.mp h, rfl⟩
  · simp [HasError]

theorem IndexResource.createProbe_decision (env : Env) (s : Loop IndexResourceModel) :
    (IndexResource.createProbe env s).1 = IndexResource.createDecision (env.DescribeIndex s.probes) := by
  unfold IndexResource.createProbe IndexResource.createDecision
  rcases env.DescribeIndex s.probes with ⟨index, err⟩
  cases index with
  | none => rfl
  | some index =>
    cases err with
    | some e => rfl
    | none => by_cases h : index.Status.Ready <;> simp [h]

theorem IndexResource.createProbe_probes (env : Env) (s : Loop IndexResourceModel) :
    (IndexResource.createProbe env s).2.probes = s.probes + 1 := by
  unfold IndexResource.createProbe
  rcases env.DescribeIndex s.probes with ⟨index, err⟩
  cases index with
  | none => rfl
  | some index =>
    cases err with
    | some e => rfl
    | none => by_cases h : index.Status.Ready <;> simp [h]

theorem IndexResource.createProbe_diagnostics (env : Env) (s : Loop IndexResourceModel) :
    (IndexResource.createProbe env s).2.resp.Diagnostics = s.resp.Diagnostics := by
  unfold IndexResource.createProbe
  rcases env.DescribeIndex s.probes with ⟨index, err⟩
  cases index with
  | none => rfl
  | some index =>
    cases err with
    | some e => rfl
    | none => by_cases h : index.Status.Ready <;> simp [h]

theorem IndexResource.createProbe_countProbe (env : Env) (s : Loop IndexResourceModel) :
    (IndexResource.createProbe env s).2.trace.countP Event.isProbe
      = s.trace.countP Event.isProbe + 1 := by
  unfold IndexResource.createProbe
  rcases env.DescribeIndex s.probes with ⟨index, err⟩
  cases index with
  | none => simp [List.countP_append, Event.isProbe]
  | some index =>
    cases err with
    | some e => simp [List.countP_append, Event.isProbe]
    | none => by_cases h : index.Status.Ready <;> simp [h, List.countP_append, Event.isProbe]

theorem IndexResource.createWait_countProbe (env : Env) (n : Nat) (last : Option GoError)
    (s : Loop IndexResourceModel) (h : s.trace.countP Event.isProbe = s.probes) :
    (RetryContext (IndexResource.createProbe env) n last s).2.trace.countP Event.isProbe
      = (RetryContext (IndexResource.createProbe env) n last s).2.probes := by
  refine RetryContext_invariant (IndexResource.createProbe env)
    (fun s => s.trace.countP Event.isProbe = s.probes) ?_ n last s h
  intro s hs
  rw [IndexResource.createProbe_countProbe, IndexResource.createProbe_probes, hs]

theorem IndexResource.createDecision_done (r : DescribeIndexResult)
    (h : IndexResource.createDecision r = Attempt.returned none) :
    ∃ index, r = ⟨some index, none⟩ ∧ index.Status.Ready = true := by
  rcases r with ⟨index, err⟩
  cases index with
  | none => simp [IndexResource.createDecision] at h
  | some index =>
    cases err with
    | some e => simp [IndexResource.createDecision] at h
    | none =>
      by_cases hr : index.Status.Ready
      · exact ⟨index, rfl, hr⟩
      · simp [IndexResource.createDecision, hr] at h

theorem IndexResource.Create_decode_error (env : Env) (req : Request IndexResourceModel)
    (resp : Response IndexResourceModel)
    (h1 : HasError (Diagnostics.Append resp.Diagnostics req.diags) = true) :
    IndexResource.Create env req resp =
      { resp := { Diagnostics := Diagnostics.Append resp.Diagnostics req.diags, State := resp.State }
        trace := []
        panicked := false } := by
  simp only [IndexResource.Create, h1, ↓reduceIte]

theorem IndexResource.Create_rejected (env : Env) (req : Request IndexResourceModel)
    (resp : Response IndexResourceModel) (e : GoError)
    (h1 : HasError (Diagnostics.Append resp.Diagnostics req.diags) = false) (hc : env.CreateIndex = some e) :
    IndexResource.Create env req resp =
      { resp := { Diagnostics := AddError (Diagnostics.Append resp.Diagnostics req.diags)
                    "Failed to create index" e.Error
                  State := resp.State }
        trace := [Event.CreateIndex (IndexResource.createPayload req.data)]
        panicked := false } := by
  simp only [IndexResource.Create, h1, hc, Bool.false_eq_true, ↓reduceIte]

theorem IndexResource.Create_timeout_error (env : Env) (req : Request IndexResourceModel)
    (resp : Response IndexResourceModel)
    (h1 : HasError (Diagnostics.Append resp.Diagnostics req.diags) = false) (hc : env.CreateIndex = none)
    (h2 : HasError (Diagnostics.Append (Diagnostics.Append resp.Diagnostics req.diags)
      (req.data.Timeouts.Create defaultIndexCreateTimeout).2) = true) :
    IndexResource.Create env req resp =
      { resp := { Diagnostics := Diagnostics.Append (Diagnostics.Append resp.Diagnostics req.diags)
                    (req.data.Timeouts.Create defaultIndexCreateTimeout).2
                  State := resp.State }
        trace := [Event.CreateIndex (IndexResource.createPayload req.data)]
        panicked := false } := by
  simp only [IndexResource.Create, h1, hc, h2, Bool.false_eq_true, ↓reduceIte]

theorem IndexResource.Create_waits (env : Env) (req : Request IndexResourceModel)
    (resp : Response IndexResourceModel)
    (h1 : HasError (Diagnostics.Append resp.Diagnostics req.diags) = false) (hc : env.CreateIndex = none)
    (h2 : HasError (Diagnostics.Append (Diagnostics.Append resp.Diagnostics req.diags)
      (req.data.Timeouts.Create defaultIndexCreateTimeout).2) = false) :
    IndexResource.Create env req resp =
      match IndexResource.createWait env (req.data.Timeouts.Create defaultIndexCreateTimeout).1
          { data := req.data
            resp := { Diagnostics := Diagnostics.Append (Diagnostics.Append resp.Diagnostics req.diags)
                        (req.data.Timeouts.Create defaultIndexCreateTimeout).2
                      State := resp.State }
            trace := [Event.CreateIndex (IndexResource.createPayload req.data)]
            probes := 0 } with
      | (.panicked, s) => { resp := s.resp, trace := s.trace, panicked := true }
      | (.returned (some err), s) =>
        { resp := { s.resp with
                    Diagnostics := AddError s.resp.Diagnostics
                      "Failed to wait for index to become ready." err.Error }
          trace := s.trace
          panicked := false }
      | (.returned none, s) =>
        { resp := s.resp.StateSet s.data
          trace := s.trace ++ [Event.StateSetIndex s.data]
          panicked := false } := by
  simp only [IndexResource.Create, h1, hc, h2, Bool.false_eq_true, ↓reduceIte]

/-- C1. Whenever `IndexResource.Create` returns without an error diagnostic,
the last `DescribeIndex` probe it made returned no error and an index whose
`Status.Ready` is true. -/
theorem IndexResource.create_success_last_probe_ready (env : Env)
    (req : Request IndexResourceModel) (resp : Response IndexResourceModel)
    (h : (IndexResource.Create env req resp).succeeded = true) :
    ∃ (k : Nat) (index : Index),
      (IndexResource.Create env req resp).trace.countP Event.isProbe = k + 1 ∧
      env.DescribeIndex k = ⟨some index, none⟩ ∧
      index.Status.Ready = true := by
  cases h1 : HasError (Diagnostics.Append resp.Diagnostics req.diags) with
  | true =>
    rw [IndexResource.Create_decode_error env req resp h1] at h
    simp [Outcome.succeeded] at h
    rw [h1] at h
    exact absurd h (by decide)
  | false =>
    cases hc : env.CreateIndex with
    | some e =>
      rw [IndexResource.Create_rejected env req resp e h1 hc] at h
      simp [Outcome.succeeded, HasError_AddError] at h
    | none =>
      cases h2 : HasError (Diagnostics.Append (Diagnostics.Append resp.Diagnostics req.diags)
          (req.data.Timeouts.Create defaultIndexCreateTimeout).2) with
      | true =>
        rw [IndexResource.Create_timeout_error env req resp h1 hc h2] at h
        simp only [Outcome.succeeded, h2] at h
        exact absurd h (by decide)
      | false =>
        rw [IndexResource.Create_waits env req resp h1 hc h2] at h ⊢
        have hcount := IndexResource.createWait_countProbe env
          (env.attempts (req.data.Timeouts.Create defaultIndexCreateTimeout).1) none
          { data := req.data
            resp := { Diagnostics := Diagnostics.Append (Diagnostics.Append resp.Diagnostics req.diags)
                        (req.data.Timeouts.Create defaultIndexCreateTimeout).2
                      State := resp.State }
            trace := [Event.CreateIndex (IndexResource.createPayload req.data)]
            probes := 0 } (by simp [Event.isProbe])
        rcases hw : IndexResource.createWait env
            (req.data.Timeouts.Create defaultIndexCreateTimeout).1
            { data := req.data
              resp := { Diagnostics := Diagnostics.Append (Diagnostics.Append resp.Diagnostics req.diags)
                          (req.data.Timeouts.Create defaultIndexCreateTimeout).2
                        State := resp.State }
              trace := [Event.CreateIndex (IndexResource.createPayload req.data)]
              probes := 0 } with ⟨w, s⟩
        rw [hw] at h
        have hw0 := hw
        unfold IndexResource.createWait at hw0
        rw [hw0] at hcount
        cases w with
        | panicked => simp [Outcome.succeeded] at h
        | returned r =>
          cases r with
          | some e => simp [Outcome.succeeded, HasError_AddError] at h
          | none =>
            obtain ⟨i, _, hdone, _, hfin⟩ :=
              RetryContext_success (IndexResource.createProbe env) Loop.probes
                (fun i => IndexResource.createDecision (env.DescribeIndex i))
                (IndexResource.createProbe_decision env) (IndexResource.createProbe_probes env)
                _ _ _ (congrArg Prod.fst hw0)
            rw [hw0] at hfin
            simp only [Nat.zero_add] at hdone hfin
            obtain ⟨index, hidx, hready⟩ := IndexResource.createDecision_done _ hdone
            refine ⟨i, index, ?_, hidx, hready⟩
            simp only at hcount hfin
            simp [List.countP_append, Event.isProbe, hcount, hfin]

end Pinecone

namespace Pinecone

/-- C1, at the scenario of the spec: `Create` succeeds and its third probe is the ready one. -/
theorem IndexResource.create_success_last_probe_ready_witness :
    (IndexResource.Create scenarioEnv ⟨widgetPlan, []⟩ (emptyResponse _)).succeeded = true ∧
    ∃ (k : Nat) (index : Index),
      (IndexResource.Create scenarioEnv ⟨widgetPlan, []⟩ (emptyResponse _)).trace.countP
        Event.isProbe = k + 1 ∧
      scenarioEnv.DescribeIndex k = ⟨some index, none⟩ ∧
      index.Status.Ready = true :=
  ⟨by decide,
   IndexResource.create_success_last_probe_ready scenarioEnv ⟨widgetPlan, []⟩ (emptyResponse _)
     (by decide)⟩

end Pinecone

namespace Pinecone

/-- What one non-panicking attempt of `createProbe` appends to the trace and writes. -/
theorem IndexResource.createProbe_of_index (env : Env) (s : Loop IndexResourceModel)
    (index : Index) (err : Option GoError)
    (h : env.DescribeIndex s.probes = ⟨some index, err⟩) :
    (IndexResource.createProbe env s).2.trace =
        s.trace ++ [Event.DescribeIndex s.data.Name.ValueString,
                    Event.StateSetIndex (readIndexData index s.data)] ∧
      (IndexResource.createProbe env s).2.resp.State = some (readIndexData index s.data) ∧
      (IndexResource.createProbe env s).2.data = readIndexData index s.data := by
  unfold IndexResource.createProbe
  rw [h]
  cases err with
  | some e => simp
  | none => by_cases hr : index.Status.Ready <;> simp [hr]

/-- The shape of the trace the wait of `Create` builds on top of the trace `base` it starts with. -/
theorem IndexResource.createWait_trace (env : Env) (base : List Event) (n : Nat)
    (last : Option GoError) (s : Loop IndexResourceModel)
    (hs : s.trace = base) (hp : s.probes = 0)
    (hw : (RetryContext (IndexResource.createProbe env) n last s).1 ≠ WaitResult.panicked) :
    ∃ rest, (RetryContext (IndexResource.createProbe env) n last s).2.trace = base ++ rest ∧
      rest.countP Event.isProbe = (RetryContext (IndexResource.createProbe env) n last s).2.probes ∧
      rest.countP Event.isStateSet
        = (RetryContext (IndexResource.createProbe env) n last s).2.probes ∧
      (0 < (RetryContext (IndexResource.createProbe env) n last s).2.probes →
        rest.getLast? = some (Event.StateSetIndex
            (RetryContext (IndexResource.createProbe env) n last s).2.data) ∧
          (RetryContext (IndexResource.createProbe env) n last s).2.resp.State
            = some (RetryContext (IndexResource.createProbe env) n last s).2.data) := by
  refine RetryContext_invariant_of_no_panic (IndexResource.createProbe env)
    (fun t => ∃ rest, t.trace = base ++ rest ∧
      rest.countP Event.isProbe = t.probes ∧ rest.countP Event.isStateSet = t.probes ∧
      (0 < t.probes → rest.getLast? = some (Event.StateSetIndex t.data) ∧
        t.resp.State = some t.data)) ?_ n last s ?_ hw
  · intro t hnp ⟨rest, ht, hc1, hc2, _⟩
    rcases hprobe : env.DescribeIndex t.probes with ⟨index, err⟩
    cases index with
    | none =>
      exfalso
      apply hnp
      rw [IndexResource.createProbe_decision, hprobe]
      rfl
    | some index =>
      obtain ⟨htr, hst, hdata⟩ := IndexResource.createProbe_of_index env t index err hprobe
      refine ⟨rest ++ [Event.DescribeIndex t.data.Name.ValueString,
        Event.StateSetIndex (readIndexData index t.data)], ?_, ?_, ?_, ?_⟩
      · rw [htr, ht, List.append_assoc]
      · rw [IndexResource.createProbe_probes]
        simp [List.countP_append, Event.isProbe, hc1]
      · rw [IndexResource.createProbe_probes]
        simp [List.countP_append, Event.isStateSet, hc2]
      · intro _
        rw [hst, hdata]
        exact ⟨by simp, rfl⟩
  · exact ⟨[], by simp [hs], by simp [hp], by simp [hp], by intro h; omega⟩

/-- What `readIndexData` leaves in the model: id, name, dimension, metric, pods,
replicas, pod type and metadata configuration are those of the observed index;
the source collection and the timeouts are kept. -/
theorem readIndexData_eq (index : Index) (model : IndexResourceModel) :
    readIndexData index model =
      { Id := .known index.Database.Name
        Name := .known index.Database.Name
        Dimension := .known index.Database.Dimension
        Metric := .known index.Database.Metric
        Pods := .known index.Database.Pods
        Replicas := .known index.Database.Replicas
        PodType := .known index.Database.PodType
        MetadataConfig :=
          match index.Database.MetadataConfig with
          | none => .null
          | some fields => .known fields
        SourceCollection := model.SourceCollection
        Timeouts := model.Timeouts } := rfl

/-- The model the wait of `Create` ends with, when at least one probe was made
and none panicked: the model `data0` it started with, refreshed from the last
probe made. -/
theorem IndexResource.createWait_data (env : Env) (data0 : IndexResourceModel) (n : Nat)
    (last : Option GoError) (s : Loop IndexResourceModel)
    (hs : s.data = data0) (hp : s.probes = 0)
    (hw : (RetryContext (IndexResource.createProbe env) n last s).1 ≠ WaitResult.panicked) :
    0 < (RetryContext (IndexResource.createProbe env) n last s).2.probes →
      ∃ idx, (env.DescribeIndex
          ((RetryContext (IndexResource.createProbe env) n last s).2.probes - 1)).index = some idx ∧
        (RetryContext (IndexResource.createProbe env) n last s).2.data
          = readIndexData idx data0 := by
  have key := RetryContext_invariant_of_no_panic (IndexResource.createProbe env)
    (fun t => (∀ idx, readIndexData idx t.data = readIndexData idx data0) ∧
      (0 < t.probes → ∃ idx, (env.DescribeIndex (t.probes - 1)).index = some idx ∧
        t.data = readIndexData idx data0)) ?_ n last s ?_ hw
  · exact key.2
  · intro t hnp ⟨habs, _⟩
    rcases hprobe : env.DescribeIndex t.probes with ⟨index, err⟩
    cases index with
    | none =>
      exfalso
      apply hnp
      rw [IndexResource.createProbe_decision, hprobe]
      rfl
    | some index =>
      obtain ⟨_, _, hdata⟩ := IndexResource.createProbe_of_index env t index err hprobe
      refine ⟨?_, ?_⟩
      · intro idx
        show readIndexData idx (IndexResource.createProbe env t).2.data = _
        rw [hdata, ← habs idx]
        rfl
      · intro _
        show ∃ idx, (env.DescribeIndex ((IndexResource.createProbe env t).2.probes - 1)).index
            = some idx ∧ (IndexResource.createProbe env t).2.data = readIndexData idx data0
        rw [IndexResource.createProbe_probes, Nat.add_sub_cancel, hprobe, hdata]
        exact ⟨index, rfl, habs index⟩
  · exact ⟨fun idx => by rw [hs], by intro h; omega⟩

/-- The checkpoints of `IndexResource.Create` on probes that hand back an
index. In the wait loop every such probe is followed at once, whatever its
error and readiness, by one state write of the model refreshed from it: id,
name, dimension, metric, pods, replicas, pod type and metadata configuration as
the probe reported them, source collection and timeouts as before. For `k`
not-ready observations followed by a ready one within the budget, `Create`
succeeds and its trace is the create call, then the loop's events with exactly
`k + 1` probes and `k + 1` checkpoint writes, then the final save, which writes
once more the model of the last checkpoint: the plan refreshed from the ready
probe. -/
theorem IndexResource.create_checkpoints (env : Env) (req : Request IndexResourceModel)
    (resp : Response IndexResourceModel) (k : Nat) (ready : Index)
    (h1 : HasError (Diagnostics.Append resp.Diagnostics req.diags) = false)
    (hc : env.CreateIndex = none)
    (h2 : HasError (Diagnostics.Append (Diagnostics.Append resp.Diagnostics req.diags)
      (req.data.Timeouts.Create defaultIndexCreateTimeout).2) = false)
    (hk : k < env.attempts (req.data.Timeouts.Create defaultIndexCreateTimeout).1)
    (hnot : ∀ j, j < k →
      ∃ index, env.DescribeIndex j = ⟨some index, none⟩ ∧ index.Status.Ready = false)
    (hready : env.DescribeIndex k = ⟨some ready, none⟩) (hr : ready.Status.Ready = true) :
    (∀ (s : Loop IndexResourceModel) (index : Index) (err : Option GoError),
      env.DescribeIndex s.probes = ⟨some index, err⟩ →
      (IndexResource.createProbe env s).2.trace =
        s.trace ++ [Event.DescribeIndex s.data.Name.ValueString,
                    Event.StateSetIndex (readIndexData index s.data)] ∧
      (IndexResource.createProbe env s).2.resp.State = some (readIndexData index s.data) ∧
      readIndexData index s.data =
        { Id := .known index.Database.Name
          Name := .known index.Database.Name
          Dimension := .known index.Database.Dimension
          Metric := .known index.Database.Metric
          Pods := .known index.Database.Pods
          Replicas := .known index.Database.Replicas
          PodType := .known index.Database.PodType
          MetadataConfig :=
            match index.Database.MetadataConfig with
            | none => .null
            | some fields => .known fields
          SourceCollection := s.data.SourceCollection
          Timeouts := s.data.Timeouts }) ∧
    (IndexResource.Create env req resp).succeeded = true ∧
    (∃ loopTrace : List Event,
      (IndexResource.Create env req resp).trace =
        [Event.CreateIndex (IndexResource.createPayload req.data)] ++ loopTrace ++
          [Event.StateSetIndex (readIndexData ready req.data)] ∧
      loopTrace.countP Event.isProbe = k + 1 ∧
      loopTrace.countP Event.isStateSet = k + 1 ∧
      loopTrace.getLast? = some (Event.StateSetIndex (readIndexData ready req.data))) ∧
    (IndexResource.Create env req resp).resp.State = some
      { Id := .known ready.Database.Name
        Name := .known ready.Database.Name
        Dimension := .known ready.Database.Dimension
        Metric := .known ready.Database.Metric
        Pods := .known ready.Database.Pods
        Replicas := .known ready.Database.Replicas
        PodType := .known ready.Database.PodType
        MetadataConfig :=
          match ready.Database.MetadataConfig with
          | none => .null
          | some fields => .known fields
        SourceCollection := req.data.SourceCollection
        Timeouts := req.data.Timeouts } := by
  refine ⟨fun s index err h => ⟨(IndexResource.createProbe_of_index env s index err h).1,
    (IndexResource.createProbe_of_index env s index err h).2.1, rfl⟩, ?_⟩
  rw [IndexResource.Create_waits env req resp h1 hc h2]
  have hd : ∀ j, j < k → ∃ e, (fun i => IndexResource.createDecision (env.DescribeIndex i))
      (0 + j) = Attempt.returned (some (RetryError.Retryable e)) := by
    intro j hj
    obtain ⟨index, hidx, hr⟩ := hnot j hj
    refine ⟨GoError.errorString ("index not ready. State: " ++ index.Status.State), ?_⟩
    simp only [Nat.zero_add, hidx, IndexResource.createDecision, hr]
    rfl
  have hdone : (fun i => IndexResource.createDecision (env.DescribeIndex i)) (0 + k)
      = Attempt.returned none := by
    simp only [Nat.zero_add, hready, IndexResource.createDecision, hr]
    rfl
  obtain ⟨hres, hfin⟩ := RetryContext_done_at (IndexResource.createProbe env) Loop.probes
    (fun i => IndexResource.createDecision (env.DescribeIndex i))
    (IndexResource.createProbe_decision env) (IndexResource.createProbe_probes env)
    k (env.attempts (req.data.Timeouts.Create defaultIndexCreateTimeout).1) none
    { data := req.data
      resp := { Diagnostics := Diagnostics.Append (Diagnostics.Append resp.Diagnostics req.diags)
                  (req.data.Timeouts.Create defaultIndexCreateTimeout).2
                State := resp.State }
      trace := [Event.CreateIndex (IndexResource.createPayload req.data)]
      probes := 0 } hk hd hdone
  have hdiag := RetryContext_invariant (IndexResource.createProbe env)
    (fun t => t.resp.Diagnostics = Diagnostics.Append (Diagnostics.Append resp.Diagnostics req.diags)
      (req.data.Timeouts.Create defaultIndexCreateTimeout).2)
    (fun t ht => by
      show (IndexResource.createProbe env t).2.resp.Diagnostics = _
      rw [IndexResource.createProbe_diagnostics]
      exact ht)
    (env.attempts (req.data.Timeouts.Create defaultIndexCreateTimeout).1) none
    { data := req.data
      resp := { Diagnostics := Diagnostics.Append (Diagnostics.Append resp.Diagnostics req.diags)
                  (req.data.Timeouts.Create defaultIndexCreateTimeout).2
                State := resp.State }
      trace := [Event.CreateIndex (IndexResource.createPayload req.data)]
      probes := 0 } rfl
  obtain ⟨rest, htr, hc1, hc2, hlast⟩ := IndexResource.createWait_trace env
    [Event.CreateIndex (IndexResource.createPayload req.data)]
    (env.attempts (req.data.Timeouts.Create defaultIndexCreateTimeout).1) none
    { data := req.data
      resp := { Diagnostics := Diagnostics.Append (Diagnostics.Append resp.Diagnostics req.diags)
                  (req.data.Timeouts.Create defaultIndexCreateTimeout).2
                State := resp.State }
      trace := [Event.CreateIndex (IndexResource.createPayload req.data)]
      probes := 0 } rfl rfl (by rw [hres]; simp)
  have hdata := IndexResource.createWait_data env req.data
    (env.attempts (req.data.Timeouts.Create defaultIndexCreateTimeout).1) none
    { data := req.data
      resp := { Diagnostics := Diagnostics.Append (Diagnostics.Append resp.Diagnostics req.diags)
                  (req.data.Timeouts.Create defaultIndexCreateTimeout).2
                State := resp.State }
      trace := [Event.CreateIndex (IndexResource.createPayload req.data)]
      probes := 0 } rfl rfl (by rw [hres]; simp)
  unfold IndexResource.createWait
  rcases hw : RetryContext (IndexResource.createProbe env)
      (env.attempts (req.data.Timeouts.Create defaultIndexCreateTimeout).1) none
      { data := req.data
        resp := { Diagnostics := Diagnostics.Append (Diagnostics.Append resp.Diagnostics req.diags)
                    (req.data.Timeouts.Create defaultIndexCreateTimeout).2
                  State := resp.State }
        trace := [Event.CreateIndex (IndexResource.createPayload req.data)]
        probes := 0 } with ⟨w, s⟩
  rw [hw] at hres hfin hdiag htr hc1 hc2 hlast hdata
  simp only at hres hfin hdiag htr hc1 hc2 hlast hdata
  subst hres
  simp only [Nat.zero_add] at hfin
  obtain ⟨hl1, hl2⟩ := hlast (by omega)
  obtain ⟨idx, hidx, hsd⟩ := hdata (by omega)
  rw [hfin, Nat.add_sub_cancel, hready] at hidx
  simp only [Option.some.injEq] at hidx
  subst hidx
  refine ⟨?_, ⟨rest, ?_, ?_, ?_, ?_⟩, ?_⟩
  · simp only [Outcome.succeeded, Response.StateSet_Diagnostics, hdiag, h2]
    rfl
  · simp only [htr, hsd]
  · rw [hc1, hfin]
  · rw [hc2, hfin]
  · rw [hl1, hsd]
  · simp only [Response.StateSet_State, hsd]
    rfl

/-- The checkpoints of `IndexResource.Create` at the scenario of the spec
(`Initializing`, `Initializing`, `Ready`): three probes, three checkpoint
writes, then the final save; the state holds what the ready probe reported. -/
theorem IndexResource.create_checkpoints_witness :
    (IndexResource.Create scenarioEnv ⟨widgetPlan, []⟩ (emptyResponse _)).succeeded = true ∧
    (∃ loopTrace : List Event,
      (IndexResource.Create scenarioEnv ⟨widgetPlan, []⟩ (emptyResponse _)).trace =
        [Event.CreateIndex (IndexResource.createPayload widgetPlan)] ++ loopTrace ++
          [Event.StateSetIndex (readIndexData (widgetIndex true "Ready") widgetPlan)] ∧
      loopTrace.countP Event.isProbe = 2 + 1 ∧
      loopTrace.countP Event.isStateSet = 2 + 1 ∧
      loopTrace.getLast?
        = some (Event.StateSetIndex (readIndexData (widgetIndex true "Ready") widgetPlan))) ∧
    (IndexResource.Create scenarioEnv ⟨widgetPlan, []⟩ (emptyResponse _)).resp.State = some
      { Id := .known "widget"
        Name := .known "widget"
        Dimension := .known 512
        Metric := .known "cosine"
        Pods := .known 1
        Replicas := .known 1
        PodType := .known "s1.x1"
        MetadataConfig := .null
        SourceCollection := .null
        Timeouts := { create := .unset, delete := .unset } } :=
  (IndexResource.create_checkpoints scenarioEnv ⟨widgetPlan, []⟩ (emptyResponse _) 2
    (widgetIndex true "Ready")
    (by decide) (by decide) (by decide) (by decide)
    (by
      intro j hj
      refine ⟨widgetIndex false "Initializing", ?_, rfl⟩
      simp [scenarioEnv, hj])
    (by decide) rfl).2

end Pinecone

namespace Pinecone

/-! ## Rejected create calls -/

theorem CollectionResource.coll_Create_decode_error (env : Env)
    (req : Request CollectionResourceModel) (resp : Response CollectionResourceModel)
    (h1 : HasError (Diagnostics.Append resp.Diagnostics req.diags) = true) :
    CollectionResource.Create env req resp =
      { resp := { Diagnostics := Diagnostics.Append resp.Diagnostics req.diags, State := resp.State }
        trace := []
        panicked := false } := by
  simp only [CollectionResource.Create, h1, ↓reduceIte]

theorem CollectionResource.coll_Create_rejected (env : Env)
    (req : Request CollectionResourceModel) (resp : Response CollectionResourceModel)
    (e : GoError)
    (h1 : HasError (Diagnostics.Append resp.Diagnostics req.diags) = false)
    (hc : env.CreateCollection = some e) :
    CollectionResource.Create env req resp =
      { resp := { Diagnostics := AddError (Diagnostics.Append resp.Diagnostics req.diags)
                    "Failed to create collection" e.Error
                  State := resp.State }
        trace := [Event.CreateCollection (CollectionResource.createPayload req.data)]
        panicked := false } := by
  simp only [CollectionResource.Create, h1, hc, Bool.false_eq_true, ↓reduceIte]

theorem CollectionResource.coll_Create_waits (env : Env)
    (req : Request CollectionResourceModel) (resp : Response CollectionResourceModel)
    (h1 : HasError (Diagnostics.Append resp.Diagnostics req.diags) = false)
    (hc : env.CreateCollection = none) :
    CollectionResource.Create env req resp =
      match CollectionResource.createWait env
          { data := req.data
            resp := { Diagnostics := Diagnostics.Append resp.Diagnostics req.diags, State := resp.State }
            trace := [Event.CreateCollection (CollectionResource.createPayload req.data)]
            probes := 0 } with
      | (.panicked, s) => { resp := s.resp, trace := s.trace, panicked := true }
      | (.returned (some err), s) =>
        { resp := { s.resp with
                    Diagnostics := AddError s.resp.Diagnostics
                      "Failed to wait for collection to become ready." err.Error }
          trace := s.trace
          panicked := false }
      | (.returned none, s) =>
        { resp := s.resp.StateSet s.data
          trace := s.trace ++ [Event.StateSetCollection s.data]
          panicked := false } := by
  simp only [CollectionResource.Create, h1, hc, Bool.false_eq_true, ↓reduceIte]

/-- C3. When the `CreateIndex` call (for a collection: the `CreateCollection`
call) returns an error, `Create` returns at once: the create call is the only
event of its trace, so no probe and no state write is made, the state is left
as it was, and the only diagnostic added is the create failure. -/
theorem create_rejected_no_probe_no_write (env : Env)
    (reqI : Request IndexResourceModel) (respI : Response IndexResourceModel)
    (reqC : Request CollectionResourceModel) (respC : Response CollectionResourceModel)
    (e1 e2 : GoError)
    (h1 : HasError (Diagnostics.Append respI.Diagnostics reqI.diags) = false)
    (hi : env.CreateIndex = some e1)
    (h2 : HasError (Diagnostics.Append respC.Diagnostics reqC.diags) = false)
    (hc : env.CreateCollection = some e2) :
    ((IndexResource.Create env reqI respI).trace
        = [Event.CreateIndex (IndexResource.createPayload reqI.data)] ∧
      (IndexResource.Create env reqI respI).trace.countP Event.isProbe = 0 ∧
      (IndexResource.Create env reqI respI).trace.countP Event.isStateSet = 0 ∧
      (IndexResource.Create env reqI respI).resp.State = respI.State ∧
      (IndexResource.Create env reqI respI).resp.Diagnostics
        = AddError (Diagnostics.Append respI.Diagnostics reqI.diags) "Failed to create index" e1.Error ∧
      (IndexResource.Create env reqI respI).succeeded = false) ∧
    ((CollectionResource.Create env reqC respC).trace
        = [Event.CreateCollection (CollectionResource.createPayload reqC.data)] ∧
      (CollectionResource.Create env reqC respC).trace.countP Event.isProbe = 0 ∧
      (CollectionResource.Create env reqC respC).trace.countP Event.isStateSet = 0 ∧
      (CollectionResource.Create env reqC respC).resp.State = respC.State ∧
      (CollectionResource.Create env reqC respC).resp.Diagnostics
        = AddError (Diagnostics.Append respC.Diagnostics reqC.diags) "Failed to create collection" e2.Error ∧
      (CollectionResource.Create env reqC respC).succeeded = false) := by
  rw [IndexResource.Create_rejected env reqI respI e1 h1 hi,
    CollectionResource.coll_Create_rejected env reqC respC e2 h2 hc]
  refine ⟨⟨rfl, ?_, ?_, rfl, rfl, ?_⟩, ⟨rfl, ?_, ?_, rfl, rfl, ?_⟩⟩
  · simp [Event.isProbe]
  · simp [Event.isStateSet]
  · simp [Outcome.succeeded, HasError_AddError]
  · simp [Event.isProbe]
  · simp [Event.isStateSet]
  · simp [Outcome.succeeded, HasError_AddError]

/-- C3, at a control plane that rejects the create calls for `widget` and `snap`. -/
theorem create_rejected_no_probe_no_write_witness :
    ((IndexResource.Create rejectingEnv ⟨widgetPlan, []⟩ (emptyResponse _)).trace
        = [Event.CreateIndex (IndexResource.createPayload widgetPlan)] ∧
      (IndexResource.Create rejectingEnv ⟨widgetPlan, []⟩ (emptyResponse _)).trace.countP
        Event.isProbe = 0 ∧
      (IndexResource.Create rejectingEnv ⟨widgetPlan, []⟩ (emptyResponse _)).trace.countP
        Event.isStateSet = 0 ∧
      (IndexResource.Create rejectingEnv ⟨widgetPlan, []⟩ (emptyResponse _)).resp.State = none ∧
      (IndexResource.Create rejectingEnv ⟨widgetPlan, []⟩ (emptyResponse _)).resp.Diagnostics
        = AddError (Diagnostics.Append [] []) "Failed to create index" "bad request" ∧
      (IndexResource.Create rejectingEnv ⟨widgetPlan, []⟩ (emptyResponse _)).succeeded = false) ∧
    ((CollectionResource.Create rejectingEnv ⟨snapPlan, []⟩ (emptyResponse _)).trace
        = [Event.CreateCollection (CollectionResource.createPayload snapPlan)] ∧
      (CollectionResource.Create rejectingEnv ⟨snapPlan, []⟩ (emptyResponse _)).trace.countP
        Event.isProbe = 0 ∧
      (CollectionResource.Create rejectingEnv ⟨snapPlan, []⟩ (emptyResponse _)).trace.countP
        Event.isStateSet = 0 ∧
      (CollectionResource.Create rejectingEnv ⟨snapPlan, []⟩ (emptyResponse _)).resp.State
        = none ∧
      (CollectionResource.Create rejectingEnv ⟨snapPlan, []⟩ (emptyResponse _)).resp.Diagnostics
        = AddError (Diagnostics.Append [] []) "Failed to create collection" "source index not found" ∧
      (CollectionResource.Create rejectingEnv ⟨snapPlan, []⟩ (emptyResponse _)).succeeded
        = false) :=
  create_rejected_no_probe_no_write rejectingEnv ⟨widgetPlan, []⟩ (emptyResponse _)
    ⟨snapPlan, []⟩ (emptyResponse _) (.HTTPError 400 "bad request")
    (.HTTPError 404 "source index not found") (by decide) rfl (by decide) rfl

end Pinecone

namespace Pinecone

/-! ## Deletion -/

theorem IndexResource.deleteProbe_decision (env : Env) (s : Loop IndexResourceModel) :
    (IndexResource.deleteProbe env s).1 = IndexResource.deleteDecision (env.DescribeIndex s.probes) := by
  unfold IndexResource.deleteProbe IndexResource.deleteDecision
  rcases env.DescribeIndex s.probes with ⟨index, err⟩
  cases err with
  | some e =>
    cases e with
    | HTTPError code msg => by_cases h : code = 404 <;> simp [h]
    | errorString msg => rfl
    | TimeoutError => rfl
  | none =>
    cases index with
    | none => rfl
    | some index => rfl

/-- One attempt of the delete closure makes one probe and touches neither the
model nor the response. -/
theorem IndexResource.deleteProbe_effect (env : Env) (s : Loop IndexResourceModel) :
    (IndexResource.deleteProbe env s).2 =
      { s with
        probes := s.probes + 1
        trace := s.trace ++ [Event.DescribeIndex s.data.Id.ValueString] } := by
  unfold IndexResource.deleteProbe
  rcases env.DescribeIndex s.probes with ⟨index, err⟩
  cases err with
  | some e =>
    cases e with
    | HTTPError code msg => by_cases h : code = 404 <;> simp [h]
    | errorString msg => rfl
    | TimeoutError => rfl
  | none =>
    cases index with
    | none => rfl
    | some index => rfl

theorem IndexResource.deleteProbe_probes (env : Env) (s : Loop IndexResourceModel) :
    (IndexResource.deleteProbe env s).2.probes = s.probes + 1 := by
  rw [IndexResource.deleteProbe_effect]

theorem IndexResource.deleteDecision_done (r : DescribeIndexResult) :
    IndexResource.deleteDecision r = Attempt.returned none ↔ isNotFound r.err = true := by
  rcases r with ⟨index, err⟩
  cases err with
  | some e =>
    cases e with
    | HTTPError code msg =>
      by_cases h : code = 404 <;> simp [IndexResource.deleteDecision, isNotFound, h]
    | errorString msg => simp [IndexResource.deleteDecision, isNotFound]
    | TimeoutError => simp [IndexResource.deleteDecision, isNotFound]
  | none =>
    cases index with
    | none => simp [IndexResource.deleteDecision, isNotFound]
    | some index => simp [IndexResource.deleteDecision, isNotFound]

theorem IndexResource.deleteDecision_retry (r : DescribeIndexResult) :
    (∃ e, IndexResource.deleteDecision r = Attempt.returned (some (RetryError.Retryable e)))
      ↔ r.present = true := by
  rcases r with ⟨index, err⟩
  cases err with
  | some e =>
    cases e with
    | HTTPError code msg =>
      by_cases h : code = 404 <;>
        simp [IndexResource.deleteDecision, DescribeIndexResult.present, h]
    | errorString msg => simp [IndexResource.deleteDecision, DescribeIndexResult.present]
    | TimeoutError => simp [IndexResource.deleteDecision, DescribeIndexResult.present]
  | none =>
    cases index with
    | none => simp [IndexResource.deleteDecision, DescribeIndexResult.present]
    | some index => simp [IndexResource.deleteDecision, DescribeIndexResult.present]

theorem IndexResource.deleteDecision_fail (r : DescribeIndexResult) (e : GoError)
    (he : r.err = some e) (hnf : isNotFound (some e) = false) :
    IndexResource.deleteDecision r = Attempt.returned (some (RetryError.NonRetryable e)) := by
  rcases r with ⟨index, err⟩
  simp only at he
  subst he
  cases e with
  | HTTPError code msg =>
    by_cases h : code = 404
    · simp [isNotFound, h] at hnf
    · simp [IndexResource.deleteDecision, h]
  | errorString msg => rfl
  | TimeoutError => rfl

/-- What the wait of `IndexResource.Delete` leaves behind: the model and the
response as they were, and one probe event per attempt. -/
theorem IndexResource.deleteWait_effect (env : Env) (n : Nat) (last : Option GoError)
    (s : Loop IndexResourceModel) :
    (RetryContext (IndexResource.deleteProbe env) n last s).2.resp = s.resp ∧
    (RetryContext (IndexResource.deleteProbe env) n last s).2.trace.countP Event.isProbe
      + s.probes
      = s.trace.countP Event.isProbe
        + (RetryContext (IndexResource.deleteProbe env) n last s).2.probes ∧
    (RetryContext (IndexResource.deleteProbe env) n last s).2.trace.countP Event.isStateSet
      = s.trace.countP Event.isStateSet := by
  refine RetryContext_invariant (IndexResource.deleteProbe env)
    (fun t => t.resp = s.resp ∧
      t.trace.countP Event.isProbe + s.probes = s.trace.countP Event.isProbe + t.probes ∧
      t.trace.countP Event.isStateSet = s.trace.countP Event.isStateSet) ?_ n last s
    ⟨rfl, by omega, rfl⟩
  intro t ⟨h1, h2, h3⟩
  rw [IndexResource.deleteProbe_effect]
  refine ⟨h1, ?_, ?_⟩
  · simp only [List.countP_append]
    simp [Event.isProbe]
    omega
  · simp only [List.countP_append]
    simp [Event.isStateSet, h3]

theorem IndexResource.Delete_rejected (env : Env) (req : Request IndexResourceModel)
    (resp : Response IndexResourceModel) (e : GoError)
    (h1 : HasError (Diagnostics.Append resp.Diagnostics req.diags) = false) (hc : env.DeleteIndex = some e) :
    IndexResource.Delete env req resp =
      { resp := { Diagnostics := AddError (Diagnostics.Append resp.Diagnostics req.diags)
                    "Failed to delete index" e.Error
                  State := resp.State }
        trace := [Event.DeleteIndex req.data.Name.ValueString]
        panicked := false } := by
  simp only [IndexResource.Delete, h1, hc, Bool.false_eq_true, ↓reduceIte]

theorem IndexResource.Delete_waits (env : Env) (req : Request IndexResourceModel)
    (resp : Response IndexResourceModel)
    (h1 : HasError (Diagnostics.Append resp.Diagnostics req.diags) = false) (hc : env.DeleteIndex = none)
    (h2 : HasError (Diagnostics.Append (Diagnostics.Append resp.Diagnostics req.diags)
      (IndexResource.deleteTimeout req.data).2) = false) :
    IndexResource.Delete env req resp =
      match IndexResource.deleteWait env (IndexResource.deleteTimeout req.data).1
          { data := req.data
            resp := { Diagnostics := Diagnostics.Append (Diagnostics.Append resp.Diagnostics req.diags)
                        (IndexResource.deleteTimeout req.data).2
                      State := resp.State }
            trace := [Event.DeleteIndex req.data.Name.ValueString]
            probes := 0 } with
      | (.panicked, s) => { resp := s.resp, trace := s.trace, panicked := true }
      | (.returned (some err), s) =>
        { resp := { s.resp with
                    Diagnostics := AddError s.resp.Diagnostics
                      "Failed to wait for index to be deleted." err.Error }
          trace := s.trace
          panicked := false }
      | (.returned none, s) => { resp := s.resp, trace := s.trace, panicked := false } := by
  simp only [IndexResource.Delete, h1, hc, h2, Bool.false_eq_true, ↓reduceIte]

/-- Once the delete call is accepted, `IndexResource.Delete` returns without
error exactly when its wait returns nil. -/
theorem IndexResource.Delete_succeeded_iff (env : Env) (req : Request IndexResourceModel)
    (resp : Response IndexResourceModel)
    (h1 : HasError (Diagnostics.Append resp.Diagnostics req.diags) = false) (hc : env.DeleteIndex = none)
    (h2 : HasError (Diagnostics.Append (Diagnostics.Append resp.Diagnostics req.diags)
      (IndexResource.deleteTimeout req.data).2) = false) :
    (IndexResource.Delete env req resp).succeeded = true ↔
      (RetryContext (IndexResource.deleteProbe env)
        (env.attempts (IndexResource.deleteTimeout req.data).1) none
        { data := req.data
          resp := { Diagnostics := Diagnostics.Append (Diagnostics.Append resp.Diagnostics req.diags)
                      (IndexResource.deleteTimeout req.data).2
                    State := resp.State }
          trace := [Event.DeleteIndex req.data.Name.ValueString]
          probes := 0 }).1 = WaitResult.returned none := by
  rw [IndexResource.Delete_waits env req resp h1 hc h2]
  unfold IndexResource.deleteWait
  have heff := (IndexResource.deleteWait_effect env
    (env.attempts (IndexResource.deleteTimeout req.data).1) none
    { data := req.data
      resp := { Diagnostics := Diagnostics.Append (Diagnostics.Append resp.Diagnostics req.diags)
                  (IndexResource.deleteTimeout req.data).2
                State := resp.State }
      trace := [Event.DeleteIndex req.data.Name.ValueString]
      probes := 0 }).1
  rcases hw : RetryContext (IndexResource.deleteProbe env)
      (env.attempts (IndexResource.deleteTimeout req.data).1) none
      { data := req.data
        resp := { Diagnostics := Diagnostics.Append (Diagnostics.Append resp.Diagnostics req.diags)
                    (IndexResource.deleteTimeout req.data).2
                  State := resp.State }
        trace := [Event.DeleteIndex req.data.Name.ValueString]
        probes := 0 } with ⟨w, s⟩
  rw [hw] at heff
  simp only at heff
  cases w with
  | panicked => simp [Outcome.succeeded]
  | returned r =>
    cases r with
    | some e => simp [Outcome.succeeded, HasError_AddError]
    | none =>
      simp only [Outcome.succeeded, heff, h2]
      simp

end Pinecone

namespace Pinecone

theorem IndexResource.deleteWait_success_iff (env : Env) (n : Nat) (last : Option GoError)
    (s : Loop IndexResourceModel) (hs : s.probes = 0) :
    (RetryContext (IndexResource.deleteProbe env) n last s).1 = WaitResult.returned none ↔
      ∃ i, i < n ∧ isNotFound (env.DescribeIndex i).err = true ∧
        ∀ j, j < i → (env.DescribeIndex j).present = true := by
  rw [RetryContext_success_iff (IndexResource.deleteProbe env) Loop.probes
    (fun i => IndexResource.deleteDecision (env.DescribeIndex i))
    (IndexResource.deleteProbe_decision env) (IndexResource.deleteProbe_probes env)]
  simp only [hs, Nat.zero_add, IndexResource.deleteDecision_done,
    IndexResource.deleteDecision_retry]

theorem IndexResource.deleteWait_fail_at (env : Env) (n : Nat) (last : Option GoError)
    (s : Loop IndexResourceModel) (hs : s.probes = 0) (i : Nat) (e : GoError) (hi : i < n)
    (hbefore : ∀ j, j < i → (env.DescribeIndex j).present = true)
    (herr : (env.DescribeIndex i).err = some e) (hnf : isNotFound (some e) = false) :
    (RetryContext (IndexResource.deleteProbe env) n last s).1 = WaitResult.returned (some e) ∧
      (RetryContext (IndexResource.deleteProbe env) n last s).2.probes = i + 1 := by
  have h := RetryContext_fail_at (IndexResource.deleteProbe env) Loop.probes
    (fun i => IndexResource.deleteDecision (env.DescribeIndex i))
    (IndexResource.deleteProbe_decision env) (IndexResource.deleteProbe_probes env)
    i n last s hi e
    (by
      intro j hj
      simp only [hs, Nat.zero_add]
      exact (IndexResource.deleteDecision_retry _).2 (hbefore j hj))
    (by
      simp only [hs, Nat.zero_add]
      exact IndexResource.deleteDecision_fail _ e herr hnf)
  simpa [hs] using h

theorem IndexResource.deleteWait_exhausted (env : Env) (n : Nat) (last : Option GoError)
    (s : Loop IndexResourceModel) (hs : s.probes = 0)
    (hall : ∀ j, j < n → (env.DescribeIndex j).present = true) :
    (∃ e, (RetryContext (IndexResource.deleteProbe env) n last s).1
        = WaitResult.returned (some e)) ∧
      (RetryContext (IndexResource.deleteProbe env) n last s).2.probes = n := by
  have h := RetryContext_exhausted (IndexResource.deleteProbe env) Loop.probes
    (fun i => IndexResource.deleteDecision (env.DescribeIndex i))
    (IndexResource.deleteProbe_decision env) (IndexResource.deleteProbe_probes env)
    n last s
    (by
      intro j hj
      simp only [hs, Nat.zero_add]
      exact (IndexResource.deleteDecision_retry _).2 (hall j hj))
  simpa [hs] using h

/-- The outcome of `IndexResource.Delete` when its wait returns an error. -/
theorem IndexResource.Delete_of_wait_error (env : Env) (req : Request IndexResourceModel)
    (resp : Response IndexResourceModel)
    (h1 : HasError (Diagnostics.Append resp.Diagnostics req.diags) = false) (hc : env.DeleteIndex = none)
    (h2 : HasError (Diagnostics.Append (Diagnostics.Append resp.Diagnostics req.diags)
      (IndexResource.deleteTimeout req.data).2) = false)
    (e : GoError) (m : Nat)
    (hw : (RetryContext (IndexResource.deleteProbe env)
        (env.attempts (IndexResource.deleteTimeout req.data).1) none
        { data := req.data
          resp := { Diagnostics := Diagnostics.Append (Diagnostics.Append resp.Diagnostics req.diags)
                      (IndexResource.deleteTimeout req.data).2
                    State := resp.State }
          trace := [Event.DeleteIndex req.data.Name.ValueString]
          probes := 0 }).1 = WaitResult.returned (some e))
    (hm : (RetryContext (IndexResource.deleteProbe env)
        (env.attempts (IndexResource.deleteTimeout req.data).1) none
        { data := req.data
          resp := { Diagnostics := Diagnostics.Append (Diagnostics.Append resp.Diagnostics req.diags)
                      (IndexResource.deleteTimeout req.data).2
                    State := resp.State }
          trace := [Event.DeleteIndex req.data.Name.ValueString]
          probes := 0 }).2.probes = m) :
    (IndexResource.Delete env req resp).succeeded = false ∧
      (IndexResource.Delete env req resp).panicked = false ∧
      (IndexResource.Delete env req resp).trace.countP Event.isProbe = m ∧
      (IndexResource.Delete env req resp).trace.countP Event.isStateSet = 0 ∧
      (IndexResource.Delete env req resp).resp.Diagnostics
        = AddError (Diagnostics.Append (Diagnostics.Append resp.Diagnostics req.diags)
            (IndexResource.deleteTimeout req.data).2) "Failed to wait for index to be deleted." e.Error := by
  rw [IndexResource.Delete_waits env req resp h1 hc h2]
  unfold IndexResource.deleteWait
  obtain ⟨heff, hcnt, hset⟩ := IndexResource.deleteWait_effect env
    (env.attempts (IndexResource.deleteTimeout req.data).1) none
    { data := req.data
      resp := { Diagnostics := Diagnostics.Append (Diagnostics.Append resp.Diagnostics req.diags)
                  (IndexResource.deleteTimeout req.data).2
                State := resp.State }
      trace := [Event.DeleteIndex req.data.Name.ValueString]
      probes := 0 }
  rcases hrun : RetryContext (IndexResource.deleteProbe env)
      (env.attempts (IndexResource.deleteTimeout req.data).1) none
      { data := req.data
        resp := { Diagnostics := Diagnostics.Append (Diagnostics.Append resp.Diagnostics req.diags)
                    (IndexResource.deleteTimeout req.data).2
                  State := resp.State }
        trace := [Event.DeleteIndex req.data.Name.ValueString]
        probes := 0 } with ⟨w, s⟩
  rw [hrun] at hw hm heff hcnt hset
  simp only at hw hm heff hcnt hset
  subst hw
  simp only [Outcome.succeeded, HasError_AddError, heff]
  refine ⟨by simp, trivial, ?_, ?_, trivial⟩
  · simp [Event.isProbe] at hcnt
    omega
  · simpa [Event.isStateSet] using hset

end Pinecone

namespace Pinecone

theorem CollectionResource.coll_deleteProbe_decision (env : Env) (s : Loop CollectionResourceModel) :
    (CollectionResource.deleteProbe env s).1
      = CollectionResource.deleteDecision (env.DescribeCollection s.probes) := by
  unfold CollectionResource.deleteProbe CollectionResource.deleteDecision
  rcases env.DescribeCollection s.probes with ⟨collection, err⟩
  cases collection with
  | none => rfl
  | some collection =>
    cases err with
    | none => rfl
    | some e =>
      cases e with
      | HTTPError code msg => by_cases h : code = 404 <;> simp [h]
      | errorString msg => rfl
      | TimeoutError => rfl

/-- One attempt of the delete closure makes one probe and touches neither the
model nor the response. -/
theorem CollectionResource.coll_deleteProbe_effect (env : Env) (s : Loop CollectionResourceModel) :
    (CollectionResource.deleteProbe env s).2 =
      { s with
        probes := s.probes + 1
        trace := s.trace ++ [Event.DescribeCollection s.data.Id.ValueString] } := by
  unfold CollectionResource.deleteProbe
  rcases env.DescribeCollection s.probes with ⟨collection, err⟩
  cases collection with
  | none => rfl
  | some collection =>
    cases err with
    | none => rfl
    | some e =>
      cases e with
      | HTTPError code msg => by_cases h : code = 404 <;> simp [h]
      | errorString msg => rfl
      | TimeoutError => rfl

theorem CollectionResource.coll_deleteProbe_probes (env : Env) (s : Loop CollectionResourceModel) :
    (CollectionResource.deleteProbe env s).2.probes = s.probes + 1 := by
  rw [CollectionResource.coll_deleteProbe_effect]

theorem CollectionResource.coll_deleteDecision_done (r : DescribeCollectionResult) :
    CollectionResource.deleteDecision r = Attempt.returned none ↔
      (r.collection.isSome = true ∧ isNotFound r.err = true) := by
  rcases r with ⟨collection, err⟩
  cases collection with
  | none => simp [CollectionResource.deleteDecision]
  | some collection =>
    cases err with
    | none => simp [CollectionResource.deleteDecision, isNotFound]
    | some e =>
      cases e with
      | HTTPError code msg =>
        by_cases h : code = 404 <;> simp [CollectionResource.deleteDecision, isNotFound, h]
      | errorString msg => simp [CollectionResource.deleteDecision, isNotFound]
      | TimeoutError => simp [CollectionResource.deleteDecision, isNotFound]

theorem CollectionResource.coll_deleteDecision_retry (r : DescribeCollectionResult) :
    (∃ e, CollectionResource.deleteDecision r
        = Attempt.returned (some (RetryError.Retryable e))) ↔ r.present = true := by
  rcases r with ⟨collection, err⟩
  cases collection with
  | none => simp [CollectionResource.deleteDecision, DescribeCollectionResult.present]
  | some collection =>
    cases err with
    | none => simp [CollectionResource.deleteDecision, DescribeCollectionResult.present]
    | some e =>
      cases e with
      | HTTPError code msg =>
        by_cases h : code = 404 <;>
          simp [CollectionResource.deleteDecision, DescribeCollectionResult.present, h]
      | errorString msg =>
        simp [CollectionResource.deleteDecision, DescribeCollectionResult.present]
      | TimeoutError =>
        simp [CollectionResource.deleteDecision, DescribeCollectionResult.present]

theorem CollectionResource.coll_deleteDecision_fail (r : DescribeCollectionResult) (e : GoError)
    (hsome : r.collection.isSome = true)
    (he : r.err = some e) (hnf : isNotFound (some e) = false) :
    CollectionResource.deleteDecision r
      = Attempt.returned (some (RetryError.NonRetryable e)) := by
  rcases r with ⟨collection, err⟩
  simp only at he hsome
  subst he
  cases collection with
  | none => simp at hsome
  | some collection =>
    cases e with
    | HTTPError code msg =>
      by_cases h : code = 404
      · simp [isNotFound, h] at hnf
      · simp [CollectionResource.deleteDecision, h]
    | errorString msg => rfl
    | TimeoutError => rfl

/-- What the wait of `CollectionResource.Delete` leaves behind. -/
theorem CollectionResource.coll_deleteWait_effect (env : Env) (n : Nat) (last : Option GoError)
    (s : Loop CollectionResourceModel) :
    (RetryContext (CollectionResource.deleteProbe env) n last s).2.resp = s.resp ∧
    (RetryContext (CollectionResource.deleteProbe env) n last s).2.trace.countP Event.isProbe
      + s.probes
      = s.trace.countP Event.isProbe
        + (RetryContext (CollectionResource.deleteProbe env) n last s).2.probes ∧
    (RetryContext (CollectionResource.deleteProbe env) n last s).2.trace.countP
        Event.isStateSet
      = s.trace.countP Event.isStateSet := by
  refine RetryContext_invariant (CollectionResource.deleteProbe env)
    (fun t => t.resp = s.resp ∧
      t.trace.countP Event.isProbe + s.probes = s.trace.countP Event.isProbe + t.probes ∧
      t.trace.countP Event.isStateSet = s.trace.countP Event.isStateSet) ?_ n last s
    ⟨rfl, by omega, rfl⟩
  intro t ⟨h1, h2, h3⟩
  rw [CollectionResource.coll_deleteProbe_effect]
  refine ⟨h1, ?_, ?_⟩
  · simp only [List.countP_append]
    simp [Event.isProbe]
    omega
  · simp only [List.countP_append]
    simp [Event.isStateSet, h3]

theorem CollectionResource.coll_Delete_rejected (env : Env)
    (req : Request CollectionResourceModel) (resp : Response CollectionResourceModel)
    (e : GoError)
    (h1 : HasError (Diagnostics.Append resp.Diagnostics req.diags) = false)
    (hc : env.DeleteCollection = some e) :
    CollectionResource.Delete env req resp =
      { resp := { Diagnostics := AddError (Diagnostics.Append resp.Diagnostics req.diags)
                    "Failed to delete collection" e.Error
                  State := resp.State }
        trace := [Event.DeleteCollection req.data.Name.ValueString]
        panicked := false } := by
  simp only [CollectionResource.Delete, h1, hc, Bool.false_eq_true, ↓reduceIte]

theorem CollectionResource.coll_Delete_waits (env : Env)
    (req : Request CollectionResourceModel) (resp : Response CollectionResourceModel)
    (h1 : HasError (Diagnostics.Append resp.Diagnostics req.diags) = false)
    (hc : env.DeleteCollection = none) :
    CollectionResource.Delete env req resp =
      match CollectionResource.deleteWait env
          { data := req.data
            resp := { Diagnostics := Diagnostics.Append resp.Diagnostics req.diags, State := resp.State }
            trace := [Event.DeleteCollection req.data.Name.ValueString]
            probes := 0 } with
      | (.panicked, s) => { resp := s.resp, trace := s.trace, panicked := true }
      | (.returned (some err), s) =>
        { resp := { s.resp with
                    Diagnostics := AddError s.resp.Diagnostics
                      "Failed to wait for collection to be deleted." err.Error }
          trace := s.trace
          panicked := false }
      | (.returned none, s) => { resp := s.resp, trace := s.trace, panicked := false } := by
  simp only [CollectionResource.Delete, h1, hc, Bool.false_eq_true, ↓reduceIte]

theorem CollectionResource.coll_Delete_succeeded_iff (env : Env)
    (req : Request CollectionResourceModel) (resp : Response CollectionResourceModel)
    (h1 : HasError (Diagnostics.Append resp.Diagnostics req.diags) = false)
    (hc : env.DeleteCollection = none) :
    (CollectionResource.Delete env req resp).succeeded = true ↔
      (RetryContext (CollectionResource.deleteProbe env) (env.attempts (1 * Hour)) none
        { data := req.data
          resp := { Diagnostics := Diagnostics.Append resp.Diagnostics req.diags, State := resp.State }
          trace := [Event.DeleteCollection req.data.Name.ValueString]
          probes := 0 }).1 = WaitResult.returned none := by
  rw [CollectionResource.coll_Delete_waits env req resp h1 hc]
  unfold CollectionResource.deleteWait
  have heff := (CollectionResource.coll_deleteWait_effect env (env.attempts (1 * Hour)) none
    { data := req.data
      resp := { Diagnostics := Diagnostics.Append resp.Diagnostics req.diags, State := resp.State }
      trace := [Event.DeleteCollection req.data.Name.ValueString]
      probes := 0 }).1
  rcases hw : RetryContext (CollectionResource.deleteProbe env) (env.attempts (1 * Hour)) none
      { data := req.data
        resp := { Diagnostics := Diagnostics.Append resp.Diagnostics req.diags, State := resp.State }
        trace := [Event.DeleteCollection req.data.Name.ValueString]
        probes := 0 } with ⟨w, s⟩
  rw [hw] at heff
  simp only at heff
  cases w with
  | panicked => simp [Outcome.succeeded]
  | returned r =>
    cases r with
    | some e => simp [Outcome.succeeded, HasError_AddError]
    | none =>
      simp only [Outcome.succeeded, heff, h1]
      simp

theorem CollectionResource.coll_deleteWait_success_iff (env : Env) (n : Nat)
    (last : Option GoError) (s : Loop CollectionResourceModel) (hs : s.probes = 0) :
    (RetryContext (CollectionResource.deleteProbe env) n last s).1 = WaitResult.returned none ↔
      ∃ i, i < n ∧
        ((env.DescribeCollection i).collection.isSome = true ∧
          isNotFound (env.DescribeCollection i).err = true) ∧
        ∀ j, j < i → (env.DescribeCollection j).present = true := by
  rw [RetryContext_success_iff (CollectionResource.deleteProbe env) Loop.probes
    (fun i => CollectionResource.deleteDecision (env.DescribeCollection i))
    (CollectionResource.coll_deleteProbe_decision env) (CollectionResource.coll_deleteProbe_probes env)]
  simp only [hs, Nat.zero_add, CollectionResource.coll_deleteDecision_done,
    CollectionResource.coll_deleteDecision_retry]

theorem CollectionResource.coll_deleteWait_fail_at (env : Env) (n : Nat) (last : Option GoError)
    (s : Loop CollectionResourceModel) (hs : s.probes = 0) (i : Nat) (e : GoError)
    (hi : i < n)
    (hbefore : ∀ j, j < i → (env.DescribeCollection j).present = true)
    (hsome : (env.DescribeCollection i).collection.isSome = true)
    (herr : (env.DescribeCollection i).err = some e) (hnf : isNotFound (some e) = false) :
    (RetryContext (CollectionResource.deleteProbe env) n last s).1
        = WaitResult.returned (some e) ∧
      (RetryContext (CollectionResource.deleteProbe env) n last s).2.probes = i + 1 := by
  have h := RetryContext_fail_at (CollectionResource.deleteProbe env) Loop.probes
    (fun i => CollectionResource.deleteDecision (env.DescribeCollection i))
    (CollectionResource.coll_deleteProbe_decision env) (CollectionResource.coll_deleteProbe_probes env)
    i n last s hi e
    (by
      intro j hj
      simp only [hs, Nat.zero_add]
      exact (CollectionResource.coll_deleteDecision_retry _).2 (hbefore j hj))
    (by
      simp only [hs, Nat.zero_add]
      exact CollectionResource.coll_deleteDecision_fail _ e hsome herr hnf)
  simpa [hs] using h

theorem CollectionResource.coll_deleteWait_exhausted (env : Env) (n : Nat) (last : Option GoError)
    (s : Loop CollectionResourceModel) (hs : s.probes = 0)
    (hall : ∀ j, j < n → (env.DescribeCollection j).present = true) :
    (∃ e, (RetryContext (CollectionResource.deleteProbe env) n last s).1
        = WaitResult.returned (some e)) ∧
      (RetryContext (CollectionResource.deleteProbe env) n last s).2.probes = n := by
  have h := RetryContext_exhausted (CollectionResource.deleteProbe env) Loop.probes
    (fun i => CollectionResource.deleteDecision (env.DescribeCollection i))
    (CollectionResource.coll_deleteProbe_decision env) (CollectionResource.coll_deleteProbe_probes env)
    n last s
    (by
      intro j hj
      simp only [hs, Nat.zero_add]
      exact (CollectionResource.coll_deleteDecision_retry _).2 (hall j hj))
  simpa [hs] using h

/-- The outcome of `CollectionResource.Delete` when its wait returns an error. -/
theorem CollectionResource.coll_Delete_of_wait_error (env : Env)
    (req : Request CollectionResourceModel) (resp : Response CollectionResourceModel)
    (h1 : HasError (Diagnostics.Append resp.Diagnostics req.diags) = false)
    (hc : env.DeleteCollection = none)
    (e : GoError) (m : Nat)
    (hw : (RetryContext (CollectionResource.deleteProbe env) (env.attempts (1 * Hour)) none
        { data := req.data
          resp := { Diagnostics := Diagnostics.Append resp.Diagnostics req.diags, State := resp.State }
          trace := [Event.DeleteCollection req.data.Name.ValueString]
          probes := 0 }).1 = WaitResult.returned (some e))
    (hm : (RetryContext (CollectionResource.deleteProbe env) (env.attempts (1 * Hour)) none
        { data := req.data
          resp := { Diagnostics := Diagnostics.Append resp.Diagnostics req.diags, State := resp.State }
          trace := [Event.DeleteCollection req.data.Name.ValueString]
          probes := 0 }).2.probes = m) :
    (CollectionResource.Delete env req resp).succeeded = false ∧
      (CollectionResource.Delete env req resp).panicked = false ∧
      (CollectionResource.Delete env req resp).trace.countP Event.isProbe = m ∧
      (CollectionResource.Delete env req resp).trace.countP Event.isStateSet = 0 ∧
      (CollectionResource.Delete env req resp).resp.Diagnostics
        = AddError (Diagnostics.Append resp.Diagnostics req.diags) "Failed to wait for collection to be deleted." e.Error := by
  rw [CollectionResource.coll_Delete_waits env req resp h1 hc]
  unfold CollectionResource.deleteWait
  obtain ⟨heff, hcnt, hset⟩ := CollectionResource.coll_deleteWait_effect env
    (env.attempts (1 * Hour)) none
    { data := req.data
      resp := { Diagnostics := Diagnostics.Append resp.Diagnostics req.diags, State := resp.State }
      trace := [Event.DeleteCollection req.data.Name.ValueString]
      probes := 0 }
  rcases hrun : RetryContext (CollectionResource.deleteProbe env) (env.attempts (1 * Hour)) none
      { data := req.data
        resp := { Diagnostics := Diagnostics.Append resp.Diagnostics req.diags, State := resp.State }
        trace := [Event.DeleteCollection req.data.Name.ValueString]
        probes := 0 } with ⟨w, s⟩
  rw [hrun] at hw hm heff hcnt hset
  simp only at hw hm heff hcnt hset
  subst hw
  simp only [Outcome.succeeded, HasError_AddError, heff]
  refine ⟨by simp, trivial, ?_, ?_, trivial⟩
  · simp [Event.isProbe] at hcnt
    omega
  · simpa [Event.isStateSet] using hset

end Pinecone

namespace Pinecone

/-- The probe classification of the delete waits, for probes that hand back a
value. After an accepted delete call the wait loops of `IndexResource.Delete`
and `CollectionResource.Delete` classify a probe as follows: a 404 error ends
the wait with success, any other error ends it with that error, a resource
returned without error is retried. A non-404 error after `i` present answers
makes `Delete` fail with exactly `i + 1` probes made; `Delete` returns without
error iff some probe within the budget answers 404 and all earlier ones
returned a present resource; and it returns an error, after using the whole
budget, when every probe returns a present resource. For the collection the
probe must hand back a collection value along with its error, since the
closure reads `collection.Status` before it looks at the error. -/
theorem delete_wait_classification (env : Env)
    (reqI : Request IndexResourceModel) (respI : Response IndexResourceModel)
    (reqC : Request CollectionResourceModel) (respC : Response CollectionResourceModel)
    (h1 : HasError (Diagnostics.Append respI.Diagnostics reqI.diags) = false)
    (hd : env.DeleteIndex = none)
    (h2 : HasError (Diagnostics.Append (Diagnostics.Append respI.Diagnostics reqI.diags)
      (IndexResource.deleteTimeout reqI.data).2) = false)
    (h3 : HasError (Diagnostics.Append respC.Diagnostics reqC.diags) = false)
    (hdc : env.DeleteCollection = none) :
    ((∀ s : Loop IndexResourceModel,
        (isNotFound (env.DescribeIndex s.probes).err = true →
          (IndexResource.deleteProbe env s).1 = Attempt.returned none) ∧
        (∀ e, (env.DescribeIndex s.probes).err = some e → isNotFound (some e) = false →
          (IndexResource.deleteProbe env s).1
            = Attempt.returned (some (RetryError.NonRetryable e))) ∧
        ((env.DescribeIndex s.probes).present = true →
          ∃ e, (IndexResource.deleteProbe env s).1
            = Attempt.returned (some (RetryError.Retryable e)))) ∧
      (∀ i e, i < env.attempts (IndexResource.deleteTimeout reqI.data).1 →
        (∀ j, j < i → (env.DescribeIndex j).present = true) →
        (env.DescribeIndex i).err = some e → isNotFound (some e) = false →
        (IndexResource.Delete env reqI respI).succeeded = false ∧
        (IndexResource.Delete env reqI respI).panicked = false ∧
        (IndexResource.Delete env reqI respI).trace.countP Event.isProbe = i + 1 ∧
        (IndexResource.Delete env reqI respI).resp.Diagnostics
          = AddError (Diagnostics.Append (Diagnostics.Append respI.Diagnostics reqI.diags)
            (IndexResource.deleteTimeout reqI.data).2) "Failed to wait for index to be deleted." e.Error) ∧
      ((IndexResource.Delete env reqI respI).succeeded = true ↔
        ∃ i, i < env.attempts (IndexResource.deleteTimeout reqI.data).1 ∧
          isNotFound (env.DescribeIndex i).err = true ∧
          ∀ j, j < i → (env.DescribeIndex j).present = true) ∧
      ((∀ i, i < env.attempts (IndexResource.deleteTimeout reqI.data).1 →
          (env.DescribeIndex i).present = true) →
        (IndexResource.Delete env reqI respI).succeeded = false ∧
        (IndexResource.Delete env reqI respI).panicked = false ∧
        (IndexResource.Delete env reqI respI).trace.countP Event.isProbe
          = env.attempts (IndexResource.deleteTimeout reqI.data).1)) ∧
    ((∀ s : Loop CollectionResourceModel,
        ((env.DescribeCollection s.probes).collection.isSome = true →
          isNotFound (env.DescribeCollection s.probes).err = true →
          (CollectionResource.deleteProbe env s).1 = Attempt.returned none) ∧
        (∀ e, (env.DescribeCollection s.probes).collection.isSome = true →
          (env.DescribeCollection s.probes).err = some e → isNotFound (some e) = false →
          (CollectionResource.deleteProbe env s).1
            = Attempt.returned (some (RetryError.NonRetryable e))) ∧
        ((env.DescribeCollection s.probes).present = true →
          ∃ e, (CollectionResource.deleteProbe env s).1
            = Attempt.returned (some (RetryError.Retryable e)))) ∧
      (∀ i e, i < env.attempts (1 * Hour) →
        (∀ j, j < i → (env.DescribeCollection j).present = true) →
        (env.DescribeCollection i).collection.isSome = true →
        (env.DescribeCollection i).err = some e → isNotFound (some e) = false →
        (CollectionResource.Delete env reqC respC).succeeded = false ∧
        (CollectionResource.Delete env reqC respC).panicked = false ∧
        (CollectionResource.Delete env reqC respC).trace.countP Event.isProbe = i + 1 ∧
        (CollectionResource.Delete env reqC respC).resp.Diagnostics
          = AddError (Diagnostics.Append respC.Diagnostics reqC.diags) "Failed to wait for collection to be deleted." e.Error) ∧
      ((CollectionResource.Delete env reqC respC).succeeded = true ↔
        ∃ i, i < env.attempts (1 * Hour) ∧
          ((env.DescribeCollection i).collection.isSome = true ∧
            isNotFound (env.DescribeCollection i).err = true) ∧
          ∀ j, j < i → (env.DescribeCollection j).present = true) ∧
      ((∀ i, i < env.attempts (1 * Hour) → (env.DescribeCollection i).present = true) →
        (CollectionResource.Delete env reqC respC).succeeded = false ∧
        (CollectionResource.Delete env reqC respC).panicked = false ∧
        (CollectionResource.Delete env reqC respC).trace.countP Event.isProbe
          = env.attempts (1 * Hour))) := by
  refine ⟨⟨?_, ?_, ?_, ?_⟩, ⟨?_, ?_, ?_, ?_⟩⟩
  · intro s
    rw [IndexResource.deleteProbe_decision]
    exact ⟨fun h => (IndexResource.deleteDecision_done _).2 h,
      fun e he hnf => IndexResource.deleteDecision_fail _ e he hnf,
      fun h => (IndexResource.deleteDecision_retry _).2 h⟩
  · intro i e hi hbefore herr hnf
    obtain ⟨hw, hm⟩ := IndexResource.deleteWait_fail_at env
      (env.attempts (IndexResource.deleteTimeout reqI.data).1) none
      { data := reqI.data
        resp := { Diagnostics := Diagnostics.Append (Diagnostics.Append respI.Diagnostics reqI.diags)
                    (IndexResource.deleteTimeout reqI.data).2
                  State := respI.State }
        trace := [Event.DeleteIndex reqI.data.Name.ValueString]
        probes := 0 } rfl i e hi hbefore herr hnf
    obtain ⟨r1, r2, r3, _, r5⟩ :=
      IndexResource.Delete_of_wait_error env reqI respI h1 hd h2 e (i + 1) hw hm
    exact ⟨r1, r2, r3, r5⟩
  · rw [IndexResource.Delete_succeeded_iff env reqI respI h1 hd h2]
    exact IndexResource.deleteWait_success_iff env _ none _ rfl
  · intro hall
    obtain ⟨⟨e, hw⟩, hm⟩ := IndexResource.deleteWait_exhausted env
      (env.attempts (IndexResource.deleteTimeout reqI.data).1) none
      { data := reqI.data
        resp := { Diagnostics := Diagnostics.Append (Diagnostics.Append respI.Diagnostics reqI.diags)
                    (IndexResource.deleteTimeout reqI.data).2
                  State := respI.State }
        trace := [Event.DeleteIndex reqI.data.Name.ValueString]
        probes := 0 } rfl hall
    obtain ⟨r1, r2, r3, _, _⟩ :=
      IndexResource.Delete_of_wait_error env reqI respI h1 hd h2 e _ hw hm
    exact ⟨r1, r2, r3⟩
  · intro s
    rw [CollectionResource.coll_deleteProbe_decision]
    exact ⟨fun hs h => (CollectionResource.coll_deleteDecision_done _).2 ⟨hs, h⟩,
      fun e hs he hnf => CollectionResource.coll_deleteDecision_fail _ e hs he hnf,
      fun h => (CollectionResource.coll_deleteDecision_retry _).2 h⟩
  · intro i e hi hbefore hsome herr hnf
    obtain ⟨hw, hm⟩ := CollectionResource.coll_deleteWait_fail_at env
      (env.attempts (1 * Hour)) none
      { data := reqC.data
        resp := { Diagnostics := Diagnostics.Append respC.Diagnostics reqC.diags, State := respC.State }
        trace := [Event.DeleteCollection reqC.data.Name.ValueString]
        probes := 0 } rfl i e hi hbefore hsome herr hnf
    obtain ⟨r1, r2, r3, _, r5⟩ :=
      CollectionResource.coll_Delete_of_wait_error env reqC respC h3 hdc e (i + 1) hw hm
    exact ⟨r1, r2, r3, r5⟩
  · rw [CollectionResource.coll_Delete_succeeded_iff env reqC respC h3 hdc]
    exact CollectionResource.coll_deleteWait_success_iff env _ none _ rfl
  · intro hall
    obtain ⟨⟨e, hw⟩, hm⟩ := CollectionResource.coll_deleteWait_exhausted env
      (env.attempts (1 * Hour)) none
      { data := reqC.data
        resp := { Diagnostics := Diagnostics.Append respC.Diagnostics reqC.diags, State := respC.State }
        trace := [Event.DeleteCollection reqC.data.Name.ValueString]
        probes := 0 } rfl hall
    obtain ⟨r1, r2, r3, _, _⟩ :=
      CollectionResource.coll_Delete_of_wait_error env reqC respC h3 hdc e _ hw hm
    exact ⟨r1, r2, r3⟩

/-- The classification at a control plane where the index is still reported twice and the
collection once before the 404: both deletions succeed, by the equivalence. -/
theorem delete_wait_classification_witness :
    (IndexResource.Delete deletingEnv ⟨widgetState, []⟩ ⟨[], some widgetState⟩).succeeded = true ∧
    (CollectionResource.Delete deletingEnv ⟨snapState, []⟩ ⟨[], some snapState⟩).succeeded
      = true :=
  ⟨(delete_wait_classification deletingEnv ⟨widgetState, []⟩ ⟨[], some widgetState⟩
      ⟨snapState, []⟩ ⟨[], some snapState⟩
      (by decide) rfl (by decide) (by decide) rfl).1.2.2.1.2
      ⟨2, by decide, by decide, by
        intro j hj
        have : j = 0 ∨ j = 1 := by omega
        rcases this with h | h <;> subst h <;> decide⟩,
   (delete_wait_classification deletingEnv ⟨widgetState, []⟩ ⟨[], some widgetState⟩
      ⟨snapState, []⟩ ⟨[], some snapState⟩
      (by decide) rfl (by decide) (by decide) rfl).2.2.2.1.2
      ⟨1, by decide, by decide, by
        intro j hj
        have : j = 0 := by omega
        subst this
        decide⟩⟩

end Pinecone

namespace Pinecone

section RetryPanic

variable {σ : Type} (f : σ → Attempt × σ) (pc : σ → Nat) (d : Nat → Attempt)

/-- An attempt within the budget that panics after retried attempts only ends
the wait in that panic, and is the last attempt made. -/
theorem RetryContext_panic_at (hd : ∀ s, (f s).1 = d (pc s))
    (hpc : ∀ s, pc (f s).2 = pc s + 1) (i n : Nat) (last : Option GoError) (s : σ)
    (hi : i < n)
    (hret : ∀ j, j < i → ∃ e, d (pc s + j) = Attempt.returned (some (RetryError.Retryable e)))
    (hpanic : d (pc s + i) = Attempt.panicked) :
    (RetryContext f n last s).1 = WaitResult.panicked ∧
      pc (RetryContext f n last s).2 = pc s + i + 1 := by
  obtain ⟨last1, s1, hp, hrun⟩ :=
    RetryContext_after_retries f pc d hd hpc i (n - i) last s hret
  rw [show n - i + i = n by omega] at hrun
  obtain ⟨m, hm⟩ : ∃ m, n - i = m + 1 := ⟨n - i - 1, by omega⟩
  rw [hrun, hm]
  have h1 := hd s1
  have h2 := hpc s1
  rcases hfs : f s1 with ⟨a, s2⟩
  rw [hfs] at h1 h2
  simp only at h1 h2
  rw [hp, hpanic] at h1
  subst h1
  rw [RetryContext_succ_panic f m last1 hfs]
  exact ⟨rfl, by simp only; omega⟩

end RetryPanic

/-- The delete closure of the collection panics on a nil collection, whatever the error. -/
theorem CollectionResource.coll_deleteDecision_nil (err : Option GoError) :
    CollectionResource.deleteDecision ⟨none, err⟩ = Attempt.panicked := rfl

/-- The wait of `CollectionResource.Delete` when probe `i`, after present
answers only, hands back a nil collection. -/
theorem CollectionResource.coll_deleteWait_panic_at (env : Env) (n : Nat)
    (last : Option GoError) (s : Loop CollectionResourceModel) (hs : s.probes = 0) (i : Nat)
    (hi : i < n)
    (hbefore : ∀ j, j < i → (env.DescribeCollection j).present = true)
    (hnil : (env.DescribeCollection i).collection = none) :
    (RetryContext (CollectionResource.deleteProbe env) n last s).1 = WaitResult.panicked ∧
      (RetryContext (CollectionResource.deleteProbe env) n last s).2.probes = i + 1 := by
  have h := RetryContext_panic_at (CollectionResource.deleteProbe env) Loop.probes
    (fun i => CollectionResource.deleteDecision (env.DescribeCollection i))
    (CollectionResource.coll_deleteProbe_decision env)
    (CollectionResource.coll_deleteProbe_probes env) i n last s hi
    (by
      intro j hj
      simp only [hs, Nat.zero_add]
      exact (CollectionResource.coll_deleteDecision_retry _).2 (hbefore j hj))
    (by
      simp only [hs, Nat.zero_add]
      rcases hprobe : env.DescribeCollection i with ⟨collection, err⟩
      rw [hprobe] at hnil
      simp only at hnil
      subst hnil
      rfl)
  simpa [hs] using h

/-- The outcome of `CollectionResource.Delete` when its wait ends in a panic. -/
theorem CollectionResource.coll_Delete_of_wait_panic (env : Env)
    (req : Request CollectionResourceModel) (resp : Response CollectionResourceModel)
    (h1 : HasError (Diagnostics.Append resp.Diagnostics req.diags) = false)
    (hc : env.DeleteCollection = none) (m : Nat)
    (hw : (RetryContext (CollectionResource.deleteProbe env) (env.attempts (1 * Hour)) none
        { data := req.data
          resp := { Diagnostics := Diagnostics.Append resp.Diagnostics req.diags, State := resp.State }
          trace := [Event.DeleteCollection req.data.Name.ValueString]
          probes := 0 }).1 = WaitResult.panicked)
    (hm : (RetryContext (CollectionResource.deleteProbe env) (env.attempts (1 * Hour)) none
        { data := req.data
          resp := { Diagnostics := Diagnostics.Append resp.Diagnostics req.diags, State := resp.State }
          trace := [Event.DeleteCollection req.data.Name.ValueString]
          probes := 0 }).2.probes = m) :
    (CollectionResource.Delete env req resp).panicked = true ∧
      (CollectionResource.Delete env req resp).succeeded = false ∧
      (CollectionResource.Delete env req resp).trace.countP Event.isProbe = m := by
  rw [CollectionResource.coll_Delete_waits env req resp h1 hc]
  unfold CollectionResource.deleteWait
  obtain ⟨heff, hcnt, hset⟩ := CollectionResource.coll_deleteWait_effect env
    (env.attempts (1 * Hour)) none
    { data := req.data
      resp := { Diagnostics := Diagnostics.Append resp.Diagnostics req.diags, State := resp.State }
      trace := [Event.DeleteCollection req.data.Name.ValueString]
      probes := 0 }
  rcases hrun : RetryContext (CollectionResource.deleteProbe env) (env.attempts (1 * Hour)) none
      { data := req.data
        resp := { Diagnostics := Diagnostics.Append resp.Diagnostics req.diags, State := resp.State }
        trace := [Event.DeleteCollection req.data.Name.ValueString]
        probes := 0 } with ⟨w, s⟩
  rw [hrun] at hw hm heff hcnt hset
  simp only at hw hm heff hcnt hset
  subst hw
  refine ⟨rfl, rfl, ?_⟩
  show List.countP Event.isProbe s.trace = m
  simp [Event.isProbe] at hcnt
  omega

/-- C4, the code at the failing input. The delete call is accepted and the
first probe answers not-found (HTTP 404) with a nil pointer. `IndexResource.Delete`
looks at the error first and finishes with success after that one probe.
`CollectionResource.Delete` reads `collection.Status` for its log line before
it looks at the error: it panics at that probe and does not finish with
success. In general, a probe of `CollectionResource.Delete` that hands back a
nil collection after present answers only, whatever its error, ends the
deletion in a panic at that probe. -/
theorem collection_delete_panics_on_not_found :
    isNotFound (goneEnv.DescribeIndex 0).err = true ∧
    isNotFound (goneEnv.DescribeCollection 0).err = true ∧
    (IndexResource.Delete goneEnv ⟨widgetState, []⟩ ⟨[], some widgetState⟩).succeeded = true ∧
    (IndexResource.Delete goneEnv ⟨widgetState, []⟩ ⟨[], some widgetState⟩).trace
      = [Event.DeleteIndex "widget", Event.DescribeIndex "widget"] ∧
    (CollectionResource.Delete goneEnv ⟨snapState, []⟩ ⟨[], some snapState⟩).panicked = true ∧
    (CollectionResource.Delete goneEnv ⟨snapState, []⟩ ⟨[], some snapState⟩).succeeded = false ∧
    (CollectionResource.Delete goneEnv ⟨snapState, []⟩ ⟨[], some snapState⟩).trace
      = [Event.DeleteCollection "snap", Event.DescribeCollection "snap"] ∧
    (CollectionResource.Delete nilErrorEnv ⟨snapState, []⟩ ⟨[], some snapState⟩).panicked = true ∧
    (CollectionResource.Delete nilErrorEnv ⟨snapState, []⟩ ⟨[], some snapState⟩).resp.Diagnostics
      = [] ∧
    (∀ (env : Env) (req : Request CollectionResourceModel)
        (resp : Response CollectionResourceModel) (i : Nat),
      HasError (Diagnostics.Append resp.Diagnostics req.diags) = false →
      env.DeleteCollection = none → i < env.attempts (1 * Hour) →
      (∀ j, j < i → (env.DescribeCollection j).present = true) →
      (env.DescribeCollection i).collection = none →
      (CollectionResource.Delete env req resp).panicked = true ∧
      (CollectionResource.Delete env req resp).succeeded = false ∧
      (CollectionResource.Delete env req resp).trace.countP Event.isProbe = i + 1) := by
  refine ⟨by decide, by decide, by decide, by decide, by decide, by decide, by decide,
    by decide, by decide, ?_⟩
  intro env req resp i h1 hc hi hbefore hnil
  obtain ⟨hw, hm⟩ := CollectionResource.coll_deleteWait_panic_at env
    (env.attempts (1 * Hour)) none
    { data := req.data
      resp := { Diagnostics := Diagnostics.Append resp.Diagnostics req.diags, State := resp.State }
      trace := [Event.DeleteCollection req.data.Name.ValueString]
      probes := 0 } rfl i hi hbefore hnil
  exact CollectionResource.coll_Delete_of_wait_panic env req resp h1 hc (i + 1) hw hm

end Pinecone

namespace Pinecone

/-- The outcome of `IndexResource.Delete` when its wait returns nil. -/
theorem IndexResource.Delete_of_wait_done (env : Env) (req : Request IndexResourceModel)
    (resp : Response IndexResourceModel)
    (h1 : HasError (Diagnostics.Append resp.Diagnostics req.diags) = false) (hc : env.DeleteIndex = none)
    (h2 : HasError (Diagnostics.Append (Diagnostics.Append resp.Diagnostics req.diags)
      (IndexResource.deleteTimeout req.data).2) = false)
    (m : Nat)
    (hw : (RetryContext (IndexResource.deleteProbe env)
        (env.attempts (IndexResource.deleteTimeout req.data).1) none
        { data := req.data
          resp := { Diagnostics := Diagnostics.Append (Diagnostics.Append resp.Diagnostics req.diags)
                      (IndexResource.deleteTimeout req.data).2
                    State := resp.State }
          trace := [Event.DeleteIndex req.data.Name.ValueString]
          probes := 0 }).1 = WaitResult.returned none)
    (hm : (RetryContext (IndexResource.deleteProbe env)
        (env.attempts (IndexResource.deleteTimeout req.data).1) none
        { data := req.data
          resp := { Diagnostics := Diagnostics.Append (Diagnostics.Append resp.Diagnostics req.diags)
                      (IndexResource.deleteTimeout req.data).2
                    State := resp.State }
          trace := [Event.DeleteIndex req.data.Name.ValueString]
          probes := 0 }).2.probes = m) :
    (IndexResource.Delete env req resp).succeeded = true ∧
      (IndexResource.Delete env req resp).trace.countP Event.isProbe = m ∧
      (IndexResource.Delete env req resp).resp.Diagnostics
        = Diagnostics.Append (Diagnostics.Append resp.Diagnostics req.diags) (IndexResource.deleteTimeout req.data).2 := by
  rw [IndexResource.Delete_waits env req resp h1 hc h2]
  unfold IndexResource.deleteWait
  obtain ⟨heff, hcnt, _⟩ := IndexResource.deleteWait_effect env
    (env.attempts (IndexResource.deleteTimeout req.data).1) none
    { data := req.data
      resp := { Diagnostics := Diagnostics.Append (Diagnostics.Append resp.Diagnostics req.diags)
                  (IndexResource.deleteTimeout req.data).2
                State := resp.State }
      trace := [Event.DeleteIndex req.data.Name.ValueString]
      probes := 0 }
  rcases hrun : RetryContext (IndexResource.deleteProbe env)
      (env.attempts (IndexResource.deleteTimeout req.data).1) none
      { data := req.data
        resp := { Diagnostics := Diagnostics.Append (Diagnostics.Append resp.Diagnostics req.diags)
                    (IndexResource.deleteTimeout req.data).2
                  State := resp.State }
        trace := [Event.DeleteIndex req.data.Name.ValueString]
        probes := 0 } with ⟨w, s⟩
  rw [hrun] at hw hm heff hcnt
  simp only at hw hm heff hcnt
  subst hw
  simp only [Outcome.succeeded, heff, h2]
  refine ⟨by simp, ?_, trivial⟩
  simp [Event.isProbe] at hcnt
  omega

/-- C5, the claim refuted: on a control plane where the index is already
absent, so that the delete call and every probe answer 404, `Delete` makes no
probe and reports the error `Failed to delete index`. -/
theorem IndexResource.delete_absent_reports_error :
    isNotFound absentEnv.DeleteIndex = true ∧
    (∀ i, isNotFound (absentEnv.DescribeIndex i).err = true) ∧
    (IndexResource.Delete absentEnv ⟨widgetState, []⟩ ⟨[], some widgetState⟩).succeeded = false ∧
    (IndexResource.Delete absentEnv ⟨widgetState, []⟩ ⟨[], some widgetState⟩).trace
      = [Event.DeleteIndex "widget"] ∧
    (IndexResource.Delete absentEnv ⟨widgetState, []⟩ ⟨[], some widgetState⟩).resp.Diagnostics
      = [⟨Severity.error, "Failed to delete index", "not found"⟩] := by
  refine ⟨by decide, fun i => rfl, by decide, by decide, by decide⟩

/-- C5 as amended. `IndexResource.Delete` surfaces any error of the
`DeleteIndex` call itself, a 404 included, as `Failed to delete index` without
probing; when the delete call is accepted and the first probe answers 404,
within a budget of at least one attempt, it returns after that one probe with
no diagnostic added. -/
theorem IndexResource.delete_absent_after_accepted_call (env : Env)
    (req : Request IndexResourceModel) (resp : Response IndexResourceModel)
    (h1 : HasError (Diagnostics.Append resp.Diagnostics req.diags) = false) :
    (∀ e, env.DeleteIndex = some e →
      (IndexResource.Delete env req resp).succeeded = false ∧
      (IndexResource.Delete env req resp).trace
        = [Event.DeleteIndex req.data.Name.ValueString] ∧
      (IndexResource.Delete env req resp).resp.Diagnostics
        = AddError (Diagnostics.Append resp.Diagnostics req.diags) "Failed to delete index" e.Error) ∧
    (env.DeleteIndex = none →
      HasError (Diagnostics.Append (Diagnostics.Append resp.Diagnostics req.diags)
        (IndexResource.deleteTimeout req.data).2) = false →
      0 < env.attempts (IndexResource.deleteTimeout req.data).1 →
      isNotFound (env.DescribeIndex 0).err = true →
      (IndexResource.Delete env req resp).succeeded = true ∧
      (IndexResource.Delete env req resp).trace.countP Event.isProbe = 1 ∧
      (IndexResource.Delete env req resp).resp.Diagnostics
        = Diagnostics.Append (Diagnostics.Append resp.Diagnostics req.diags) (IndexResource.deleteTimeout req.data).2) := by
  constructor
  · intro e he
    rw [IndexResource.Delete_rejected env req resp e h1 he]
    exact ⟨by simp [Outcome.succeeded, HasError_AddError], rfl, rfl⟩
  · intro hc h2 hn h404
    obtain ⟨hw, hm⟩ := RetryContext_done_at (IndexResource.deleteProbe env) Loop.probes
      (fun i => IndexResource.deleteDecision (env.DescribeIndex i))
      (IndexResource.deleteProbe_decision env) (IndexResource.deleteProbe_probes env)
      0 (env.attempts (IndexResource.deleteTimeout req.data).1) none
      { data := req.data
        resp := { Diagnostics := Diagnostics.Append (Diagnostics.Append resp.Diagnostics req.diags)
                    (IndexResource.deleteTimeout req.data).2
                  State := resp.State }
        trace := [Event.DeleteIndex req.data.Name.ValueString]
        probes := 0 } hn (by intro j hj; omega)
      ((IndexResource.deleteDecision_done _).2 h404)
    exact IndexResource.Delete_of_wait_done env req resp h1 hc h2 1 hw hm

/-- C5 as amended, at an accepted delete call whose first probe answers 404. -/
theorem IndexResource.delete_absent_after_accepted_call_witness :
    (IndexResource.Delete emptyEnv ⟨widgetState, []⟩ ⟨[], some widgetState⟩).succeeded = true ∧
    (IndexResource.Delete emptyEnv ⟨widgetState, []⟩ ⟨[], some widgetState⟩).trace.countP
      Event.isProbe = 1 ∧
    (IndexResource.Delete emptyEnv ⟨widgetState, []⟩ ⟨[], some widgetState⟩).resp.Diagnostics
      = Diagnostics.Append (Diagnostics.Append [] []) (IndexResource.deleteTimeout widgetState).2 :=
  (IndexResource.delete_absent_after_accepted_call emptyEnv ⟨widgetState, []⟩
    ⟨[], some widgetState⟩ (by decide)).2 rfl (by decide) (by decide) (by decide)

end Pinecone

namespace Pinecone

/-! ## Placement validation -/

theorem IndexResource.createProbe_trace_head (env : Env) (s : Loop IndexResourceModel)
    (e : Event) (h : s.trace.head? = some e) :
    (IndexResource.createProbe env s).2.trace.head? = some e := by
  have hne : s.trace ≠ [] := by
    intro h0
    rw [h0] at h
    simp at h
  unfold IndexResource.createProbe
  rcases env.DescribeIndex s.probes with ⟨index, err⟩
  cases index with
  | none => simp [List.head?_append_of_ne_nil _ hne, h]
  | some index =>
    cases err with
    | some e1 => simp [List.head?_append_of_ne_nil _ hne, h]
    | none =>
      by_cases hr : index.Status.Ready <;> simp [hr, List.head?_append_of_ne_nil _ hne, h]

theorem IndexResource.Create_trace_head (env : Env) (req : Request IndexResourceModel)
    (resp : Response IndexResourceModel)
    (h1 : HasError (Diagnostics.Append resp.Diagnostics req.diags) = false) :
    (IndexResource.Create env req resp).trace.head?
      = some (Event.CreateIndex (IndexResource.createPayload req.data)) := by
  cases hc : env.CreateIndex with
  | some e => rw [IndexResource.Create_rejected env req resp e h1 hc]; rfl
  | none =>
    cases h2 : HasError (Diagnostics.Append (Diagnostics.Append resp.Diagnostics req.diags)
        (req.data.Timeouts.Create defaultIndexCreateTimeout).2) with
    | true => rw [IndexResource.Create_timeout_error env req resp h1 hc h2]; rfl
    | false =>
      rw [IndexResource.Create_waits env req resp h1 hc h2]
      unfold IndexResource.createWait
      have hhead := RetryContext_invariant (IndexResource.createProbe env)
        (fun t => t.trace.head?
          = some (Event.CreateIndex (IndexResource.createPayload req.data)))
        (fun t ht => IndexResource.createProbe_trace_head env t _ ht)
        (env.attempts (req.data.Timeouts.Create defaultIndexCreateTimeout).1) none
        { data := req.data
          resp := { Diagnostics := Diagnostics.Append (Diagnostics.Append resp.Diagnostics req.diags)
                      (req.data.Timeouts.Create defaultIndexCreateTimeout).2
                    State := resp.State }
          trace := [Event.CreateIndex (IndexResource.createPayload req.data)]
          probes := 0 } rfl
      rcases hrun : RetryContext (IndexResource.createProbe env)
          (env.attempts (req.data.Timeouts.Create defaultIndexCreateTimeout).1) none
          { data := req.data
            resp := { Diagnostics := Diagnostics.Append (Diagnostics.Append resp.Diagnostics req.diags)
                        (req.data.Timeouts.Create defaultIndexCreateTimeout).2
                      State := resp.State }
            trace := [Event.CreateIndex (IndexResource.createPayload req.data)]
            probes := 0 } with ⟨w, s⟩
      rw [hrun] at hhead
      simp only at hhead
      cases w with
      | panicked => exact hhead
      | returned r =>
        cases r with
        | some e => exact hhead
        | none =>
          have hne : s.trace ≠ [] := by
            intro h0
            rw [h0] at hhead
            simp at hhead
          simp only [List.head?_append_of_ne_nil _ hne, hhead]

theorem IndexResource.Update_decode_error (env : Env) (req : Request IndexResourceModel)
    (resp : Response IndexResourceModel)
    (h1 : HasError (Diagnostics.Append resp.Diagnostics req.diags) = true) :
    IndexResource.Update env req resp =
      { resp := { Diagnostics := Diagnostics.Append resp.Diagnostics req.diags, State := resp.State }
        trace := []
        panicked := false } := by
  simp only [IndexResource.Update, h1, ↓reduceIte]

theorem IndexResource.Update_rejected (env : Env) (req : Request IndexResourceModel)
    (resp : Response IndexResourceModel) (e : GoError)
    (h1 : HasError (Diagnostics.Append resp.Diagnostics req.diags) = false)
    (hc : env.ConfigureIndex = some e) :
    IndexResource.Update env req resp =
      { resp := { Diagnostics := AddError (Diagnostics.Append resp.Diagnostics req.diags)
                    "Failed to update index" e.Error
                  State := resp.State }
        trace := [Event.ConfigureIndex (IndexResource.configurePayload req.data)]
        panicked := false } := by
  simp only [IndexResource.Update, h1, hc, Bool.false_eq_true, ↓reduceIte]

theorem IndexResource.Update_describe_error (env : Env) (req : Request IndexResourceModel)
    (resp : Response IndexResourceModel) (e : GoError)
    (h1 : HasError (Diagnostics.Append resp.Diagnostics req.diags) = false)
    (hc : env.ConfigureIndex = none) (he : (env.DescribeIndex 0).err = some e) :
    IndexResource.Update env req resp =
      { resp := { Diagnostics := AddError (Diagnostics.Append resp.Diagnostics req.diags)
                    "Failed to describe index" e.Error
                  State := resp.State }
        trace := [Event.ConfigureIndex (IndexResource.configurePayload req.data),
                  Event.DescribeIndex req.data.Id.ValueString]
        panicked := false } := by
  simp only [IndexResource.Update, h1, hc, he, Bool.false_eq_true, ↓reduceIte]

theorem IndexResource.Update_nil_index (env : Env) (req : Request IndexResourceModel)
    (resp : Response IndexResourceModel)
    (h1 : HasError (Diagnostics.Append resp.Diagnostics req.diags) = false)
    (hc : env.ConfigureIndex = none) (he : (env.DescribeIndex 0).err = none)
    (hi : (env.DescribeIndex 0).index = none) :
    IndexResource.Update env req resp =
      { resp := { Diagnostics := Diagnostics.Append resp.Diagnostics req.diags, State := resp.State }
        trace := [Event.ConfigureIndex (IndexResource.configurePayload req.data),
                  Event.DescribeIndex req.data.Id.ValueString]
        panicked := true } := by
  simp only [IndexResource.Update, h1, hc, he, hi, Bool.false_eq_true, ↓reduceIte]

theorem IndexResource.Update_observed (env : Env) (req : Request IndexResourceModel)
    (resp : Response IndexResourceModel) (index : Index)
    (h1 : HasError (Diagnostics.Append resp.Diagnostics req.diags) = false)
    (hc : env.ConfigureIndex = none) (he : (env.DescribeIndex 0).err = none)
    (hi : (env.DescribeIndex 0).index = some index) :
    IndexResource.Update env req resp =
      { resp := { Diagnostics := Diagnostics.Append resp.Diagnostics req.diags
                  State := some (readIndexData index req.data) }
        trace := [Event.ConfigureIndex (IndexResource.configurePayload req.data),
                  Event.DescribeIndex req.data.Id.ValueString,
                  Event.StateSetIndex (readIndexData index req.data)]
        panicked := false } := by
  simp only [IndexResource.Update, h1, hc, he, hi, Bool.false_eq_true, ↓reduceIte,
    List.cons_append, List.nil_append]
  rfl

theorem IndexResource.Update_trace_head (env : Env) (req : Request IndexResourceModel)
    (resp : Response IndexResourceModel)
    (h1 : HasError (Diagnostics.Append resp.Diagnostics req.diags) = false) :
    (IndexResource.Update env req resp).trace.head?
      = some (Event.ConfigureIndex (IndexResource.configurePayload req.data)) := by
  cases hc : env.ConfigureIndex with
  | some e => rw [IndexResource.Update_rejected env req resp e h1 hc]; rfl
  | none =>
    cases he : (env.DescribeIndex 0).err with
    | some e => rw [IndexResource.Update_describe_error env req resp e h1 hc he]; rfl
    | none =>
      cases hi : (env.DescribeIndex 0).index with
      | none => rw [IndexResource.Update_nil_index env req resp h1 hc he hi]; rfl
      | some index => rw [IndexResource.Update_observed env req resp index h1 hc he hi]; rfl

/-- C6, the claim refuted. The plan of the index resource has no `pod` or
`serverless` variant for a handler to count, and `IndexSpecModel` holds all
four combinations of its two pointers. With no placement attribute set in the
plan, `Create` still issues `CreateIndex` and the three probes of the scenario
and succeeds, and `Update` still issues `ConfigureIndex` and its probe and
succeeds: no validation error, four and two remote calls. -/
theorem IndexResource.no_placement_validation :
    ((⟨none, none⟩ : IndexSpecModel).Pod.isSome
        = (⟨none, none⟩ : IndexSpecModel).Serverless.isSome) ∧
    ((⟨some examplePodSpec, some exampleServerlessSpec⟩ : IndexSpecModel).Pod.isSome
        = (⟨some examplePodSpec, some exampleServerlessSpec⟩ : IndexSpecModel).Serverless.isSome) ∧
    (IndexResource.Create scenarioEnv ⟨barePlan, []⟩ (emptyResponse _)).succeeded = true ∧
    (IndexResource.Create scenarioEnv ⟨barePlan, []⟩ (emptyResponse _)).trace.head?
      = some (Event.CreateIndex
          { Name := "widget", Dimension := 512, Metric := "cosine", Pods := 0, Replicas := 0,
            PodType := "", MetadataConfig := none, SourceCollection := none }) ∧
    (IndexResource.Create scenarioEnv ⟨barePlan, []⟩ (emptyResponse _)).trace.countP
      Event.isRemoteCall = 4 ∧
    (IndexResource.Update scenarioEnv ⟨barePlan, []⟩ ⟨[], some widgetState⟩).succeeded = true ∧
    (IndexResource.Update scenarioEnv ⟨barePlan, []⟩ ⟨[], some widgetState⟩).trace.head?
      = some (Event.ConfigureIndex { Name := "widget", Replicas := 0, PodType := "" }) ∧
    (IndexResource.Update scenarioEnv ⟨barePlan, []⟩ ⟨[], some widgetState⟩).trace.countP
      Event.isRemoteCall = 2 := by
  refine ⟨rfl, rfl, by decide, by decide, by decide, by decide, by decide, by decide⟩

/-- C6 as amended. `IndexResource.Create` and `IndexResource.Update` make no
remote call when decoding the plan raised an error, and that is the only check
before the first call: whenever the plan decodes without error, the first
event of `Create` is the `CreateIndex` call and the first event of `Update` is
the `ConfigureIndex` call, built from whatever the plan holds. -/
theorem IndexResource.first_call_unless_decode_error (env : Env)
    (req : Request IndexResourceModel) (resp : Response IndexResourceModel) :
    (HasError (Diagnostics.Append resp.Diagnostics req.diags) = true →
      (IndexResource.Create env req resp).trace = [] ∧
      (IndexResource.Update env req resp).trace = [] ∧
      (IndexResource.Create env req resp).resp.Diagnostics = Diagnostics.Append resp.Diagnostics req.diags ∧
      (IndexResource.Update env req resp).resp.Diagnostics = Diagnostics.Append resp.Diagnostics req.diags) ∧
    (HasError (Diagnostics.Append resp.Diagnostics req.diags) = false →
      (IndexResource.Create env req resp).trace.head?
        = some (Event.CreateIndex (IndexResource.createPayload req.data)) ∧
      (IndexResource.Update env req resp).trace.head?
        = some (Event.ConfigureIndex (IndexResource.configurePayload req.data))) := by
  constructor
  · intro h
    rw [IndexResource.Create_decode_error env req resp h,
      IndexResource.Update_decode_error env req resp h]
    exact ⟨rfl, rfl, rfl, rfl⟩
  · intro h
    exact ⟨IndexResource.Create_trace_head env req resp h,
      IndexResource.Update_trace_head env req resp h⟩

/-- C6 as amended, at the plan without placement attributes. -/
theorem IndexResource.first_call_unless_decode_error_witness :
    (IndexResource.Create scenarioEnv ⟨barePlan, []⟩ (emptyResponse _)).trace.head?
      = some (Event.CreateIndex (IndexResource.createPayload barePlan)) ∧
    (IndexResource.Update scenarioEnv ⟨barePlan, []⟩ (emptyResponse _)).trace.head?
      = some (Event.ConfigureIndex (IndexResource.configurePayload barePlan)) :=
  (IndexResource.first_call_unless_decode_error scenarioEnv ⟨barePlan, []⟩
    (emptyResponse _)).2 (by decide)

end Pinecone

namespace Pinecone

/-! ## The delete timeout -/

/-- C7, the code at the failing input. With a create timeout of one second and
a delete timeout of ten minutes configured, the budget `Delete` computes for
its wait is the create timeout, one second, and not what `Timeouts.Delete`
yields; with the create timeout unset it is the five-minute default, still not
the configured ten minutes. On a control plane where the index is gone at the
third probe, `Delete` gives up after the one probe that fits into one second,
while its wait run with the configured ten minutes returns nil. -/
theorem IndexResource.delete_waits_for_create_timeout :
    (IndexResource.deleteTimeout timedState).1 = 1 * Second ∧
    (timedState.Timeouts.Delete defaultIndexDeleteTimeout).1 = 10 * Minute ∧
    (IndexResource.deleteTimeout timedState).1
      ≠ (timedState.Timeouts.Delete defaultIndexDeleteTimeout).1 ∧
    (IndexResource.deleteTimeout
      { timedState with Timeouts := { create := .unset, delete := .parsed (10 * Minute) } }).1
      = 5 * Minute ∧
    (IndexResource.Delete slowEnv ⟨timedState, []⟩ ⟨[], some timedState⟩).succeeded = false ∧
    (IndexResource.Delete slowEnv ⟨timedState, []⟩ ⟨[], some timedState⟩).trace
      = [Event.DeleteIndex "widget", Event.DescribeIndex "widget"] ∧
    (IndexResource.Delete slowEnv ⟨timedState, []⟩ ⟨[], some timedState⟩).resp.Diagnostics
      = [⟨Severity.error, "Failed to wait for index to be deleted.",
          "index not deleted. State: Terminating"⟩] ∧
    (IndexResource.deleteWait slowEnv (10 * Minute)
      { data := timedState
        resp := ⟨[], some timedState⟩
        trace := [Event.DeleteIndex "widget"]
        probes := 0 }).1 = WaitResult.returned none := by
  refine ⟨by decide, by decide, by decide, by decide, by decide, by decide, by decide, by decide⟩

end Pinecone

namespace Pinecone

/-! ## Update -/

/-- C8. Once the plan is decoded, `IndexResource.Update` starts with one
`ConfigureIndex` call whose payload is the plan's name, replica count and pod
type. If that call fails the trace ends there: no probe, no state write, and
the error `Failed to update index`. If it is accepted, exactly one
`DescribeIndex` call follows and no other remote call; when that probe returns
an index without error, ready or not, the observation is persisted: the model
written to the state has id, name, dimension, metric, pods, replicas, pod type
and metadata configuration as the probe reported them, with the source
collection and the timeouts of the plan, and `Update` returns without error. -/
theorem IndexResource.update_configures_then_reads_once (env : Env)
    (req : Request IndexResourceModel) (resp : Response IndexResourceModel)
    (h1 : HasError (Diagnostics.Append resp.Diagnostics req.diags) = false) :
    (IndexResource.Update env req resp).trace.head?
      = some (Event.ConfigureIndex
          { Name := req.data.Name.ValueString
            Replicas := req.data.Replicas.ValueInt64
            PodType := req.data.PodType.ValueString }) ∧
    (∀ e, env.ConfigureIndex = some e →
      (IndexResource.Update env req resp).trace
        = [Event.ConfigureIndex (IndexResource.configurePayload req.data)] ∧
      (IndexResource.Update env req resp).resp.State = resp.State ∧
      (IndexResource.Update env req resp).resp.Diagnostics
        = AddError (Diagnostics.Append resp.Diagnostics req.diags) "Failed to update index" e.Error) ∧
    (env.ConfigureIndex = none →
      ∃ rest, (IndexResource.Update env req resp).trace
          = [Event.ConfigureIndex (IndexResource.configurePayload req.data),
             Event.DescribeIndex req.data.Id.ValueString] ++ rest ∧
        rest.countP Event.isRemoteCall = 0) ∧
    (env.ConfigureIndex = none → ∀ index, env.DescribeIndex 0 = ⟨some index, none⟩ →
      (IndexResource.Update env req resp).trace
        = [Event.ConfigureIndex (IndexResource.configurePayload req.data),
           Event.DescribeIndex req.data.Id.ValueString,
           Event.StateSetIndex (readIndexData index req.data)] ∧
      (IndexResource.Update env req resp).resp.State = some (readIndexData index req.data) ∧
      (IndexResource.Update env req resp).resp.State = some
        { Id := .known index.Database.Name
          Name := .known index.Database.Name
          Dimension := .known index.Database.Dimension
          Metric := .known index.Database.Metric
          Pods := .known index.Database.Pods
          Replicas := .known index.Database.Replicas
          PodType := .known index.Database.PodType
          MetadataConfig :=
            match index.Database.MetadataConfig with
            | none => .null
            | some fields => .known fields
          SourceCollection := req.data.SourceCollection
          Timeouts := req.data.Timeouts } ∧
      (IndexResource.Update env req resp).succeeded = true) := by
  refine ⟨IndexResource.Update_trace_head env req resp h1, ?_, ?_, ?_⟩
  · intro e he
    rw [IndexResource.Update_rejected env req resp e h1 he]
    exact ⟨rfl, rfl, rfl⟩
  · intro hc
    cases he : (env.DescribeIndex 0).err with
    | some e =>
      rw [IndexResource.Update_describe_error env req resp e h1 hc he]
      exact ⟨[], by simp, rfl⟩
    | none =>
      cases hi : (env.DescribeIndex 0).index with
      | none =>
        rw [IndexResource.Update_nil_index env req resp h1 hc he hi]
        exact ⟨[], by simp, rfl⟩
      | some index =>
        rw [IndexResource.Update_observed env req resp index h1 hc he hi]
        exact ⟨[Event.StateSetIndex (readIndexData index req.data)], by simp,
          by simp [Event.isRemoteCall]⟩
  · intro hc index hprobe
    have he : (env.DescribeIndex 0).err = none := by rw [hprobe]
    have hi : (env.DescribeIndex 0).index = some index := by rw [hprobe]
    rw [IndexResource.Update_observed env req resp index h1 hc he hi]
    refine ⟨rfl, rfl, rfl, ?_⟩
    simp only [Outcome.succeeded, h1]
    rfl

/-- C8, at a plan that scales `widget` to two `p1.x2` replicas against a
control plane that still reports one `s1.x1` replica and `Initializing`: one
configure call, one probe, one write of what the probe reported, no retry. -/
theorem IndexResource.update_configures_then_reads_once_witness :
    (IndexResource.Update scenarioEnv ⟨scaledPlan, []⟩ ⟨[], some widgetState⟩).trace
      = [Event.ConfigureIndex { Name := "widget", Replicas := 2, PodType := "p1.x2" },
         Event.DescribeIndex "widget",
         Event.StateSetIndex (readIndexData (widgetIndex false "Initializing") scaledPlan)] ∧
    (IndexResource.Update scenarioEnv ⟨scaledPlan, []⟩ ⟨[], some widgetState⟩).resp.State
      = some (readIndexData (widgetIndex false "Initializing") scaledPlan) ∧
    (IndexResource.Update scenarioEnv ⟨scaledPlan, []⟩ ⟨[], some widgetState⟩).resp.State
      = some
        { Id := .known "widget"
          Name := .known "widget"
          Dimension := .known 512
          Metric := .known "cosine"
          Pods := .known 1
          Replicas := .known 1
          PodType := .known "s1.x1"
          MetadataConfig := .null
          SourceCollection := .null
          Timeouts := { create := .unset, delete := .unset } } ∧
    (IndexResource.Update scenarioEnv ⟨scaledPlan, []⟩ ⟨[], some widgetState⟩).succeeded = true :=
  (IndexResource.update_configures_then_reads_once scenarioEnv ⟨scaledPlan, []⟩
    ⟨[], some widgetState⟩ (by decide)).2.2.2 rfl (widgetIndex false "Initializing") (by decide)

/-- C9. `CollectionResource.Update` does nothing: it makes no remote call and
no state write, and hands back the response, diagnostics and state, as it
received it. -/
theorem CollectionResource.update_is_noop (env : Env) (req : Request CollectionResourceModel)
    (resp : Response CollectionResourceModel) :
    (CollectionResource.Update env req resp).trace = [] ∧
    (CollectionResource.Update env req resp).resp = resp ∧
    (CollectionResource.Update env req resp).resp.Diagnostics = resp.Diagnostics ∧
    (CollectionResource.Update env req resp).resp.State = resp.State ∧
    (CollectionResource.Update env req resp).panicked = false :=
  ⟨rfl, rfl, rfl, rfl, rfl⟩

end Pinecone

namespace Pinecone

/-! ## Collection readiness -/

theorem CollectionResource.coll_createProbe_decision (env : Env) (s : Loop CollectionResourceModel) :
    (CollectionResource.createProbe env s).1
      = CollectionResource.createDecision (env.DescribeCollection s.probes) := by
  unfold CollectionResource.createProbe CollectionResource.createDecision
  rcases env.DescribeCollection s.probes with ⟨collection, err⟩
  cases collection with
  | none => rfl
  | some collection =>
    cases err with
    | some e => rfl
    | none => by_cases h : collection.Status = "Ready" <;> simp [h]

theorem CollectionResource.coll_createProbe_probes (env : Env) (s : Loop CollectionResourceModel) :
    (CollectionResource.createProbe env s).2.probes = s.probes + 1 := by
  unfold CollectionResource.createProbe
  rcases env.DescribeCollection s.probes with ⟨collection, err⟩
  cases collection with
  | none => rfl
  | some collection =>
    cases err with
    | some e => rfl
    | none => by_cases h : collection.Status = "Ready" <;> simp [h]

theorem CollectionResource.coll_createProbe_diagnostics (env : Env)
    (s : Loop CollectionResourceModel) :
    (CollectionResource.createProbe env s).2.resp.Diagnostics = s.resp.Diagnostics := by
  unfold CollectionResource.createProbe
  rcases env.DescribeCollection s.probes with ⟨collection, err⟩
  cases collection with
  | none => rfl
  | some collection =>
    cases err with
    | some e => rfl
    | none => by_cases h : collection.Status = "Ready" <;> simp [h]

theorem CollectionResource.coll_createDecision_done (r : DescribeCollectionResult) :
    CollectionResource.createDecision r = Attempt.returned none ↔
      ∃ c, r = ⟨some c, none⟩ ∧ c.Status = "Ready" := by
  rcases r with ⟨collection, err⟩
  cases collection with
  | none => simp [CollectionResource.createDecision]
  | some collection =>
    cases err with
    | some e => simp [CollectionResource.createDecision]
    | none =>
      by_cases h : collection.Status = "Ready" <;> simp [CollectionResource.createDecision, h]

theorem CollectionResource.createDecision_retry (r : DescribeCollectionResult) :
    (∃ e, CollectionResource.createDecision r
        = Attempt.returned (some (RetryError.Retryable e))) ↔
      ∃ c, r = ⟨some c, none⟩ ∧ c.Status ≠ "Ready" := by
  rcases r with ⟨collection, err⟩
  cases collection with
  | none => simp [CollectionResource.createDecision]
  | some collection =>
    cases err with
    | some e => simp [CollectionResource.createDecision]
    | none =>
      by_cases h : collection.Status = "Ready" <;> simp [CollectionResource.createDecision, h]

/-- Once the create call is accepted, `CollectionResource.Create` returns
without error exactly when its wait returns nil. -/
theorem CollectionResource.Create_succeeded_iff (env : Env)
    (req : Request CollectionResourceModel) (resp : Response CollectionResourceModel)
    (h1 : HasError (Diagnostics.Append resp.Diagnostics req.diags) = false)
    (hc : env.CreateCollection = none) :
    (CollectionResource.Create env req resp).succeeded = true ↔
      (RetryContext (CollectionResource.createProbe env) (env.attempts (1 * Hour)) none
        { data := req.data
          resp := { Diagnostics := Diagnostics.Append resp.Diagnostics req.diags, State := resp.State }
          trace := [Event.CreateCollection (CollectionResource.createPayload req.data)]
          probes := 0 }).1 = WaitResult.returned none := by
  rw [CollectionResource.coll_Create_waits env req resp h1 hc]
  unfold CollectionResource.createWait
  have hdiag := RetryContext_invariant (CollectionResource.createProbe env)
    (fun t => t.resp.Diagnostics = Diagnostics.Append resp.Diagnostics req.diags)
    (fun t ht => by
      show (CollectionResource.createProbe env t).2.resp.Diagnostics = _
      rw [CollectionResource.coll_createProbe_diagnostics]
      exact ht)
    (env.attempts (1 * Hour)) none
    { data := req.data
      resp := { Diagnostics := Diagnostics.Append resp.Diagnostics req.diags, State := resp.State }
      trace := [Event.CreateCollection (CollectionResource.createPayload req.data)]
      probes := 0 } rfl
  rcases hw : RetryContext (CollectionResource.createProbe env) (env.attempts (1 * Hour)) none
      { data := req.data
        resp := { Diagnostics := Diagnostics.Append resp.Diagnostics req.diags, State := resp.State }
        trace := [Event.CreateCollection (CollectionResource.createPayload req.data)]
        probes := 0 } with ⟨w, s⟩
  rw [hw] at hdiag
  simp only at hdiag
  cases w with
  | panicked => simp [Outcome.succeeded]
  | returned r =>
    cases r with
    | some e => simp [Outcome.succeeded, HasError_AddError]
    | none =>
      simp only [Outcome.succeeded, Response.StateSet_Diagnostics, hdiag, h1]
      simp

/-- C10. An attempt of the wait loop of `CollectionResource.Create` ends the
wait with success iff `DescribeCollection` returned a collection, no error, and
the status is the string `Ready`; a collection returned without error with any
other status, `ready` and `READY` included, is retried. So once the create call
is accepted, `Create` returns without error iff some probe within the one-hour
budget reports `Ready` and every earlier probe reported, without error,
another status. -/
theorem CollectionResource.create_ready_is_case_sensitive (env : Env)
    (req : Request CollectionResourceModel) (resp : Response CollectionResourceModel)
    (h1 : HasError (Diagnostics.Append resp.Diagnostics req.diags) = false)
    (hc : env.CreateCollection = none) :
    (∀ s : Loop CollectionResourceModel,
      ((CollectionResource.createProbe env s).1 = Attempt.returned none ↔
        ∃ c, env.DescribeCollection s.probes = ⟨some c, none⟩ ∧ c.Status = "Ready") ∧
      (∀ c, env.DescribeCollection s.probes = ⟨some c, none⟩ → c.Status ≠ "Ready" →
        (CollectionResource.createProbe env s).1
          = Attempt.returned (some (RetryError.Retryable
              (GoError.errorString ("collection not ready. State: " ++ c.Status))))) ∧
      (∀ c, env.DescribeCollection s.probes = ⟨some c, none⟩ →
        c.Status = "ready" ∨ c.Status = "READY" →
        (CollectionResource.createProbe env s).1
          = Attempt.returned (some (RetryError.Retryable
              (GoError.errorString ("collection not ready. State: " ++ c.Status)))))) ∧
    ((CollectionResource.Create env req resp).succeeded = true ↔
      ∃ i, i < env.attempts (1 * Hour) ∧
        (∃ c, env.DescribeCollection i = ⟨some c, none⟩ ∧ c.Status = "Ready") ∧
        ∀ j, j < i → ∃ c, env.DescribeCollection j = ⟨some c, none⟩ ∧ c.Status ≠ "Ready") := by
  have hretry : ∀ (s : Loop CollectionResourceModel) (c : Collection),
      env.DescribeCollection s.probes = ⟨some c, none⟩ → c.Status ≠ "Ready" →
      (CollectionResource.createProbe env s).1
        = Attempt.returned (some (RetryError.Retryable
            (GoError.errorString ("collection not ready. State: " ++ c.Status)))) := by
    intro s c hprobe hne
    rw [CollectionResource.coll_createProbe_decision, hprobe]
    simp [CollectionResource.createDecision, hne]
  refine ⟨fun s => ⟨?_, hretry s, ?_⟩, ?_⟩
  · rw [CollectionResource.coll_createProbe_decision]
    exact CollectionResource.coll_createDecision_done _
  · intro c hprobe hcase
    apply hretry s c hprobe
    rcases hcase with h | h <;> rw [h] <;> decide
  · rw [CollectionResource.Create_succeeded_iff env req resp h1 hc,
      RetryContext_success_iff (CollectionResource.createProbe env) Loop.probes
        (fun i => CollectionResource.createDecision (env.DescribeCollection i))
        (CollectionResource.coll_createProbe_decision env)
        (CollectionResource.coll_createProbe_probes env)]
    simp only [Nat.zero_add, CollectionResource.coll_createDecision_done,
      CollectionResource.createDecision_retry]

/-- C10, at a collection reported `ready`, then `READY`, then `Ready`: `Create`
succeeds, and it does so at the third probe. -/
theorem CollectionResource.create_ready_is_case_sensitive_witness :
    (CollectionResource.Create casingEnv ⟨snapPlan, []⟩ (emptyResponse _)).succeeded = true ∧
    (CollectionResource.Create casingEnv ⟨snapPlan, []⟩ (emptyResponse _)).trace.countP
      Event.isProbe = 3 ∧
    (CollectionResource.Create lowercaseEnv ⟨snapPlan, []⟩ (emptyResponse _)).succeeded
      = false :=
  ⟨(CollectionResource.create_ready_is_case_sensitive casingEnv ⟨snapPlan, []⟩
      (emptyResponse _) (by decide) rfl).2.2
      ⟨2, by decide, ⟨⟨"snap", 1024, "Ready"⟩, by decide, rfl⟩, by
        intro j hj
        have : j = 0 ∨ j = 1 := by omega
        rcases this with h | h <;> subst h
        · exact ⟨⟨"snap", 0, "ready"⟩, by decide, by decide⟩
        · exact ⟨⟨"snap", 0, "READY"⟩, by decide, by decide⟩⟩,
   by decide, by decide⟩

end Pinecone

namespace Pinecone

/-! ## Read -/

theorem IndexResource.Read_lookup_error (env : Env) (req : Request IndexResourceModel)
    (resp : Response IndexResourceModel) (e : GoError)
    (h1 : HasError (Diagnostics.Append resp.Diagnostics req.diags) = false)
    (he : (env.DescribeIndex 0).err = some e) :
    IndexResource.Read env req resp =
      { resp := { Diagnostics := AddError (Diagnostics.Append resp.Diagnostics req.diags)
                    "Failed to describe index" e.Error
                  State := resp.State }
        trace := [Event.DescribeIndex req.data.Id.ValueString]
        panicked := false } := by
  simp only [IndexResource.Read, h1, he, Bool.false_eq_true, ↓reduceIte]

theorem IndexResource.Read_trace (env : Env) (req : Request IndexResourceModel)
    (resp : Response IndexResourceModel)
    (h1 : HasError (Diagnostics.Append resp.Diagnostics req.diags) = false) :
    (IndexResource.Read env req resp).trace.countP Event.isRemoteCall = 1 ∧
      (IndexResource.Read env req resp).trace.head?
        = some (Event.DescribeIndex req.data.Id.ValueString) := by
  cases he : (env.DescribeIndex 0).err with
  | some e =>
    rw [IndexResource.Read_lookup_error env req resp e h1 he]
    exact ⟨by simp [Event.isRemoteCall], rfl⟩
  | none =>
    cases hi : (env.DescribeIndex 0).index with
    | none =>
      simp only [IndexResource.Read, h1, he, hi, Bool.false_eq_true, ↓reduceIte]
      exact ⟨by simp [Event.isRemoteCall], rfl⟩
    | some index =>
      simp only [IndexResource.Read, h1, he, hi, Bool.false_eq_true, ↓reduceIte]
      exact ⟨by simp [Event.isRemoteCall], rfl⟩

theorem CollectionResource.coll_Read_lookup_error (env : Env)
    (req : Request CollectionResourceModel) (resp : Response CollectionResourceModel)
    (e : GoError)
    (h1 : HasError (Diagnostics.Append resp.Diagnostics req.diags) = false)
    (he : (env.DescribeCollection 0).err = some e) :
    CollectionResource.Read env req resp =
      { resp := { Diagnostics := AddError (Diagnostics.Append resp.Diagnostics req.diags)
                    "Failed to describe collection" e.Error
                  State := resp.State }
        trace := [Event.DescribeCollection req.data.Id.ValueString]
        panicked := false } := by
  simp only [CollectionResource.Read, h1, he, Bool.false_eq_true, ↓reduceIte]

theorem CollectionResource.coll_Read_trace (env : Env)
    (req : Request CollectionResourceModel) (resp : Response CollectionResourceModel)
    (h1 : HasError (Diagnostics.Append resp.Diagnostics req.diags) = false) :
    (CollectionResource.Read env req resp).trace.countP Event.isRemoteCall = 1 ∧
      (CollectionResource.Read env req resp).trace.head?
        = some (Event.DescribeCollection req.data.Id.ValueString) := by
  cases he : (env.DescribeCollection 0).err with
  | some e =>
    rw [CollectionResource.coll_Read_lookup_error env req resp e h1 he]
    exact ⟨by simp [Event.isRemoteCall], rfl⟩
  | none =>
    cases hi : (env.DescribeCollection 0).collection with
    | none =>
      simp only [CollectionResource.Read, h1, he, hi, Bool.false_eq_true, ↓reduceIte]
      exact ⟨by simp [Event.isRemoteCall], rfl⟩
    | some collection =>
      simp only [CollectionResource.Read, h1, he, hi, Bool.false_eq_true, ↓reduceIte]
      exact ⟨by simp [Event.isRemoteCall], rfl⟩

/-- C11, the claim refuted: a lookup that fails with a 404 and one that fails
with a 500 are reported by `Read` under the same summary, for the index and for
the collection. -/
theorem read_reports_not_found_like_any_error :
    isNotFound (emptyEnv.DescribeIndex 0).err = true ∧
    isNotFound (serverErrorEnv.DescribeIndex 0).err = false ∧
    (IndexResource.Read emptyEnv ⟨widgetState, []⟩ ⟨[], some widgetState⟩).resp.Diagnostics.map
      Diagnostic.summary = ["Failed to describe index"] ∧
    (IndexResource.Read serverErrorEnv ⟨widgetState, []⟩
      ⟨[], some widgetState⟩).resp.Diagnostics.map Diagnostic.summary
      = ["Failed to describe index"] ∧
    isNotFound (emptyEnv.DescribeCollection 0).err = true ∧
    isNotFound (serverErrorEnv.DescribeCollection 0).err = false ∧
    (CollectionResource.Read emptyEnv ⟨snapState, []⟩
      ⟨[], some snapState⟩).resp.Diagnostics.map Diagnostic.summary
      = ["Failed to describe collection"] ∧
    (CollectionResource.Read serverErrorEnv ⟨snapState, []⟩
      ⟨[], some snapState⟩).resp.Diagnostics.map Diagnostic.summary
      = ["Failed to describe collection"] := by
  refine ⟨by decide, by decide, by decide, by decide, by decide, by decide, by decide,
    by decide⟩

/-- C11 as amended. Once the prior state is decoded, `IndexResource.Read` and
`CollectionResource.Read` make exactly one remote call, the describe call, and
report every error of that call, a 404 like any other, under one and the same
summary, with the message of the error as detail; the state is left as it was
and nothing is written. -/
theorem read_single_lookup_uniform_error (env : Env)
    (reqI : Request IndexResourceModel) (respI : Response IndexResourceModel)
    (reqC : Request CollectionResourceModel) (respC : Response CollectionResourceModel)
    (h1 : HasError (Diagnostics.Append respI.Diagnostics reqI.diags) = false)
    (h2 : HasError (Diagnostics.Append respC.Diagnostics reqC.diags) = false) :
    ((IndexResource.Read env reqI respI).trace.countP Event.isRemoteCall = 1 ∧
      (IndexResource.Read env reqI respI).trace.head?
        = some (Event.DescribeIndex reqI.data.Id.ValueString) ∧
      ∀ e, (env.DescribeIndex 0).err = some e →
        (IndexResource.Read env reqI respI).resp.Diagnostics
          = AddError (Diagnostics.Append respI.Diagnostics reqI.diags)
              "Failed to describe index" e.Error ∧
        (IndexResource.Read env reqI respI).resp.State = respI.State ∧
        (IndexResource.Read env reqI respI).trace
          = [Event.DescribeIndex reqI.data.Id.ValueString]) ∧
    ((CollectionResource.Read env reqC respC).trace.countP Event.isRemoteCall = 1 ∧
      (CollectionResource.Read env reqC respC).trace.head?
        = some (Event.DescribeCollection reqC.data.Id.ValueString) ∧
      ∀ e, (env.DescribeCollection 0).err = some e →
        (CollectionResource.Read env reqC respC).resp.Diagnostics
          = AddError (Diagnostics.Append respC.Diagnostics reqC.diags)
              "Failed to describe collection" e.Error ∧
        (CollectionResource.Read env reqC respC).resp.State = respC.State ∧
        (CollectionResource.Read env reqC respC).trace
          = [Event.DescribeCollection reqC.data.Id.ValueString]) := by
  refine ⟨⟨(IndexResource.Read_trace env reqI respI h1).1,
      (IndexResource.Read_trace env reqI respI h1).2, ?_⟩,
    ⟨(CollectionResource.coll_Read_trace env reqC respC h2).1,
      (CollectionResource.coll_Read_trace env reqC respC h2).2, ?_⟩⟩
  · intro e he
    rw [IndexResource.Read_lookup_error env reqI respI e h1 he]
    exact ⟨rfl, rfl, rfl⟩
  · intro e he
    rw [CollectionResource.coll_Read_lookup_error env reqC respC e h2 he]
    exact ⟨rfl, rfl, rfl⟩

/-- C11 as amended, at a lookup that fails with a 404. -/
theorem read_single_lookup_uniform_error_witness :
    (IndexResource.Read emptyEnv ⟨widgetState, []⟩ ⟨[], some widgetState⟩).trace.countP
      Event.isRemoteCall = 1 ∧
    (CollectionResource.Read emptyEnv ⟨snapState, []⟩ ⟨[], some snapState⟩).trace.countP
      Event.isRemoteCall = 1 ∧
    (IndexResource.Read emptyEnv ⟨widgetState, []⟩ ⟨[], some widgetState⟩).resp.Diagnostics
      = AddError (Diagnostics.Append [] []) "Failed to describe index" "not found" :=
  ⟨(read_single_lookup_uniform_error emptyEnv ⟨widgetState, []⟩ ⟨[], some widgetState⟩
      ⟨snapState, []⟩ ⟨[], some snapState⟩ (by decide) (by decide)).1.1,
   (read_single_lookup_uniform_error emptyEnv ⟨widgetState, []⟩ ⟨[], some widgetState⟩
      ⟨snapState, []⟩ ⟨[], some snapState⟩ (by decide) (by decide)).2.1,
   ((read_single_lookup_uniform_error emptyEnv ⟨widgetState, []⟩ ⟨[], some widgetState⟩
      ⟨snapState, []⟩ ⟨[], some snapState⟩ (by decide) (by decide)).1.2.2
      (.HTTPError 404 "not found") rfl).1⟩

end Pinecone

namespace Pinecone

/-! ## The dimension validator -/

/-- C12, the claim refuted: the dimensions 1 and 511 are positive and the
schema rejects them. -/
theorem IndexResource.dimension_one_rejected :
    (1 : Int) ≥ 1 ∧ IndexResource.dimensionAccepted (.known 1) = false ∧
    (511 : Int) ≥ 1 ∧ IndexResource.dimensionAccepted (.known 511) = false := by
  refine ⟨by decide, by decide, by decide, by decide⟩

/-- C12 as amended. The schema accepts a dimension exactly when it is at least
512; so every dimension that is zero or negative is rejected, and so is every
dimension from 1 to 511. -/
theorem IndexResource.dimension_accepted_iff (d : Int) :
    (IndexResource.dimensionAccepted (.known d) = true ↔ 512 ≤ d) ∧
    (d ≤ 0 → IndexResource.dimensionAccepted (.known d) = false) ∧
    (1 ≤ d → d ≤ 511 → IndexResource.dimensionAccepted (.known d) = false) := by
  have hiff : IndexResource.dimensionAccepted (.known d) = true ↔ 512 ≤ d := by
    simp [IndexResource.dimensionAccepted, IndexResource.dimensionValidators,
      int64validator.AtLeast]
  refine ⟨hiff, ?_, ?_⟩
  · intro h
    cases hacc : IndexResource.dimensionAccepted (.known d) with
    | false => rfl
    | true => have := hiff.1 hacc; omega
  · intro _ h
    cases hacc : IndexResource.dimensionAccepted (.known d) with
    | false => rfl
    | true => have := hiff.1 hacc; omega

end Pinecone

namespace Pinecone

/-! ## A failing first probe after an accepted create call -/

/-- `CollectionResource.Create` when the first probe hands back a collection
together with an error: the model read from that collection is written to the
state before the error is looked at. -/
theorem CollectionResource.coll_Create_first_probe_error (env : Env)
    (req : Request CollectionResourceModel) (resp : Response CollectionResourceModel)
    (c : Collection) (e : GoError)
    (h1 : HasError (Diagnostics.Append resp.Diagnostics req.diags) = false)
    (hc : env.CreateCollection = none)
    (hn : 0 < env.attempts (1 * Hour))
    (hprobe : env.DescribeCollection 0 = ⟨some c, some e⟩) :
    CollectionResource.Create env req resp =
      { resp := { Diagnostics := AddError (Diagnostics.Append resp.Diagnostics req.diags)
                    "Failed to wait for collection to become ready." e.Error
                  State := some (readCollectionData c req.data) }
        trace := [Event.CreateCollection (CollectionResource.createPayload req.data),
                  Event.DescribeCollection req.data.Name.ValueString,
                  Event.StateSetCollection (readCollectionData c req.data)]
        panicked := false } := by
  rw [CollectionResource.coll_Create_waits env req resp h1 hc]
  unfold CollectionResource.createWait
  obtain ⟨m, hm⟩ : ∃ m, env.attempts (1 * Hour) = m + 1 :=
    ⟨env.attempts (1 * Hour) - 1, by omega⟩
  rw [hm]
  simp [RetryContext, CollectionResource.createProbe, hprobe, Response.StateSet]

/-- `CollectionResource.Create` when the first probe hands back a nil
collection: `readCollectionData` dereferences it. -/
theorem CollectionResource.coll_Create_first_probe_nil (env : Env)
    (req : Request CollectionResourceModel) (resp : Response CollectionResourceModel)
    (err : Option GoError)
    (h1 : HasError (Diagnostics.Append resp.Diagnostics req.diags) = false)
    (hc : env.CreateCollection = none)
    (hn : 0 < env.attempts (1 * Hour))
    (hprobe : env.DescribeCollection 0 = ⟨none, err⟩) :
    CollectionResource.Create env req resp =
      { resp := { Diagnostics := Diagnostics.Append resp.Diagnostics req.diags
                  State := resp.State }
        trace := [Event.CreateCollection (CollectionResource.createPayload req.data),
                  Event.DescribeCollection req.data.Name.ValueString]
        panicked := true } := by
  rw [CollectionResource.coll_Create_waits env req resp h1 hc]
  unfold CollectionResource.createWait
  obtain ⟨m, hm⟩ : ∃ m, env.attempts (1 * Hour) = m + 1 :=
    ⟨env.attempts (1 * Hour) - 1, by omega⟩
  rw [hm]
  simp [RetryContext, CollectionResource.createProbe, hprobe]

/-- `IndexResource.Create` when the first probe hands back an index together
with an error. -/
theorem IndexResource.Create_first_probe_error (env : Env)
    (req : Request IndexResourceModel) (resp : Response IndexResourceModel)
    (index : Index) (e : GoError)
    (h1 : HasError (Diagnostics.Append resp.Diagnostics req.diags) = false)
    (hc : env.CreateIndex = none)
    (h2 : HasError (Diagnostics.Append (Diagnostics.Append resp.Diagnostics req.diags)
      (req.data.Timeouts.Create defaultIndexCreateTimeout).2) = false)
    (hn : 0 < env.attempts (req.data.Timeouts.Create defaultIndexCreateTimeout).1)
    (hprobe : env.DescribeIndex 0 = ⟨some index, some e⟩) :
    IndexResource.Create env req resp =
      { resp := { Diagnostics := AddError
                    (Diagnostics.Append (Diagnostics.Append resp.Diagnostics req.diags)
                      (req.data.Timeouts.Create defaultIndexCreateTimeout).2)
                    "Failed to wait for index to become ready." e.Error
                  State := some (readIndexData index req.data) }
        trace := [Event.CreateIndex (IndexResource.createPayload req.data),
                  Event.DescribeIndex req.data.Name.ValueString,
                  Event.StateSetIndex (readIndexData index req.data)]
        panicked := false } := by
  rw [IndexResource.Create_waits env req resp h1 hc h2]
  unfold IndexResource.createWait
  obtain ⟨m, hm⟩ : ∃ m, env.attempts (req.data.Timeouts.Create defaultIndexCreateTimeout).1
      = m + 1 :=
    ⟨env.attempts (req.data.Timeouts.Create defaultIndexCreateTimeout).1 - 1, by omega⟩
  rw [hm]
  simp [RetryContext, IndexResource.createProbe, hprobe, Response.StateSet]

/-- `IndexResource.Create` when the first probe hands back a nil index. -/
theorem IndexResource.Create_first_probe_nil (env : Env)
    (req : Request IndexResourceModel) (resp : Response IndexResourceModel)
    (err : Option GoError)
    (h1 : HasError (Diagnostics.Append resp.Diagnostics req.diags) = false)
    (hc : env.CreateIndex = none)
    (h2 : HasError (Diagnostics.Append (Diagnostics.Append resp.Diagnostics req.diags)
      (req.data.Timeouts.Create defaultIndexCreateTimeout).2) = false)
    (hn : 0 < env.attempts (req.data.Timeouts.Create defaultIndexCreateTimeout).1)
    (hprobe : env.DescribeIndex 0 = ⟨none, err⟩) :
    IndexResource.Create env req resp =
      { resp := { Diagnostics :=
                    Diagnostics.Append (Diagnostics.Append resp.Diagnostics req.diags)
                      (req.data.Timeouts.Create defaultIndexCreateTimeout).2
                  State := resp.State }
        trace := [Event.CreateIndex (IndexResource.createPayload req.data),
                  Event.DescribeIndex req.data.Name.ValueString]
        panicked := true } := by
  rw [IndexResource.Create_waits env req resp h1 hc h2]
  unfold IndexResource.createWait
  obtain ⟨m, hm⟩ : ∃ m, env.attempts (req.data.Timeouts.Create defaultIndexCreateTimeout).1
      = m + 1 :=
    ⟨env.attempts (req.data.Timeouts.Create defaultIndexCreateTimeout).1 - 1, by omega⟩
  rw [hm]
  simp [RetryContext, IndexResource.createProbe, hprobe]

/-- C13, the code at the failing input. The create call is accepted and the
first probe fails with a server error. When the probe hands back a zero-valued
collection next to the error, `CollectionResource.Create` writes a state with
size 0 and the empty status before it reports the failure, and
`IndexResource.Create` likewise writes the zero-valued index; when the probe
hands back a nil pointer, both panic in the checkpoint step. In general, for
every erroring first probe `Create` either panics or has written the model read
from whatever the probe handed back, size and status known. -/
theorem create_persists_failed_observation :
    (CollectionResource.Create serverErrorEnv ⟨snapPlan, []⟩ (emptyResponse _)).resp.State
      = some { Id := .known "", Name := .known "", Source := .known "widget",
               Size := .known 0, Status := .known "" } ∧
    (CollectionResource.Create serverErrorEnv ⟨snapPlan, []⟩ (emptyResponse _)).trace.countP
      Event.isStateSet = 1 ∧
    (CollectionResource.Create serverErrorEnv ⟨snapPlan, []⟩ (emptyResponse _)).resp.Diagnostics
      = [⟨Severity.error, "Failed to wait for collection to become ready.",
          "internal error"⟩] ∧
    (CollectionResource.Create nilErrorEnv ⟨snapPlan, []⟩ (emptyResponse _)).panicked = true ∧
    (IndexResource.Create serverErrorEnv ⟨widgetPlan, []⟩ (emptyResponse _)).resp.State
      = some (readIndexData zeroIndex widgetPlan) ∧
    (readIndexData zeroIndex widgetPlan).Dimension = .known 0 ∧
    (IndexResource.Create nilErrorEnv ⟨widgetPlan, []⟩ (emptyResponse _)).panicked = true ∧
    (∀ (env : Env) (req : Request CollectionResourceModel)
        (resp : Response CollectionResourceModel) (e : GoError),
      HasError (Diagnostics.Append resp.Diagnostics req.diags) = false →
      env.CreateCollection = none → 0 < env.attempts (1 * Hour) →
      (env.DescribeCollection 0).err = some e →
      (CollectionResource.Create env req resp).panicked = true ∨
      ∃ c, (env.DescribeCollection 0).collection = some c ∧
        (CollectionResource.Create env req resp).resp.State
          = some (readCollectionData c req.data) ∧
        (readCollectionData c req.data).Size = .known c.Size ∧
        (readCollectionData c req.data).Status = .known c.Status) := by
  refine ⟨by decide, by decide, by decide, by decide, by decide, by decide, by decide, ?_⟩
  intro env req resp e h1 hc hn herr
  rcases hprobe : env.DescribeCollection 0 with ⟨collection, err⟩
  rw [hprobe] at herr
  simp only at herr
  subst herr
  cases collection with
  | none =>
    left
    rw [CollectionResource.coll_Create_first_probe_nil env req resp _ h1 hc hn hprobe]
  | some c =>
    right
    refine ⟨c, rfl, ?_, rfl, rfl⟩
    rw [CollectionResource.coll_Create_first_probe_error env req resp c e h1 hc hn hprobe]

end Pinecone

namespace Pinecone

/-- C2, the code at the failing input. The create call is accepted and the
first probe fails with a server error, handing back a nil index. The closure
of `IndexResource.Create` calls `readIndexData` on the index before it looks at
the error, so `Create` panics at that probe: one probe was made and no state
write follows it. In general, whenever the first probe hands back a nil index,
`Create` ends with one probe, no state write and a panic. Where every probe
hands back an index the loop does checkpoint each of them: at the scenario
`Initializing`, `Initializing`, `Ready` the trace is the create call, three
probes each followed by the write of the model as observed, and the final
save. -/
theorem IndexResource.create_probe_without_checkpoint :
    (IndexResource.Create nilErrorEnv ⟨widgetPlan, []⟩ (emptyResponse _)).trace
      = [Event.CreateIndex (IndexResource.createPayload widgetPlan),
         Event.DescribeIndex "widget"] ∧
    (IndexResource.Create nilErrorEnv ⟨widgetPlan, []⟩ (emptyResponse _)).trace.countP
      Event.isProbe = 1 ∧
    (IndexResource.Create nilErrorEnv ⟨widgetPlan, []⟩ (emptyResponse _)).trace.countP
      Event.isStateSet = 0 ∧
    (IndexResource.Create nilErrorEnv ⟨widgetPlan, []⟩ (emptyResponse _)).resp.State = none ∧
    (IndexResource.Create nilErrorEnv ⟨widgetPlan, []⟩ (emptyResponse _)).panicked = true ∧
    (IndexResource.Create nilErrorEnv ⟨widgetPlan, []⟩ (emptyResponse _)).succeeded = false ∧
    (IndexResource.Create scenarioEnv ⟨widgetPlan, []⟩ (emptyResponse _)).trace
      = [Event.CreateIndex
           { Name := "widget", Dimension := 512, Metric := "cosine", Pods := 1, Replicas := 1,
             PodType := "s1.x1", MetadataConfig := none, SourceCollection := none },
         Event.DescribeIndex "widget", Event.StateSetIndex widgetRecord,
         Event.DescribeIndex "widget", Event.StateSetIndex widgetRecord,
         Event.DescribeIndex "widget", Event.StateSetIndex widgetRecord,
         Event.StateSetIndex widgetRecord] ∧
    (IndexResource.Create scenarioEnv ⟨widgetPlan, []⟩ (emptyResponse _)).resp.State
      = some widgetRecord ∧
    (∀ (env : Env) (req : Request IndexResourceModel) (resp : Response IndexResourceModel)
        (err : Option GoError),
      HasError (Diagnostics.Append resp.Diagnostics req.diags) = false →
      env.CreateIndex = none →
      HasError (Diagnostics.Append (Diagnostics.Append resp.Diagnostics req.diags)
        (req.data.Timeouts.Create defaultIndexCreateTimeout).2) = false →
      0 < env.attempts (req.data.Timeouts.Create defaultIndexCreateTimeout).1 →
      env.DescribeIndex 0 = ⟨none, err⟩ →
      (IndexResource.Create env req resp).trace.countP Event.isProbe = 1 ∧
      (IndexResource.Create env req resp).trace.countP Event.isStateSet = 0 ∧
      (IndexResource.Create env req resp).resp.State = resp.State ∧
      (IndexResource.Create env req resp).panicked = true) := by
  refine ⟨by decide, by decide, by decide, by decide, by decide, by decide, by decide,
    by decide, ?_⟩
  intro env req resp err h1 hc h2 hn hprobe
  rw [IndexResource.Create_first_probe_nil env req resp err h1 hc h2 hn hprobe]
  exact ⟨rfl, rfl, rfl, rfl⟩

end Pinecone

namespace Pinecone

/-! ## The serverless placement -/

theorem quoteChar_length (c : Char) : 1 ≤ (quoteChar c).length := by
  unfold quoteChar
  split_ifs <;> simp

theorem quoteChars_length (cs : List Char) : cs.length ≤ (quoteChars cs).length := by
  induction cs with
  | nil => simp [quoteChars]
  | cons c cs ih =>
    have := quoteChar_length c
    simp only [quoteChars, List.length_cons, List.length_append]
    omega

/-- A quoted string is at least two characters longer than the string, so never equal to it. -/
theorem strconvQuote_ne (s : String) : strconvQuote s ≠ s := by
  intro h
  have hlen := congrArg String.length h
  have := quoteChars_length s.data
  simp only [strconvQuote, String.length, List.length_append, List.length_cons,
    List.length_nil] at hlen
  omega

/-- C14, the code at the failing input. Nil maps to nil in both directions and
the region survives the round trip, but the cloud does not: `NewIndexServerlessSpec`
reads it with `String()`, the quoted human-readable form, so the cloud `aws`
comes back as the five characters of `aws` between double quotes, and no cloud
at all comes back unchanged. -/
theorem serverless_round_trip_quotes_cloud :
    NewIndexServerlessSpecModel none = none ∧
    NewIndexServerlessSpec none = none ∧
    NewIndexServerlessSpec (NewIndexServerlessSpecModel (some awsServerless))
      = some { Cloud := quotedAws, Region := "us-west-2" } ∧
    quotedAws ≠ awsServerless.Cloud ∧
    quotedAws.length = 5 ∧
    (∀ s : ServerlessSpec,
      ∃ r, NewIndexServerlessSpec (NewIndexServerlessSpecModel (some s)) = some r ∧
        r.Region = s.Region ∧ r.Cloud = strconvQuote s.Cloud ∧ r.Cloud ≠ s.Cloud) := by
  refine ⟨rfl, rfl, by decide, by decide, by decide, ?_⟩
  intro s
  exact ⟨{ Cloud := strconvQuote s.Cloud, Region := s.Region }, rfl, rfl, rfl,
    strconvQuote_ne s.Cloud⟩

end Pinecone

namespace Pinecone

/-! ## The pod placement -/

theorem int32_of_fits (x : Int) (h1 : -2147483648 ≤ x) (h2 : x < 2147483648) : int32 x = x := by
  unfold int32
  omega

/-- What `NewIndexPodSpec` makes of the model of a pod spec, whatever the
decoding of the metadata configuration does. -/
theorem NewIndexPodSpec_round_trip
    (As : TfValue (TfValue (List String)) → PodSpecMetadataConfig × List Diagnostic)
    (p : PodSpec) :
    (NewIndexPodSpec As (NewIndexPodSpecModel (some p)).1).1 = none ∨
    ∃ s, (NewIndexPodSpec As (NewIndexPodSpecModel (some p)).1).1 = some s ∧
      s.SourceCollection = none ∧
      s.Environment = p.Environment ∧ s.PodType = p.PodType ∧
      s.PodCount = int32 p.PodCount ∧ s.Replicas = int32 p.Replicas ∧
      s.ShardCount = int32 p.ShardCount := by
  simp only [NewIndexPodSpecModel, NewIndexPodSpec, TfValue.IsUnknown, Bool.not_false,
    ↓reduceIte]
  split
  · left; rfl
  · right
    exact ⟨_, rfl, rfl, rfl, rfl, rfl, rfl, rfl⟩

/-- C15, the code at the failing input. Nil maps to nil in both directions,
and the environment, the pod type and the three counts, when they fit in 32
bits, survive the round trip whenever the conversion succeeds. The source
collection does not: `NewIndexPodSpec` never sets it, so the pod spec created
from the collection `snap` comes back with a nil source collection, whatever
the decoding of the metadata configuration does. -/
theorem pod_round_trip_drops_source_collection :
    NewIndexPodSpecModel none = (none, []) ∧
    (∀ As, NewIndexPodSpec As none = (none, [])) ∧
    NewIndexPodSpec lenientAs (NewIndexPodSpecModel (some snapshotPod)).1
      = (some { Environment := "us-west4-gcp", PodType := "s1.x1", PodCount := 1,
                Replicas := 1, ShardCount := 1, SourceCollection := none,
                MetadataConfig := some { Indexed := none } }, []) ∧
    (∀ As s, (NewIndexPodSpec As (NewIndexPodSpecModel (some snapshotPod)).1).1 = some s →
      s.SourceCollection = none ∧ s.SourceCollection ≠ snapshotPod.SourceCollection) ∧
    (∀ As (p : PodSpec),
      (NewIndexPodSpec As (NewIndexPodSpecModel (some p)).1).1 = none ∨
      ∃ s, (NewIndexPodSpec As (NewIndexPodSpecModel (some p)).1).1 = some s ∧
        s.SourceCollection = none ∧
        s.Environment = p.Environment ∧ s.PodType = p.PodType ∧
        s.PodCount = int32 p.PodCount ∧ s.Replicas = int32 p.Replicas ∧
        s.ShardCount = int32 p.ShardCount) ∧
    (∀ x : Int, -2147483648 ≤ x → x < 2147483648 → int32 x = x) := by
  refine ⟨rfl, fun _ => rfl, by decide, ?_, NewIndexPodSpec_round_trip, int32_of_fits⟩
  intro As s hs
  rcases NewIndexPodSpec_round_trip As snapshotPod with h | ⟨s1, h1, hsrc, _⟩
  · rw [h] at hs
    cases hs
  · rw [h1] at hs
    cases hs
    refine ⟨hsrc, ?_⟩
    rw [hsrc]
    decide

end Pinecone

namespace Pinecone

/-! ## Reading a collection into the model -/

/-- C16, the claim refuted: a null source and an unknown source both come out
of `readCollectionData` as the known empty string. -/
theorem readCollectionData_changes_null_source :
    importedState.Source = .null ∧
    (readCollectionData snapCollection importedState).Source = .known "" ∧
    (readCollectionData snapCollection importedState).Source ≠ importedState.Source ∧
    snapPlan.Source = .known "widget" ∧
    (readCollectionData snapCollection { snapPlan with Source := .unknown }).Source
      = .known "" := by
  refine ⟨rfl, rfl, by decide, rfl, rfl⟩

/-- C16 as amended. `readCollectionData(c, m)` sets id and name to the name of
`c`, size and status to the size and status of `c`, and the source to the known
string `m.Source.ValueString()`: a known source is left as it is, a null or
unknown source becomes the known empty string. -/
theorem readCollectionData_fields (c : Collection) (m : CollectionResourceModel) :
    (readCollectionData c m).Id = .known c.Name ∧
    (readCollectionData c m).Name = .known c.Name ∧
    (readCollectionData c m).Size = .known c.Size ∧
    (readCollectionData c m).Status = .known c.Status ∧
    (readCollectionData c m).Source = .known m.Source.ValueString ∧
    (∀ v, m.Source = .known v → (readCollectionData c m).Source = m.Source) ∧
    (m.Source = .null ∨ m.Source = .unknown → (readCollectionData c m).Source = .known "") := by
  refine ⟨rfl, rfl, rfl, rfl, rfl, ?_, ?_⟩
  · intro v hv
    simp [readCollectionData, hv, TfValue.ValueString]
  · intro h
    rcases h with h | h <;> simp [readCollectionData, h, TfValue.ValueString]

end Pinecone
